import Mathlib

/-!
# Shopping cart of Distribuidora La Victoria

Shallow embedding of the class `ShoppingCart` of
`src/frontend/assets/js/utils/shopping_cart_system.js`.

Modelling conventions.

* The object's fields `cart`, `isLoading`, `cartCount`, `cartTotal` are a record; every
  method is a function from the record before the call to an `Outcome`: the value
  returned, the record after the call, the remote calls issued (in order) and the
  notifications shown (in order).
* Everything a method reads from outside the object (whether `isUserLoggedIn()` is true,
  what `supabase.auth.getUser()` yields, the `data` and `error` of each query, the answer
  to `confirm`) is an argument of the function, one record per method.
* JavaScript numbers are exact integers here: prices are amounts in pesos, and
  `parseFloat` of a stored price is that amount. Rounding of floating point numbers is
  outside the model. Quantity arguments are integers, except in the section on
  `updateQuantity` called with `NaN`.
* A property access on `null` or `undefined` throws a `TypeError`, which the surrounding
  `try` catches; these are the values `Thrown.typeError`.
* A method runs to completion before the next one starts, except in the section on
  other code running at the awaits, where what runs during each `await` is an argument.
* The section on explicit exceptions gives the six methods a second time, with every
  `await` able to reject, with an object or with `undefined` or `null`, and proves them
  equal to the first rendering when none does.
-/

namespace DulceriaCart

/-! ## Data -/

abbrev ProductId := String

abbrev UserId := String

abbrev OrderId := Nat

/-- An error object of the store client; only its `message` is read. -/
structure StoreError where
  message : String
deriving DecidableEq, Repr

/-- The pair `{ data, error }` a query resolves to. -/
structure Response (α : Type) where
  data : Option α
  error : Option StoreError
deriving DecidableEq, Repr

/-- A row of `products` as selected by the cart (`unit` may be null). -/
structure Product where
  stock : Int
  active : Bool
  name : String
  price : Int
  image_url : String
  unit : Option String
deriving DecidableEq, Repr

/-- A row of `cart` joined with its product; `products` is null when the join is empty. -/
structure CartRow where
  product_id : ProductId
  quantity : Int
  products : Option Product
deriving DecidableEq, Repr

/-- An element of `this.cart`. -/
structure CartItem where
  id : ProductId
  name : String
  price : Int
  image : String
  quantity : Int
  stock : Int
  unit : String
  active : Bool
deriving DecidableEq, Repr

/-- The argument of `checkout`. -/
structure ShippingData where
  address : String
  phone : String
  notes : Option String
deriving DecidableEq, Repr

/-- The object inserted into `orders`. -/
structure OrderData where
  user_id : UserId
  total_amount : Int
  shipping_address : String
  phone : String
  notes : Option String
  status : String
deriving DecidableEq, Repr

/-- The row `orders` gives back after the insert. -/
structure OrderRow where
  id : OrderId
  order_number : String
deriving DecidableEq, Repr

/-- An object inserted into `order_items`. -/
structure OrderItem where
  order_id : OrderId
  product_id : ProductId
  quantity : Int
  unit_price : Int
  total_price : Int
deriving DecidableEq, Repr

/-- A call the cart sends to the session provider or to the store. -/
inductive StoreCall where
  | getUser
  | selectCart (userId : UserId)
  | selectProduct (productId : ProductId)
  | upsertCart (userId : UserId) (productId : ProductId) (quantity : Int)
  | updateCart (userId : UserId) (productId : ProductId) (quantity : Int)
  | deleteCartRow (userId : UserId) (productId : ProductId)
  | deleteCart (userId : UserId)
  | insertOrder (order : OrderData)
  | insertOrderItems (items : List OrderItem)
deriving DecidableEq, Repr

/-- Whether the call is the upsert into `cart`. -/
def StoreCall.isCartUpsert : StoreCall → Bool
  | .upsertCart _ _ _ => true
  | _ => false

/-- Whether the call deletes rows of `cart`. -/
def StoreCall.isCartDelete : StoreCall → Bool
  | .deleteCartRow _ _ => true
  | .deleteCart _ => true
  | _ => false

/-- Whether the call inserts into `order_items`. -/
def StoreCall.isOrderItemsInsert : StoreCall → Bool
  | .insertOrderItems _ => true
  | _ => false

/-- Whether the call writes to `orders`, `order_items` or `cart`. -/
def StoreCall.isWrite : StoreCall → Bool
  | .getUser => false
  | .selectCart _ => false
  | .selectProduct _ => false
  | _ => true

/-- Whether the call selects a row of `products`. -/
def StoreCall.isProductSelect : StoreCall → Bool
  | .selectProduct _ => true
  | _ => false

/-- Whether the call writes a quantity into `cart` (upsert or update). -/
def StoreCall.isCartQuantityWrite : StoreCall → Bool
  | .upsertCart _ _ _ => true
  | .updateCart _ _ _ => true
  | _ => false

/-- The expression `x || 'UND'` on a unit label: null and the empty string are falsy. -/
def unitOrUND : Option String → String
  | some u => if u = "" then "UND" else u
  | none => "UND"

/-- The expression `shippingData.notes || null`. -/
def notesOrNull : Option String → Option String
  | some n => if n = "" then none else some n
  | none => none

/-- What a `try` block of the cart can throw. -/
inductive Thrown where
  | productNotFound
  | productUnavailable
  | stockAdd (stock : Int) (unit : Option String)
  | stockUpdate (stock : Int)
  | store (e : StoreError)
  | typeError (value : String) (property : String)
deriving DecidableEq, Repr

/-- The `message` of the thrown error; that of a `TypeError` is worded as V8 words it for
the read of the property `property` on `value`, itself `null` or `undefined`. -/
def Thrown.message : Thrown → String
  | .productNotFound => "Producto no encontrado"
  | .productUnavailable => "Producto no disponible"
  | .stockAdd stock unit =>
      "Stock insuficiente. Disponible: " ++ toString stock ++ " " ++ unitOrUND unit
  | .stockUpdate stock => "Stock insuficiente. Disponible: " ++ toString stock
  | .store e => e.message
  | .typeError value property =>
      "Cannot read properties of " ++ value ++ " (reading \x27" ++ property ++ "\x27)"

/-- A call `showNotification(message, type)`. -/
structure Notice where
  message : String
  type : String
deriving DecidableEq, Repr

/-- The notification of `showLoginAlert`. -/
def loginAlert : Notice :=
  ⟨"Por favor, inicia sesión para agregar productos al carrito", "error"⟩

/-- The fields of a `ShoppingCart` object. -/
structure ShoppingCart where
  cart : List CartItem
  isLoading : Bool
  cartCount : Int
  cartTotal : Int
deriving DecidableEq, Repr

/-- The fields as the constructor sets them. -/
def ShoppingCart.new : ShoppingCart :=
  { cart := [], isLoading := false, cartCount := 0, cartTotal := 0 }

/-- The projection `getCart()`: items, count and total. -/
def getCart (s : ShoppingCart) : List CartItem × Int × Int :=
  (s.cart, s.cartCount, s.cartTotal)

/-- The method `setLoading`. -/
def setLoading (s : ShoppingCart) (loading : Bool) : ShoppingCart :=
  { s with isLoading := loading }

/-- The method `calculateTotals`: two `reduce` passes from 0. -/
def calculateTotals (s : ShoppingCart) : ShoppingCart :=
  { s with
    cartCount := s.cart.foldl (fun total item => total + item.quantity) 0
    cartTotal := s.cart.foldl (fun total item => total + item.price * item.quantity) 0 }

/-- What a method call produces. -/
structure Outcome (ρ : Type) where
  result : ρ
  state : ShoppingCart
  calls : List StoreCall
  notices : List Notice

/-- The `catch` and `finally` blocks shared by the mutating methods: notify the message,
return false, `setLoading(false)`. -/
def caught (s : ShoppingCart) (calls : List StoreCall) (e : Thrown) : Outcome Bool :=
  { result := false, state := setLoading s false, calls := calls,
    notices := [⟨e.message, "error"⟩] }

/-- The assignment `item.quantity = q` on the element `find` returns: the first element
whose id is `productId`; the list is untouched when there is none. -/
def setQuantity (productId : ProductId) (q : Int) : List CartItem → List CartItem
  | [] => []
  | item :: rest =>
      if item.id = productId then { item with quantity := q } :: rest
      else item :: setQuantity productId q rest

/-! ## loadCartFromDB -/

/-- The callback of `cartItems.map` in `loadCartFromDB`; reading `item.products.name` of a
row without product throws. -/
def rowToItem (item : CartRow) : Option CartItem :=
  match item.products with
  | none => none
  | some products =>
      some { id := item.product_id, name := products.name, price := products.price,
             image := products.image_url, quantity := item.quantity,
             stock := products.stock, unit := unitOrUND products.unit,
             active := products.active }

/-- The `map` of `loadCartFromDB` over all rows: `none` when the callback throws. -/
def mapRows : List CartRow → Option (List CartItem)
  | [] => some []
  | row :: rows =>
      match rowToItem row, mapRows rows with
      | some item, some items => some (item :: items)
      | _, _ => none

/-- What `loadCartFromDB` reads from outside. -/
structure LoadEnv where
  loggedIn : Bool
  user : Option UserId
  cartItems : Response (List CartRow)
deriving DecidableEq, Repr

/-- The method `loadCartFromDB`. -/
def loadCartFromDB (s : ShoppingCart) (env : LoadEnv) : Outcome Unit :=
  if !env.loggedIn then
    { result := (), state := { s with cart := [] }, calls := [], notices := [] }
  else
    match env.user with
    | none =>
        { result := (), state := { s with cart := [] }, calls := [.getUser], notices := [] }
    | some uid =>
        let calls := [StoreCall.getUser, StoreCall.selectCart uid]
        match env.cartItems.error with
        | some _ =>
            { result := (), state := { s with cart := [] }, calls := calls, notices := [] }
        | none =>
            match env.cartItems.data with
            | none =>
                { result := (), state := calculateTotals { s with cart := [] },
                  calls := calls, notices := [] }
            | some rows =>
                match mapRows rows with
                | none =>
                    { result := (), state := { s with cart := [] }, calls := calls,
                      notices := [] }
                | some items =>
                    { result := (), state := calculateTotals { s with cart := items },
                      calls := calls, notices := [] }

/-! ## addToCart -/

/-- What `addToCart` reads from outside. -/
structure AddEnv where
  loggedIn : Bool
  product : Response Product
  user : Option UserId
  upsertError : Option StoreError
deriving DecidableEq, Repr

/-- The method `addToCart`. -/
def addToCart (s : ShoppingCart) (env : AddEnv) (productId : ProductId)
    (productName : String) (_productPrice : Int) (_productImage : String)
    (quantity : Int) : Outcome Bool :=
  if !env.loggedIn then
    { result := false, state := s, calls := [], notices := [loginAlert] }
  else
    let s0 := setLoading s true
    let c1 := [StoreCall.selectProduct productId]
    match env.product.error, env.product.data with
    | some _, _ => caught s0 c1 .productNotFound
    | none, none => caught s0 c1 .productNotFound
    | none, some product =>
        if !product.active then caught s0 c1 .productUnavailable
        else
          let existingItem := s0.cart.find? (fun item => item.id = productId)
          let currentQuantity :=
            match existingItem with
            | some item => item.quantity
            | none => 0
          let newTotalQuantity := currentQuantity + quantity
          if newTotalQuantity > product.stock then
            caught s0 c1 (.stockAdd product.stock product.unit)
          else
            match env.user with
            | none => caught s0 (c1 ++ [.getUser]) (.typeError "null" "id")
            | some uid =>
                let c2 := c1 ++ [.getUser, .upsertCart uid productId newTotalQuantity]
                match env.upsertError with
                | some e => caught s0 c2 (.store e)
                | none =>
                    let cart1 :=
                      match existingItem with
                      | some _ => setQuantity productId newTotalQuantity s0.cart
                      | none =>
                          s0.cart ++
                            [{ id := productId, name := product.name,
                               price := product.price, image := product.image_url,
                               quantity := quantity, stock := product.stock,
                               unit := unitOrUND product.unit,
                               active := product.active }]
                    let s1 := calculateTotals { s0 with cart := cart1 }
                    { result := true, state := setLoading s1 false, calls := c2,
                      notices := [⟨productName ++ " agregado al carrito", "success"⟩] }

/-! ## removeFromCart -/

/-- What `removeFromCart` reads from outside. -/
structure RemoveEnv where
  loggedIn : Bool
  user : Option UserId
  deleteError : Option StoreError
deriving DecidableEq, Repr

/-- The method `removeFromCart`. -/
def removeFromCart (s : ShoppingCart) (env : RemoveEnv) (productId : ProductId) :
    Outcome Bool :=
  if !env.loggedIn then
    { result := false, state := s, calls := [], notices := [] }
  else
    let s0 := setLoading s true
    match env.user with
    | none => caught s0 [.getUser] (.typeError "null" "id")
    | some uid =>
        let calls := [StoreCall.getUser, StoreCall.deleteCartRow uid productId]
        match env.deleteError with
        | some e => caught s0 calls (.store e)
        | none =>
            let s1 :=
              calculateTotals
                { s0 with cart := s0.cart.filter (fun item => item.id ≠ productId) }
            { result := true, state := setLoading s1 false, calls := calls,
              notices := [⟨"Producto removido del carrito", "success"⟩] }

/-! ## updateQuantity -/

/-- What `updateQuantity` reads from outside; `remove` is what the nested
`removeFromCart` reads. -/
structure UpdateEnv where
  loggedIn : Bool
  remove : RemoveEnv
  product : Response Product
  user : Option UserId
  updateError : Option StoreError
deriving DecidableEq, Repr

/-- The method `updateQuantity`, for an integer `newQuantity`; `updateQuantityNaN` is
the method for `NaN`. -/
def updateQuantity (s : ShoppingCart) (env : UpdateEnv) (productId : ProductId)
    (newQuantity : Int) : Outcome Bool :=
  if !env.loggedIn then
    { result := false, state := s, calls := [], notices := [] }
  else
    let s0 := setLoading s true
    if newQuantity ≤ 0 then
      let o := removeFromCart s0 env.remove productId
      { o with state := setLoading o.state false }
    else
      let c1 := [StoreCall.selectProduct productId]
      match env.product.error with
      | some e => caught s0 c1 (.store e)
      | none =>
          match env.product.data with
          | none => caught s0 c1 (.typeError "null" "stock")
          | some product =>
              if newQuantity > product.stock then
                caught s0 c1 (.stockUpdate product.stock)
              else
                match env.user with
                | none => caught s0 (c1 ++ [.getUser]) (.typeError "null" "id")
                | some uid =>
                    let c2 := c1 ++ [.getUser, .updateCart uid productId newQuantity]
                    match env.updateError with
                    | some e => caught s0 c2 (.store e)
                    | none =>
                        let s1 :=
                          calculateTotals
                            { s0 with cart := setQuantity productId newQuantity s0.cart }
                        { result := true, state := setLoading s1 false, calls := c2,
                          notices := [] }

/-! ## clearCart -/

/-- What `clearCart` reads from outside; `confirm` is the answer to the dialog. -/
structure ClearEnv where
  loggedIn : Bool
  confirm : Bool
  user : Option UserId
  deleteError : Option StoreError
deriving DecidableEq, Repr

/-- The method `clearCart`. -/
def clearCart (s : ShoppingCart) (env : ClearEnv) : Outcome Bool :=
  if !env.loggedIn then
    { result := false, state := s, calls := [], notices := [] }
  else if !env.confirm then
    { result := false, state := s, calls := [], notices := [] }
  else
    let s0 := setLoading s true
    match env.user with
    | none => caught s0 [.getUser] (.typeError "null" "id")
    | some uid =>
        let calls := [StoreCall.getUser, StoreCall.deleteCart uid]
        match env.deleteError with
        | some e => caught s0 calls (.store e)
        | none =>
            let s1 := calculateTotals { s0 with cart := [] }
            { result := true, state := setLoading s1 false, calls := calls,
              notices := [⟨"Carrito vaciado", "success"⟩] }

/-! ## checkout -/

/-- What `checkout` returns: `false`, `{ success: true, orderNumber, orderId }` or
`{ success: false, error }`. -/
inductive CheckoutResult where
  | refused
  | success (orderNumber : String) (orderId : OrderId)
  | failure (error : String)
deriving DecidableEq, Repr

/-- What `checkout` reads from outside; `clear` is what the nested `clearCart` reads. -/
structure CheckoutEnv where
  loggedIn : Bool
  user : Option UserId
  order : Response OrderRow
  itemsError : Option StoreError
  clear : ClearEnv
deriving DecidableEq, Repr

/-- The `catch` and `finally` blocks of `checkout`. -/
def checkoutCaught (s : ShoppingCart) (calls : List StoreCall) (e : Thrown) :
    Outcome CheckoutResult :=
  { result := .failure e.message, state := setLoading s false, calls := calls,
    notices := [⟨"Error al procesar la compra: " ++ e.message, "error"⟩] }

/-- The callback of `this.cart.map` in `checkout`. -/
def toOrderItem (orderId : OrderId) (item : CartItem) : OrderItem :=
  { order_id := orderId, product_id := item.id, quantity := item.quantity,
    unit_price := item.price, total_price := item.price * item.quantity }

/-- The method `checkout`; the argument is `none` when the caller passes no object. -/
def checkout (s : ShoppingCart) (env : CheckoutEnv) (shippingData : Option ShippingData) :
    Outcome CheckoutResult :=
  if !env.loggedIn then
    { result := .refused, state := s, calls := [], notices := [loginAlert] }
  else if s.cart.length = 0 then
    { result := .refused, state := s, calls := [],
      notices := [⟨"El carrito está vacío", "error"⟩] }
  else
    let s0 := setLoading s true
    match env.user, shippingData with
    | none, _ => checkoutCaught s0 [.getUser] (.typeError "null" "id")
    | some _, none => checkoutCaught s0 [.getUser] (.typeError "undefined" "address")
    | some uid, some shipping =>
        let orderData : OrderData :=
          { user_id := uid, total_amount := s0.cartTotal,
            shipping_address := shipping.address, phone := shipping.phone,
            notes := notesOrNull shipping.notes, status := "pending" }
        let c1 := [StoreCall.getUser, StoreCall.insertOrder orderData]
        match env.order.error with
        | some e => checkoutCaught s0 c1 (.store e)
        | none =>
            match env.order.data with
            | none => checkoutCaught s0 c1 (.typeError "null" "id")
            | some order =>
                let orderItems := s0.cart.map (toOrderItem order.id)
                let c2 := c1 ++ [StoreCall.insertOrderItems orderItems]
                match env.itemsError with
                | some e => checkoutCaught s0 c2 (.store e)
                | none =>
                    let o := clearCart s0 env.clear
                    { result := .success order.order_number order.id,
                      state := setLoading o.state false,
                      calls := c2 ++ o.calls,
                      notices :=
                        o.notices ++ [⟨"¡Pedido realizado exitosamente!", "success"⟩] }

/-! ## The handler of `AUTH_STATE_CHANGED` -/

/-- The branch of the handler for the state `UNAUTHENTICATED`. -/
def onUnauthenticated (s : ShoppingCart) : Outcome Unit :=
  { result := (), state := calculateTotals { s with cart := [] }, calls := [],
    notices := [] }

/-- The branch of the handler for the state `AUTHENTICATED`. -/
def onAuthenticated (s : ShoppingCart) (env : LoadEnv) : Outcome Unit :=
  loadCartFromDB s env

/-- A `CustomEvent` as far as the cart's listener reads it: its type and
`event.detail.state`. -/
structure CustomEvent where
  type : String
  state : String
deriving DecidableEq, Repr

/-- The event type `setupEventListeners` passes to `window.authManager.on`. -/
def cartListenerType : String := "AUTH_STATE_CHANGED"

/-- The listener `setupEventListeners` registers: it compares `event.detail.state` with
the strings 'AUTHENTICATED' and 'UNAUTHENTICATED' and does nothing for any other. -/
def authStateListener (s : ShoppingCart) (env : LoadEnv) (event : CustomEvent) :
    Outcome Unit :=
  if event.state = "AUTHENTICATED" then onAuthenticated s env
  else if event.state = "UNAUTHENTICATED" then onUnauthenticated s
  else { result := (), state := s, calls := [], notices := [] }

/-! ## AuthManager (`auth_manager.js`) -/

/-- The value `AuthManager.AUTH_STATES.AUTHENTICATED`. -/
def AUTH_STATES.AUTHENTICATED : String := "authenticated"

/-- The value `AuthManager.AUTH_STATES.UNAUTHENTICATED`. -/
def AUTH_STATES.UNAUTHENTICATED : String := "unauthenticated"

/-- The value `AuthManager.AUTH_STATES.LOADING`. -/
def AUTH_STATES.LOADING : String := "loading"

/-- The value `AuthManager.AUTH_STATES.ERROR`. -/
def AUTH_STATES.ERROR : String := "error"

/-- The value `AuthManager.EVENTS.AUTH_STATE_CHANGED`. -/
def EVENTS.AUTH_STATE_CHANGED : String := "authStateChanged"

/-- The event the method `_setAuthState(state)` dispatches on the manager's event target:
its type is `EVENTS.AUTH_STATE_CHANGED`, its `detail.state` the new state. -/
def AuthManager.setAuthState (state : String) : CustomEvent :=
  { type := EVENTS.AUTH_STATE_CHANGED, state := state }

/-- What `eventTarget.dispatchEvent(event)` does to the cart: `on` adds the listener with
`addEventListener(cartListenerType, ...)`, so it runs exactly for events of that type. -/
def dispatchToCart (s : ShoppingCart) (env : LoadEnv) (event : CustomEvent) :
    Outcome Unit :=
  if event.type = cartListenerType then authStateListener s env event
  else { result := (), state := s, calls := [], notices := [] }

/-! ## Derived quantities and runs -/

/-- The quantity `addToCart` reads from the cache before adding: that of the element
`find` returns, 0 when there is none (`currentQuantity` in the source). -/
def cachedQuantity (cart : List CartItem) (productId : ProductId) : Int :=
  match cart.find? (fun item => item.id = productId) with
  | some item => item.quantity
  | none => 0

/-- Sum of the quantities of the lines. -/
def lineCount (cart : List CartItem) : Int :=
  (cart.map (fun item => item.quantity)).sum

/-- Sum of price times quantity over the lines. -/
def lineTotal (cart : List CartItem) : Int :=
  (cart.map (fun item => item.price * item.quantity)).sum

/-- The counters agree with the lines. -/
def Synced (s : ShoppingCart) : Prop :=
  s.cartCount = lineCount s.cart ∧ s.cartTotal = lineTotal s.cart

/-- The three ways a method leaves the object: cache untouched, counters recomputed, or
lines emptied. -/
def Step (s t : ShoppingCart) : Prop :=
  getCart t = getCart s ∨ Synced t ∨ t.cart = []

/-- The states the object can be in: the constructor's, and any state after a call of a
public method or of the sign-out handler, whatever the store and the session answer. -/
inductive Reachable : ShoppingCart → Prop where
  | new : Reachable ShoppingCart.new
  | load (s : ShoppingCart) (env : LoadEnv) :
      Reachable s → Reachable (loadCartFromDB s env).state
  | add (s : ShoppingCart) (env : AddEnv) (productId : ProductId) (productName : String)
      (productPrice : Int) (productImage : String) (quantity : Int) :
      Reachable s →
      Reachable
        (addToCart s env productId productName productPrice productImage quantity).state
  | update (s : ShoppingCart) (env : UpdateEnv) (productId : ProductId)
      (newQuantity : Int) :
      Reachable s → Reachable (updateQuantity s env productId newQuantity).state
  | remove (s : ShoppingCart) (env : RemoveEnv) (productId : ProductId) :
      Reachable s → Reachable (removeFromCart s env productId).state
  | clear (s : ShoppingCart) (env : ClearEnv) :
      Reachable s → Reachable (clearCart s env).state
  | checkout (s : ShoppingCart) (env : CheckoutEnv) (shippingData : Option ShippingData) :
      Reachable s → Reachable (checkout s env shippingData).state
  | signOut (s : ShoppingCart) : Reachable s → Reachable (onUnauthenticated s).state

/-- A call of `addToCart` or of `updateQuantity`, with what it reads from outside. -/
inductive CartCall where
  | add (env : AddEnv) (productId : ProductId) (productName : String) (productPrice : Int)
      (productImage : String) (quantity : Int)
  | update (env : UpdateEnv) (productId : ProductId) (newQuantity : Int)

/-- Run the call. -/
def CartCall.run (s : ShoppingCart) : CartCall → Outcome Bool
  | .add env productId productName productPrice productImage quantity =>
      addToCart s env productId productName productPrice productImage quantity
  | .update env productId newQuantity => updateQuantity s env productId newQuantity

/-- The product id and the stock figure the call gets from `products`, when it selects
one: `updateQuantity` selects none for a quantity of 0 or less. -/
def CartCall.fetched : CartCall → Option (ProductId × Int)
  | .add env productId _ _ _ _ => env.product.data.map (fun p => (productId, p.stock))
  | .update env productId newQuantity =>
      if newQuantity ≤ 0 then none
      else env.product.data.map (fun p => (productId, p.stock))

/-- Run the calls one after the other as long as each returns true; next to the object,
keep the stock figures fetched so far, latest first. `none` when a call returns false. -/
def runSuccessful (s : ShoppingCart) (fetched : List (ProductId × Int)) :
    List CartCall → Option (ShoppingCart × List (ProductId × Int))
  | [] => some (s, fetched)
  | c :: cs =>
      if (c.run s).result = true then
        runSuccessful (c.run s).state (c.fetched.toList ++ fetched) cs
      else none

/-- The lines have pairwise distinct ids and each holds at most the stock figure last
fetched for its product. -/
def WithinFetched (s : ShoppingCart) (fetched : List (ProductId × Int)) : Prop :=
  (s.cart.map (fun item => item.id)).Nodup ∧
  ∀ line ∈ s.cart, ∃ stock, fetched.lookup line.id = some stock ∧ line.quantity ≤ stock

/-- The line without its stock snapshot: two lists of lines with the same image under
this map differ at most in the stock snapshots. -/
def eraseStock (item : CartItem) : CartItem := { item with stock := 0 }

/-- The line `loadCartFromDB` builds from a row's product id, quantity and product. -/
def lineOfRow (row : ProductId × Int × Product) : CartItem :=
  { id := row.1, name := row.2.2.name, price := row.2.2.price, image := row.2.2.image_url,
    quantity := row.2.1, stock := row.2.2.stock, unit := unitOrUND row.2.2.unit,
    active := row.2.2.active }

/-- The fetched row carrying a product id, a quantity and the joined product. -/
def rowOf (row : ProductId × Int × Product) : CartRow :=
  { product_id := row.1, quantity := row.2.1, products := some row.2.2 }

/-! ## Sample data -/

/-- A product with 5 units in stock. -/
def caramelo : Product :=
  { stock := 5, active := true, name := "Caramelo", price := 1000, image_url := "c.png",
    unit := none }

/-- The same product once the store has 10 units. -/
def carameloRestocked : Product := { caramelo with stock := 10 }

/-- A second product. -/
def chicle : Product :=
  { stock := 20, active := true, name := "Chicle", price := 500, image_url := "g.png",
    unit := some "CAJA" }

/-- A cache holding 3 units of the first product. -/
def cartOfThree : ShoppingCart :=
  { cart := [{ id := "p1", name := "Caramelo", price := 1000, image := "c.png",
               quantity := 3, stock := 5, unit := "UND", active := true }],
    isLoading := false, cartCount := 3, cartTotal := 3000 }

/-- A cache with two lines: 2 at 1000 and 3 at 500. -/
def cartOfTwoLines : ShoppingCart :=
  { cart := [{ id := "p1", name := "Caramelo", price := 1000, image := "c.png",
               quantity := 2, stock := 5, unit := "UND", active := true },
             { id := "p2", name := "Chicle", price := 500, image := "g.png",
               quantity := 3, stock := 20, unit := "CAJA", active := true }],
    isLoading := false, cartCount := 5, cartTotal := 3500 }

/-- The rows whose load gives `cartOfTwoLines`. -/
def rowsOfTwoLines : List CartRow :=
  [{ product_id := "p1", quantity := 2, products := some caramelo },
   { product_id := "p2", quantity := 3, products := some chicle }]

/-- A load that succeeds with `rowsOfTwoLines`. -/
def loadTwoLines : LoadEnv :=
  { loggedIn := true, user := some "u1", cartItems := ⟨some rowsOfTwoLines, none⟩ }

/-- A load whose select reports an error. -/
def loadFails : LoadEnv :=
  { loggedIn := true, user := some "u1", cartItems := ⟨none, some ⟨"network"⟩⟩ }

/-- An add where the store answers with `caramelo` and accepts the upsert. -/
def addOk : AddEnv :=
  { loggedIn := true, product := ⟨some caramelo, none⟩, user := some "u1",
    upsertError := none }

/-- An add whose upsert reports an error. -/
def addWriteFails : AddEnv := { addOk with upsertError := some ⟨"network"⟩ }

/-- A removal the store accepts. -/
def removeOk : RemoveEnv := { loggedIn := true, user := some "u1", deleteError := none }

/-- A removal whose delete reports an error. -/
def removeWriteFails : RemoveEnv := { removeOk with deleteError := some ⟨"network"⟩ }

/-- An update where the store now answers 10 units and accepts the write. -/
def updateRestocked : UpdateEnv :=
  { loggedIn := true, remove := removeOk, product := ⟨some carameloRestocked, none⟩,
    user := some "u1", updateError := none }

/-- An update whose write reports an error. -/
def updateWriteFails : UpdateEnv := { updateRestocked with updateError := some ⟨"network"⟩ }

/-- A clear the user confirms and the store accepts. -/
def clearOk : ClearEnv :=
  { loggedIn := true, confirm := true, user := some "u1", deleteError := none }

/-- A clear the user declines in the dialog. -/
def clearDeclined : ClearEnv := { clearOk with confirm := false }

/-- A clear whose delete reports an error. -/
def clearWriteFails : ClearEnv := { clearOk with deleteError := some ⟨"network"⟩ }

/-- The order row the store gives back. -/
def orderSeven : OrderRow := { id := 7, order_number := "ORD-7" }

/-- A checkout in which every call succeeds and the user confirms the clear. -/
def checkoutOk : CheckoutEnv :=
  { loggedIn := true, user := some "u1", order := ⟨some orderSeven, none⟩,
    itemsError := none, clear := clearOk }

/-- A checkout in which every call succeeds and the user declines the clear dialog. -/
def checkoutDeclined : CheckoutEnv := { checkoutOk with clear := clearDeclined }

/-- A checkout whose insert into `orders` reports an error. -/
def checkoutHeaderFails : CheckoutEnv :=
  { checkoutOk with order := ⟨none, some ⟨"orders down"⟩⟩ }

/-- A checkout whose insert into `order_items` reports an error. -/
def checkoutLinesFail : CheckoutEnv :=
  { checkoutOk with itemsError := some ⟨"items down"⟩ }

/-- A shipping form. -/
def shipTo : ShippingData := { address := "Calle 1", phone := "300", notes := none }

/-- The cache of `cartOfThree` with another stock snapshot on its line. -/
def cartOfThreeStale : ShoppingCart :=
  { cart := [{ id := "p1", name := "Caramelo", price := 1000, image := "c.png",
               quantity := 3, stock := 99, unit := "UND", active := true }],
    isLoading := false, cartCount := 3, cartTotal := 3000 }

/-- The first product once the store has marked it inactive. -/
def carameloInactive : Product := { caramelo with active := false }

/-- An update where the store answers with the inactive product and accepts the write. -/
def updateInactive : UpdateEnv :=
  { loggedIn := true, remove := removeOk, product := ⟨some carameloInactive, none⟩,
    user := some "u1", updateError := none }

/-- An add where the store answers with the inactive product. -/
def addInactive : AddEnv := { addOk with product := ⟨some carameloInactive, none⟩ }

/-- The answers seen while no user is signed in. -/
def addSignedOut : AddEnv := { addOk with loggedIn := false }

/-- An update while no user is signed in. -/
def updateSignedOut : UpdateEnv := { updateRestocked with loggedIn := false }

/-- A removal while no user is signed in. -/
def removeSignedOut : RemoveEnv := { removeOk with loggedIn := false }

/-- A clear while no user is signed in. -/
def clearSignedOut : ClearEnv := { clearOk with loggedIn := false }

/-- A checkout while no user is signed in. -/
def checkoutSignedOut : CheckoutEnv := { checkoutOk with loggedIn := false }

/-! ## Further predicates and sample data -/

/-- Whether the call goes to `orders` or `order_items`: the two inserts of `checkout` are
the only calls the cart sends to these tables. -/
def StoreCall.isOrderWrite : StoreCall → Bool
  | .insertOrder _ => true
  | .insertOrderItems _ => true
  | _ => false

/-- A checkout in which both inserts succeed and the delete of the cart rows reports an
error. -/
def checkoutClearFails : CheckoutEnv := { checkoutOk with clear := clearWriteFails }

/-- An update for the second product, which the store reports with 20 units. -/
def updateChicle : UpdateEnv := { updateRestocked with product := ⟨some chicle, none⟩ }

/-- An add for the second product. -/
def addChicle : AddEnv := { addOk with product := ⟨some chicle, none⟩ }

/-- The state after adding 2 units at 1000 and then a load whose select fails: no lines,
count 2, total 2000. -/
def cartStale : ShoppingCart :=
  (loadCartFromDB (addToCart ShoppingCart.new addOk "p1" "Caramelo" 1000 "c.png" 2).state
    loadFails).state

/-! ## The shape of returned values -/

/-- A value a public method returns, by shape: a bare `true` or `false`, or an object
`{ success, error?, ... }`. -/
inductive ReturnValue where
  | bare (value : Bool)
  | object (success : Bool) (error : Option String)
deriving DecidableEq, Repr

/-- The shape of what `checkout` returns. -/
def CheckoutResult.returned : CheckoutResult → ReturnValue
  | .refused => .bare false
  | .success _ _ => .object true none
  | .failure error => .object false (some error)

/-- Whether the value is a result object with a boolean `success` that carries an error
string when `success` is false. -/
def ReturnValue.isResultObject : ReturnValue → Bool
  | .bare _ => false
  | .object true _ => true
  | .object false error => error.isSome

/-! ## AuthManager._getSessionWithRetry -/

abbrev Session := String

/-- How one `await supabase.auth.getSession()` ends: it resolves with a session (or
null) and no error, resolves with an error, or throws (the promise rejects, or the
destructuring of a null `data` throws). -/
inductive SessionFetch where
  | resolved (session : Option Session)
  | errorResult (e : StoreError)
  | thrown (e : StoreError)
deriving DecidableEq, Repr

/-- The object `_getSessionWithRetry` returns. -/
structure SessionResult where
  success : Bool
  session : Option Session
  error : Option String
deriving DecidableEq, Repr

/-- A run of `_getSessionWithRetry`: the value returned (`none` for `undefined`), how
many times `getSession` was called, and the timeouts waited, in milliseconds, in order. -/
structure RetryRun where
  result : Option SessionResult
  attempts : Nat
  delays : List Nat
deriving DecidableEq, Repr

/-- The loop `for (let i = 0; i < this.maxRetries; i++)` from index `i` on; `fetch i` is
how the call of attempt `i` ends. The last argument bounds the number of rounds. -/
def getSessionLoop (maxRetries : Nat) (fetch : Nat → SessionFetch) : Nat → Nat → RetryRun
  | _, 0 => { result := none, attempts := 0, delays := [] }
  | i, rounds + 1 =>
      if i < maxRetries then
        match fetch i with
        | .resolved session =>
            { result := some { success := true, session := session, error := none },
              attempts := 1, delays := [] }
        | .errorResult e =>
            if i = maxRetries - 1 then
              { result := some { success := false, session := none, error := some e.message },
                attempts := 1, delays := [] }
            else
              let rest := getSessionLoop maxRetries fetch (i + 1) rounds
              { result := rest.result, attempts := rest.attempts + 1,
                delays := 1000 * (i + 1) :: rest.delays }
        | .thrown e =>
            if i = maxRetries - 1 then
              { result := some { success := false, session := none, error := some e.message },
                attempts := 1, delays := [] }
            else
              let rest := getSessionLoop maxRetries fetch (i + 1) rounds
              { result := rest.result, attempts := rest.attempts + 1, delays := rest.delays }
      else { result := none, attempts := 0, delays := [] }

/-- The field `maxRetries` as the constructor of `AuthManager` sets it. -/
def AuthManager.maxRetries : Nat := 3

/-- The method `_getSessionWithRetry`. -/
def AuthManager.getSessionWithRetry (fetch : Nat → SessionFetch) : RetryRun :=
  getSessionLoop AuthManager.maxRetries fetch 0 AuthManager.maxRetries

/-- The first attempt throws, the second resolves with a session. -/
def fetchThrownThenSession : Nat → SessionFetch
  | 0 => .thrown ⟨"Failed to fetch"⟩
  | _ => .resolved (some "ana@example.com")

/-- The first attempt resolves with an error, the second with a session. -/
def fetchErrorThenSession : Nat → SessionFetch
  | 0 => .errorResult ⟨"timeout"⟩
  | _ => .resolved (some "ana@example.com")

/-- Every attempt resolves with an error. -/
def fetchAlwaysError : Nat → SessionFetch := fun _ => .errorResult ⟨"timeout"⟩

/-- Every attempt throws. -/
def fetchAlwaysThrown : Nat → SessionFetch := fun _ => .thrown ⟨"Failed to fetch"⟩

/-! ## The methods with exceptions made explicit

A second rendering of the six methods, for what can escape them. Every `await` either
resolves with a value or rejects, with an object that has a `message` or with `undefined`
or `null` (`Except Raised`); a property read on `null` or `undefined` throws a
`TypeError`; a `try` block is a computation in `Except Raised`, and `catch` and `finally`
are the `match` on its result. The `catch` blocks of `addToCart`, `updateQuantity`,
`removeFromCart`, `clearCart` and `checkout` read `error.message`, itself a property
read; that of `loadCartFromDB` does not. A method returns `.ok` of the value it returns
paired with the object after the call, or `.error` of the exception that escapes to the
caller. Calls and notifications are not recorded here. -/

/-- What an `await` rejects with or a statement throws: an object with a `message` (an
`Error`, the error object of the store), or `undefined` or `null`, with which a promise
can be rejected as with any other value. -/
inductive Raised where
  | object (e : Thrown)
  | undefined
  | null
deriving DecidableEq, Repr

/-- The expression `error.message` of a `catch (error)` block: a property read, which
throws on `undefined` and on `null`. -/
def Raised.message : Raised → Except Thrown String
  | .object e => .ok e.message
  | .undefined => .error (Thrown.typeError "undefined" "message")
  | .null => .error (Thrown.typeError "null" "message")

/-- The `await` of a call of another method of the object: what escapes that method is
thrown at the `await`. -/
def awaitCall {α : Type} (call : Except Thrown α) : Except Raised α :=
  match call with
  | .ok value => .ok value
  | .error e => .error (Raised.object e)

/-- The expression `(await supabase.auth.getUser()).data.user.id`. -/
def awaitUserId (user : Except Raised (Option UserId)) : Except Raised UserId := do
  match ← user with
  | some uid => pure uid
  | none => throw (Raised.object (Thrown.typeError "null" "id"))

/-- What the awaits of `loadCartFromDB` do. -/
structure LoadAwaits where
  loggedIn : Bool
  user : Except Raised (Option UserId)
  cartItems : Except Raised (Response (List CartRow))

/-- The `try` block of `loadCartFromDB`. -/
def loadCartFromDBTry (s : ShoppingCart) (aw : LoadAwaits) : Except Raised ShoppingCart := do
  let _ ← awaitUserId aw.user
  let response ← aw.cartItems
  match response.error with
  | some e => throw (Raised.object (Thrown.store e))
  | none =>
      match response.data with
      | none => pure (calculateTotals { s with cart := [] })
      | some rows =>
          match mapRows rows with
          | none => throw (Raised.object (Thrown.typeError "null" "name"))
          | some items => pure (calculateTotals { s with cart := items })

/-- The method `loadCartFromDB`, exceptions explicit; its `catch` logs the value caught
and reads no property of it. -/
def loadCartFromDBExcept (s : ShoppingCart) (aw : LoadAwaits) :
    Except Thrown (Unit × ShoppingCart) :=
  if !aw.loggedIn then pure ((), { s with cart := [] })
  else
    match loadCartFromDBTry s aw with
    | .ok s1 => pure ((), s1)
    | .error _ => pure ((), { s with cart := [] })

/-- What the awaits of `addToCart` do. -/
structure AddAwaits where
  loggedIn : Bool
  product : Except Raised (Response Product)
  user : Except Raised (Option UserId)
  upsert : Except Raised (Option StoreError)

/-- The `try` block of `addToCart`, after `setLoading(true)`. -/
def addToCartTry (s0 : ShoppingCart) (aw : AddAwaits) (productId : ProductId)
    (quantity : Int) : Except Raised ShoppingCart := do
  let response ← aw.product
  match response.error, response.data with
  | some _, _ => throw (Raised.object Thrown.productNotFound)
  | none, none => throw (Raised.object Thrown.productNotFound)
  | none, some product =>
      if !product.active then throw (Raised.object Thrown.productUnavailable)
      else
        let existingItem := s0.cart.find? (fun item => item.id = productId)
        let currentQuantity :=
          match existingItem with
          | some item => item.quantity
          | none => 0
        let newTotalQuantity := currentQuantity + quantity
        if newTotalQuantity > product.stock then
          throw (Raised.object (Thrown.stockAdd product.stock product.unit))
        else do
          let _ ← awaitUserId aw.user
          match ← aw.upsert with
          | some e => throw (Raised.object (Thrown.store e))
          | none =>
              let cart1 :=
                match existingItem with
                | some _ => setQuantity productId newTotalQuantity s0.cart
                | none =>
                    s0.cart ++
                      [{ id := productId, name := product.name, price := product.price,
                         image := product.image_url, quantity := quantity,
                         stock := product.stock, unit := unitOrUND product.unit,
                         active := product.active }]
              pure (calculateTotals { s0 with cart := cart1 })

/-- The method `addToCart`, exceptions explicit. -/
def addToCartExcept (s : ShoppingCart) (aw : AddAwaits) (productId : ProductId)
    (quantity : Int) : Except Thrown (Bool × ShoppingCart) :=
  if !aw.loggedIn then pure (false, s)
  else
    let s0 := setLoading s true
    match addToCartTry s0 aw productId quantity with
    | .ok s1 => pure (true, setLoading s1 false)
    | .error error =>
        match error.message with
        | .ok _ => pure (false, setLoading s0 false)
        | .error e => throw e

/-- What the awaits of `removeFromCart` do. -/
structure RemoveAwaits where
  loggedIn : Bool
  user : Except Raised (Option UserId)
  delete : Except Raised (Option StoreError)

/-- The `try` block of `removeFromCart`, after `setLoading(true)`. -/
def removeFromCartTry (s0 : ShoppingCart) (aw : RemoveAwaits) (productId : ProductId) :
    Except Raised ShoppingCart := do
  let _ ← awaitUserId aw.user
  match ← aw.delete with
  | some e => throw (Raised.object (Thrown.store e))
  | none =>
      pure (calculateTotals
        { s0 with cart := s0.cart.filter (fun item => item.id ≠ productId) })

/-- The method `removeFromCart`, exceptions explicit. -/
def removeFromCartExcept (s : ShoppingCart) (aw : RemoveAwaits) (productId : ProductId) :
    Except Thrown (Bool × ShoppingCart) :=
  if !aw.loggedIn then pure (false, s)
  else
    let s0 := setLoading s true
    match removeFromCartTry s0 aw productId with
    | .ok s1 => pure (true, setLoading s1 false)
    | .error error =>
        match error.message with
        | .ok _ => pure (false, setLoading s0 false)
        | .error e => throw e

/-- What the awaits of `updateQuantity` do; `remove` is for the nested
`removeFromCart`. -/
structure UpdateAwaits where
  loggedIn : Bool
  remove : RemoveAwaits
  product : Except Raised (Response Product)
  user : Except Raised (Option UserId)
  update : Except Raised (Option StoreError)

/-- The `try` block of `updateQuantity`, after `setLoading(true)`; it yields the value
the block returns and the object at that point. -/
def updateQuantityTry (s0 : ShoppingCart) (aw : UpdateAwaits) (productId : ProductId)
    (newQuantity : Int) : Except Raised (Bool × ShoppingCart) := do
  if newQuantity ≤ 0 then
    awaitCall (removeFromCartExcept s0 aw.remove productId)
  else
    let response ← aw.product
    match response.error with
    | some e => throw (Raised.object (Thrown.store e))
    | none =>
        match response.data with
        | none => throw (Raised.object (Thrown.typeError "null" "stock"))
        | some product =>
            if newQuantity > product.stock then
              throw (Raised.object (Thrown.stockUpdate product.stock))
            else do
              let _ ← awaitUserId aw.user
              match ← aw.update with
              | some e => throw (Raised.object (Thrown.store e))
              | none =>
                  pure (true,
                    calculateTotals
                      { s0 with cart := setQuantity productId newQuantity s0.cart })

/-- The method `updateQuantity`, exceptions explicit. -/
def updateQuantityExcept (s : ShoppingCart) (aw : UpdateAwaits) (productId : ProductId)
    (newQuantity : Int) : Except Thrown (Bool × ShoppingCart) :=
  if !aw.loggedIn then pure (false, s)
  else
    let s0 := setLoading s true
    match updateQuantityTry s0 aw productId newQuantity with
    | .ok (value, s1) => pure (value, setLoading s1 false)
    | .error error =>
        match error.message with
        | .ok _ => pure (false, setLoading s0 false)
        | .error e => throw e

/-- What the awaits of `clearCart` do, and the answer to the dialog. -/
structure ClearAwaits where
  loggedIn : Bool
  confirm : Bool
  user : Except Raised (Option UserId)
  delete : Except Raised (Option StoreError)

/-- The `try` block of `clearCart`, after `setLoading(true)`. -/
def clearCartTry (s0 : ShoppingCart) (aw : ClearAwaits) : Except Raised ShoppingCart := do
  let _ ← awaitUserId aw.user
  match ← aw.delete with
  | some e => throw (Raised.object (Thrown.store e))
  | none => pure (calculateTotals { s0 with cart := [] })

/-- The method `clearCart`, exceptions explicit. -/
def clearCartExcept (s : ShoppingCart) (aw : ClearAwaits) :
    Except Thrown (Bool × ShoppingCart) :=
  if !aw.loggedIn then pure (false, s)
  else if !aw.confirm then pure (false, s)
  else
    let s0 := setLoading s true
    match clearCartTry s0 aw with
    | .ok s1 => pure (true, setLoading s1 false)
    | .error error =>
        match error.message with
        | .ok _ => pure (false, setLoading s0 false)
        | .error e => throw e

/-- What the awaits of `checkout` do; `clear` is for the nested `clearCart`. -/
structure CheckoutAwaits where
  loggedIn : Bool
  user : Except Raised (Option UserId)
  order : Except Raised (Response OrderRow)
  items : Except Raised (Option StoreError)
  clear : ClearAwaits

/-- The `try` block of `checkout`, after `setLoading(true)`; it yields the value the
block returns and the object at that point. -/
def checkoutTry (s0 : ShoppingCart) (aw : CheckoutAwaits)
    (shippingData : Option ShippingData) : Except Raised (CheckoutResult × ShoppingCart) := do
  let _ ← awaitUserId aw.user
  match shippingData with
  | none => throw (Raised.object (Thrown.typeError "undefined" "address"))
  | some _ =>
      let response ← aw.order
      match response.error with
      | some e => throw (Raised.object (Thrown.store e))
      | none =>
          match response.data with
          | none => throw (Raised.object (Thrown.typeError "null" "id"))
          | some order =>
              match ← aw.items with
              | some e => throw (Raised.object (Thrown.store e))
              | none =>
                  let (_, s1) ← awaitCall (clearCartExcept s0 aw.clear)
                  pure (CheckoutResult.success order.order_number order.id, s1)

/-- The method `checkout`, exceptions explicit. -/
def checkoutExcept (s : ShoppingCart) (aw : CheckoutAwaits)
    (shippingData : Option ShippingData) : Except Thrown (CheckoutResult × ShoppingCart) :=
  if !aw.loggedIn then pure (CheckoutResult.refused, s)
  else if s.cart.length = 0 then pure (CheckoutResult.refused, s)
  else
    let s0 := setLoading s true
    match checkoutTry s0 aw shippingData with
    | .ok (value, s1) => pure (value, setLoading s1 false)
    | .error error =>
        match error.message with
        | .ok message => pure (CheckoutResult.failure message, setLoading s0 false)
        | .error e => throw e

/-- The awaits of a `loadCartFromDB` in which every await resolves. -/
def LoadEnv.awaits (env : LoadEnv) : LoadAwaits :=
  { loggedIn := env.loggedIn, user := .ok env.user, cartItems := .ok env.cartItems }

/-- The awaits of an `addToCart` in which every await resolves. -/
def AddEnv.awaits (env : AddEnv) : AddAwaits :=
  { loggedIn := env.loggedIn, product := .ok env.product, user := .ok env.user,
    upsert := .ok env.upsertError }

/-- The awaits of a `removeFromCart` in which every await resolves. -/
def RemoveEnv.awaits (env : RemoveEnv) : RemoveAwaits :=
  { loggedIn := env.loggedIn, user := .ok env.user, delete := .ok env.deleteError }

/-- The awaits of an `updateQuantity` in which every await resolves. -/
def UpdateEnv.awaits (env : UpdateEnv) : UpdateAwaits :=
  { loggedIn := env.loggedIn, remove := env.remove.awaits, product := .ok env.product,
    user := .ok env.user, update := .ok env.updateError }

/-- The awaits of a `clearCart` in which every await resolves. -/
def ClearEnv.awaits (env : ClearEnv) : ClearAwaits :=
  { loggedIn := env.loggedIn, confirm := env.confirm, user := .ok env.user,
    delete := .ok env.deleteError }

/-- The awaits of a `checkout` in which every await resolves. -/
def CheckoutEnv.awaits (env : CheckoutEnv) : CheckoutAwaits :=
  { loggedIn := env.loggedIn, user := .ok env.user, order := .ok env.order,
    items := .ok env.itemsError, clear := env.clear.awaits }

/-- An add whose product select throws. -/
def addSelectThrows : AddAwaits :=
  { loggedIn := true, product := .error (.object (Thrown.store ⟨"Failed to fetch"⟩)),
    user := .ok (some "u1"), upsert := .ok none }

/-- A checkout in which no user comes back and the clear would throw. -/
def checkoutNoUser : CheckoutAwaits :=
  { loggedIn := true, user := .ok none,
    order := .error (.object (Thrown.store ⟨"Failed to fetch"⟩)),
    items := .error (.object (Thrown.store ⟨"Failed to fetch"⟩)),
    clear := { loggedIn := true, confirm := true,
               user := .error (.object (Thrown.store ⟨"Failed to fetch"⟩)),
               delete := .error (.object (Thrown.store ⟨"Failed to fetch"⟩)) } }

/-- A load whose rows hold one without product. -/
def loadMalformed : LoadAwaits :=
  { loggedIn := true, user := .ok (some "u1"),
    cartItems := .ok ⟨some [{ product_id := "p1", quantity := 1, products := none }], none⟩ }

/-- A removal whose delete is rejected with `undefined`. -/
def removeRejectsUndefined : RemoveAwaits :=
  { loggedIn := true, user := .ok (some "u1"), delete := .error .undefined }

/-- An add whose upsert is rejected with `undefined`. -/
def addRejectsUndefined : AddAwaits :=
  { loggedIn := true, product := .ok ⟨some caramelo, none⟩, user := .ok (some "u1"),
    upsert := .error .undefined }

/-- An update whose product select is rejected with `null`. -/
def updateRejectsNull : UpdateAwaits :=
  { loggedIn := true, remove := removeRejectsUndefined, product := .error .null,
    user := .ok (some "u1"), update := .ok none }

/-- A clear, confirmed, whose delete is rejected with `undefined`. -/
def clearRejectsUndefined : ClearAwaits :=
  { loggedIn := true, confirm := true, user := .ok (some "u1"), delete := .error .undefined }

/-- A checkout whose order insert is rejected with `undefined`. -/
def checkoutRejectsUndefined : CheckoutAwaits :=
  { loggedIn := true, user := .ok (some "u1"), order := .error .undefined,
    items := .ok none, clear := clearRejectsUndefined }

/-- A checkout whose two inserts succeed and whose clear has its delete rejected with
`undefined`. -/
def checkoutClearRejects : CheckoutAwaits :=
  { loggedIn := true, user := .ok (some "u1"), order := .ok ⟨some orderSeven, none⟩,
    items := .ok none, clear := clearRejectsUndefined }

/-- A load whose select is rejected with `undefined`. -/
def loadRejectsUndefined : LoadAwaits :=
  { loggedIn := true, user := .ok (some "u1"), cartItems := .error .undefined }

/-- The `await` rejects with `undefined` or with `null`. -/
def rejectedNullish {α : Type} : Except Raised α → Bool
  | .error .undefined => true
  | .error .null => true
  | _ => false

/-! ## The methods with other code running at their awaits

While a method waits at an `await`, other code may run to completion and change the
object. The functions below take, for each `await`, what that other code does to the
object (`during1`, `during2`, ...: the identity when nothing runs). -/

/-- The method `checkout` when other code runs while it waits for `getUser` (`during1`),
for the insert into `orders` (`during2`) and for the insert into `order_items`
(`during3`). `this.cartTotal` is read when the order is built, after the first wait;
`this.cart` is read when the order items are built, after the second. -/
def checkoutInterleaved (s : ShoppingCart) (env : CheckoutEnv)
    (shippingData : Option ShippingData)
    (during1 during2 during3 : ShoppingCart → ShoppingCart) : Outcome CheckoutResult :=
  if !env.loggedIn then
    { result := .refused, state := s, calls := [], notices := [loginAlert] }
  else if s.cart.length = 0 then
    { result := .refused, state := s, calls := [],
      notices := [⟨"El carrito está vacío", "error"⟩] }
  else
    let s0 := setLoading s true
    let s1 := during1 s0
    match env.user, shippingData with
    | none, _ => checkoutCaught s1 [.getUser] (.typeError "null" "id")
    | some _, none => checkoutCaught s1 [.getUser] (.typeError "undefined" "address")
    | some uid, some shipping =>
        let orderData : OrderData :=
          { user_id := uid, total_amount := s1.cartTotal,
            shipping_address := shipping.address, phone := shipping.phone,
            notes := notesOrNull shipping.notes, status := "pending" }
        let c1 := [StoreCall.getUser, StoreCall.insertOrder orderData]
        let s2 := during2 s1
        match env.order.error with
        | some e => checkoutCaught s2 c1 (.store e)
        | none =>
            match env.order.data with
            | none =>
                -- `order.id` is read once for each line; with no line left the block
                -- goes on and throws at `order.order_number`, after the clear
                if s2.cart.length = 0 then
                  let c2 := c1 ++ [StoreCall.insertOrderItems []]
                  let s3 := during3 s2
                  match env.itemsError with
                  | some e => checkoutCaught s3 c2 (.store e)
                  | none =>
                      let o := clearCart s3 env.clear
                      { result := .failure (Thrown.typeError "null" "order_number").message,
                        state := setLoading o.state false,
                        calls := c2 ++ o.calls,
                        notices :=
                          o.notices ++
                            [⟨"¡Pedido realizado exitosamente!", "success"⟩,
                             ⟨"Error al procesar la compra: "
                                ++ (Thrown.typeError "null" "order_number").message,
                              "error"⟩] }
                else checkoutCaught s2 c1 (.typeError "null" "id")
            | some order =>
                let orderItems := s2.cart.map (toOrderItem order.id)
                let c2 := c1 ++ [StoreCall.insertOrderItems orderItems]
                let s3 := during3 s2
                match env.itemsError with
                | some e => checkoutCaught s3 c2 (.store e)
                | none =>
                    let o := clearCart s3 env.clear
                    { result := .success order.order_number order.id,
                      state := setLoading o.state false,
                      calls := c2 ++ o.calls,
                      notices :=
                        o.notices ++ [⟨"¡Pedido realizado exitosamente!", "success"⟩] }

/-- What a call of `addToCart` holds while it waits for its upsert: the element `find`
returned, the quantity it sends, the fetched product and the user id. -/
structure AddPending where
  existingItem : Option CartItem
  newTotalQuantity : Int
  product : Product
  uid : UserId
deriving DecidableEq, Repr

/-- The part of `addToCart` from the answer of the product select to the sending of the
upsert, on the object as it is when the select has answered. -/
def addToCartValidate (s : ShoppingCart) (env : AddEnv) (productId : ProductId)
    (quantity : Int) : Except Thrown AddPending :=
  match env.product.error, env.product.data with
  | some _, _ => .error .productNotFound
  | none, none => .error .productNotFound
  | none, some product =>
      if !product.active then .error .productUnavailable
      else
        let existingItem := s.cart.find? (fun item => item.id = productId)
        let currentQuantity :=
          match existingItem with
          | some item => item.quantity
          | none => 0
        let newTotalQuantity := currentQuantity + quantity
        if newTotalQuantity > product.stock then
          .error (.stockAdd product.stock product.unit)
        else
          match env.user with
          | none => .error (.typeError "null" "id")
          | some uid =>
              .ok { existingItem := existingItem, newTotalQuantity := newTotalQuantity,
                    product := product, uid := uid }

/-- The part of `addToCart` after the upsert is acknowledged, on the object as it is
then. The assignment to the element found earlier is taken to reach the first line with
that id, which it does as long as that element is still in the cart. -/
def addToCartCommit (s : ShoppingCart) (pending : AddPending) (productId : ProductId)
    (quantity : Int) : ShoppingCart :=
  let cart1 :=
    match pending.existingItem with
    | some _ => setQuantity productId pending.newTotalQuantity s.cart
    | none =>
        s.cart ++
          [{ id := productId, name := pending.product.name, price := pending.product.price,
             image := pending.product.image_url, quantity := quantity,
             stock := pending.product.stock, unit := unitOrUND pending.product.unit,
             active := pending.product.active }]
  calculateTotals { s with cart := cart1 }

/-- The product id a call is for. -/
def CartCall.productId : CartCall → ProductId
  | .add _ productId _ _ _ _ => productId
  | .update _ productId _ => productId

/-- What the store answers to the product select of a call. -/
def CartCall.product : CartCall → Response Product
  | .add env _ _ _ _ _ => env.product
  | .update env _ _ => env.product

/-- The quantity a call writes into `cart`, when it writes one. -/
def StoreCall.writtenQuantity : StoreCall → Option Int
  | .upsertCart _ _ quantity => some quantity
  | .updateCart _ _ quantity => some quantity
  | _ => none

/-- The mutation used against `checkout`: the quantity of the first product is set to 5
while the store reports 10 in stock. -/
def setFirstToFive (s : ShoppingCart) : ShoppingCart :=
  (updateQuantity s updateRestocked "p1" 5).state

/-! ## updateQuantity called with `NaN`

The quantity field of the cart page calls `updateQuantity(id, parseInt(this.value))`, and
`parseInt` of an emptied field is `NaN`. The renderings above take the quantity as an
integer; this one follows `updateQuantity` for the argument `NaN`, for which the tests
`newQuantity <= 0` and `newQuantity > product.stock` are both false. The quantity of a
line is then an integer or `NaN`, here `none`. -/

/-- The comparison `quantity <= stock` of JavaScript on a quantity that may be `NaN`:
false for `NaN`. -/
def quantityLe (quantity : Option Int) (stock : Int) : Bool :=
  match quantity with
  | some q => decide (q ≤ stock)
  | none => false

/-- What `updateQuantity(productId, NaN)` leaves: the value returned, whether the update
of `cart` with the quantity `NaN` was sent, and the id, quantity and stock snapshot of
each line afterwards. -/
structure NaNOutcome where
  result : Bool
  updateSent : Bool
  lines : List (ProductId × Option Int × Int)
deriving DecidableEq, Repr

/-- The lines as they are, none of them holding `NaN`. -/
def keptLines (cart : List CartItem) : List (ProductId × Option Int × Int) :=
  cart.map (fun item => (item.id, some item.quantity, item.stock))

/-- The assignment `item.quantity = newQuantity` with `NaN`, on the first line with the
id. -/
def setQuantityNaN (productId : ProductId) :
    List CartItem → List (ProductId × Option Int × Int)
  | [] => []
  | item :: rest =>
      if item.id = productId then (item.id, none, item.stock) :: keptLines rest
      else (item.id, some item.quantity, item.stock) :: setQuantityNaN productId rest

/-- The method `updateQuantity` called with `NaN` as `newQuantity`. -/
def updateQuantityNaN (s : ShoppingCart) (env : UpdateEnv) (productId : ProductId) :
    NaNOutcome :=
  if !env.loggedIn then
    { result := false, updateSent := false, lines := keptLines s.cart }
  else
    -- `NaN <= 0` is false: no `removeFromCart`
    match env.product.error with
    | some _ => { result := false, updateSent := false, lines := keptLines s.cart }
    | none =>
        match env.product.data with
        | none => { result := false, updateSent := false, lines := keptLines s.cart }
        | some _ =>
            -- `NaN > product.stock` is false: nothing is thrown
            match env.user with
            | none => { result := false, updateSent := false, lines := keptLines s.cart }
            | some _ =>
                match env.updateError with
                | some _ => { result := false, updateSent := true, lines := keptLines s.cart }
                | none =>
                    { result := true, updateSent := true,
                      lines := setQuantityNaN productId s.cart }

/-- A load whose select succeeds with one row, the product of which is missing. -/
def loadRowWithoutProduct : LoadEnv :=
  { loggedIn := true, user := some "u1",
    cartItems := ⟨some [{ product_id := "p1", quantity := 1, products := none }], none⟩ }

/-! ## Lemmas on lists of lines -/

theorem foldl_add_eq_sum (f : CartItem → Int) (l : List CartItem) (a : Int) :
    l.foldl (fun total item => total + f item) a = a + (l.map f).sum := by
  induction l generalizing a with
  | nil => simp
  | cons x xs ih => simp [ih, add_assoc]

theorem setQuantity_ids (productId : ProductId) (q : Int) (l : List CartItem) :
    (setQuantity productId q l).map (fun item => item.id) = l.map (fun item => item.id) := by
  induction l with
  | nil => rfl
  | cons x xs ih =>
    unfold setQuantity
    split_ifs with h
    · simp
    · simp [ih]

theorem filter_id_eq_nil (productId : ProductId) (l : List CartItem)
    (h : productId ∉ l.map (fun item => item.id)) :
    l.filter (fun item => item.id = productId) = [] := by
  rw [List.filter_eq_nil_iff]
  intro a ha hid
  apply h
  simp only [decide_eq_true_eq] at hid
  exact List.mem_map.mpr ⟨a, ha, hid⟩

theorem find_none_not_mem (productId : ProductId) (l : List CartItem)
    (h : l.find? (fun item => item.id = productId) = none) :
    productId ∉ l.map (fun item => item.id) := by
  intro hm
  obtain ⟨a, ha, hid⟩ := List.mem_map.mp hm
  have := List.find?_eq_none.mp h a ha
  simp [hid] at this

theorem filter_setQuantity (productId : ProductId) (q : Int) (l : List CartItem)
    (item : CartItem) (hnd : (l.map (fun item => item.id)).Nodup)
    (hf : l.find? (fun item => item.id = productId) = some item) :
    (setQuantity productId q l).filter (fun item => item.id = productId)
      = [{ item with quantity := q }] := by
  induction l with
  | nil => simp at hf
  | cons x xs ih =>
    simp only [List.map_cons, List.nodup_cons] at hnd
    unfold setQuantity
    by_cases hx : x.id = productId
    · simp only [hx, if_true]
      simp only [List.find?_cons, hx, decide_True, Option.some.injEq] at hf
      subst hf
      rw [List.filter_cons]
      simp only [hx, decide_True, if_true]
      rw [filter_id_eq_nil productId xs (hx ▸ hnd.1)]
    · simp only [hx, if_false]
      simp only [List.find?_cons, hx, decide_False] at hf
      rw [List.filter_cons]
      simp only [hx, decide_False, Bool.false_eq_true, if_false]
      exact ih hnd.2 hf

theorem mem_setQuantity (productId : ProductId) (q : Int) (l : List CartItem)
    (hnd : (l.map (fun item => item.id)).Nodup) (x : CartItem)
    (hx : x ∈ setQuantity productId q l) :
    (x.id = productId ∧ x.quantity = q) ∨ (x ∈ l ∧ x.id ≠ productId) := by
  induction l with
  | nil => simp [setQuantity] at hx
  | cons y ys ih =>
    simp only [List.map_cons, List.nodup_cons] at hnd
    unfold setQuantity at hx
    by_cases hy : y.id = productId
    · simp only [hy, if_true, List.mem_cons] at hx
      rcases hx with hx | hx
      · left
        subst hx
        exact ⟨rfl, rfl⟩
      · right
        refine ⟨List.mem_cons_of_mem _ hx, ?_⟩
        intro hxid
        apply hnd.1
        rw [hy, ← hxid]
        exact List.mem_map.mpr ⟨x, hx, rfl⟩
    · simp only [hy, if_false, List.mem_cons] at hx
      rcases hx with hx | hx
      · right
        subst hx
        exact ⟨List.mem_cons_self _ _, hy⟩
      · rcases ih hnd.2 hx with h | h
        · exact Or.inl h
        · exact Or.inr ⟨List.mem_cons_of_mem _ h.1, h.2⟩

/-! ## Lemmas on the counters -/

theorem synced_calculateTotals (s : ShoppingCart) : Synced (calculateTotals s) := by
  simp [Synced, calculateTotals, lineCount, lineTotal, foldl_add_eq_sum]

theorem step_loadCartFromDB (s : ShoppingCart) (env : LoadEnv) :
    Step s (loadCartFromDB s env).state := by
  unfold loadCartFromDB Step
  split
  · simp
  · split
    · simp
    · split
      · simp
      · split
        · exact Or.inr (Or.inl (synced_calculateTotals _))
        · split
          · simp
          · exact Or.inr (Or.inl (synced_calculateTotals _))

theorem step_addToCart (s : ShoppingCart) (env : AddEnv) (productId : ProductId)
    (productName : String) (productPrice : Int) (productImage : String) (quantity : Int) :
    Step s (addToCart s env productId productName productPrice productImage quantity).state := by
  unfold addToCart Step
  split
  · simp
  · simp only []
    split
    · exact Or.inl rfl
    · exact Or.inl rfl
    · split
      · exact Or.inl rfl
      · split
        · exact Or.inl rfl
        · split
          · exact Or.inl rfl
          · split
            · exact Or.inl rfl
            · exact Or.inr (Or.inl (synced_calculateTotals _))

theorem step_removeFromCart (s : ShoppingCart) (env : RemoveEnv) (productId : ProductId) :
    Step s (removeFromCart s env productId).state := by
  unfold removeFromCart Step
  split
  · simp
  · simp only []
    split
    · exact Or.inl rfl
    · split
      · exact Or.inl rfl
      · exact Or.inr (Or.inl (synced_calculateTotals _))

theorem step_clearCart (s : ShoppingCart) (env : ClearEnv) :
    Step s (clearCart s env).state := by
  unfold clearCart Step
  split
  · simp
  · split
    · simp
    · simp only []
      split
      · exact Or.inl rfl
      · split
        · exact Or.inl rfl
        · exact Or.inr (Or.inl (synced_calculateTotals _))

theorem step_updateQuantity (s : ShoppingCart) (env : UpdateEnv) (productId : ProductId)
    (newQuantity : Int) : Step s (updateQuantity s env productId newQuantity).state := by
  unfold updateQuantity
  split
  · exact Or.inl rfl
  · simp only []
    split
    · exact step_removeFromCart (setLoading s true) env.remove productId
    · split
      · exact Or.inl rfl
      · split
        · exact Or.inl rfl
        · split
          · exact Or.inl rfl
          · split
            · exact Or.inl rfl
            · split
              · exact Or.inl rfl
              · exact Or.inr (Or.inl (synced_calculateTotals _))

theorem step_checkout (s : ShoppingCart) (env : CheckoutEnv)
    (shippingData : Option ShippingData) : Step s (checkout s env shippingData).state := by
  unfold checkout
  split
  · exact Or.inl rfl
  · split
    · exact Or.inl rfl
    · simp only []
      split
      · exact Or.inl rfl
      · exact Or.inl rfl
      · split
        · exact Or.inl rfl
        · split
          · exact Or.inl rfl
          · split
            · exact Or.inl rfl
            · exact step_clearCart (setLoading s true) env.clear

/-- In every reachable state the counters agree with the lines, or there are no lines. -/
theorem reachable_synced_or_empty (s : ShoppingCart) (h : Reachable s) :
    Synced s ∨ s.cart = [] := by
  have key : ∀ s t : ShoppingCart, (Synced s ∨ s.cart = []) → Step s t →
      (Synced t ∨ t.cart = []) := by
    intro s t hs ht
    rcases ht with h1 | h2 | h3
    · simp only [getCart, Prod.mk.injEq] at h1
      rcases hs with hs | hs
      · left
        exact ⟨by rw [h1.2.1, h1.1]; exact hs.1, by rw [h1.2.2, h1.1]; exact hs.2⟩
      · right
        rw [h1.1]; exact hs
    · exact Or.inl h2
    · exact Or.inr h3
  induction h with
  | new => exact Or.inr rfl
  | load s env _ ih => exact key _ _ ih (step_loadCartFromDB s env)
  | add s env a b c d e _ ih => exact key _ _ ih (step_addToCart s env a b c d e)
  | update s env a b _ ih => exact key _ _ ih (step_updateQuantity s env a b)
  | remove s env a _ ih => exact key _ _ ih (step_removeFromCart s env a)
  | clear s env _ ih => exact key _ _ ih (step_clearCart s env)
  | checkout s env a _ ih => exact key _ _ ih (step_checkout s env a)
  | signOut s _ ih => exact Or.inl (synced_calculateTotals _)

/-! ## addToCart: validation and the write -/

/-- Claim C1. A signed-in `addToCart` that finds the fetched product missing, inactive, or
short of stock for the cached quantity plus the requested one returns false, sends no
upsert, and leaves items, count and total as they were; when stock is short the
notification names the stock figure just fetched. -/
theorem addToCart_rejected (s : ShoppingCart) (env : AddEnv) (productId : ProductId)
    (productName : String) (productPrice : Int) (productImage : String) (quantity : Int)
    (hlog : env.loggedIn = true)
    (hrej : env.product.error ≠ none ∨ env.product.data = none ∨
      ∃ p, env.product.data = some p ∧
        (p.active = false ∨ cachedQuantity s.cart productId + quantity > p.stock)) :
    (addToCart s env productId productName productPrice productImage quantity).result = false ∧
    (∀ c ∈ (addToCart s env productId productName productPrice productImage quantity).calls,
      c.isCartUpsert = false) ∧
    getCart (addToCart s env productId productName productPrice productImage quantity).state
      = getCart s ∧
    (∀ p, env.product.error = none → env.product.data = some p → p.active = true →
      cachedQuantity s.cart productId + quantity > p.stock →
      (addToCart s env productId productName productPrice productImage quantity).notices =
        [⟨"Stock insuficiente. Disponible: " ++ toString p.stock ++ " " ++ unitOrUND p.unit,
          "error"⟩]) := by
  unfold addToCart
  simp only [hlog, Bool.not_true, Bool.false_eq_true, if_false]
  rcases hrej with herr | hnone | ⟨p, hp, hbad⟩
  · cases he : env.product.error with
    | none => exact absurd he herr
    | some e =>
      simp [caught, getCart, setLoading, StoreCall.isCartUpsert]
  · cases he : env.product.error with
    | none => simp [hnone, caught, getCart, setLoading, StoreCall.isCartUpsert]
    | some e => simp [caught, getCart, setLoading, StoreCall.isCartUpsert]
  · cases he : env.product.error with
    | some e => simp [caught, getCart, setLoading, StoreCall.isCartUpsert]
    | none =>
      rcases hbad with hact | hover
      · simp [hp, hact, caught, getCart, setLoading, StoreCall.isCartUpsert]
      · cases hact : p.active with
        | false => simp [hp, hact, caught, getCart, setLoading, StoreCall.isCartUpsert]
        | true =>
          simp only [cachedQuantity, gt_iff_lt] at hover
          simp [hp, hact, hover, caught, getCart, setLoading, StoreCall.isCartUpsert,
            Thrown.message]

/-- Claim C1 at stock 5, cached quantity 3, add 4: rejected, the notification reports 5,
no upsert is sent and the line stays at 3. -/
theorem addToCart_rejected_witness :
    (addOk.loggedIn = true ∧ caramelo.stock = 5 ∧ cachedQuantity cartOfThree.cart "p1" = 3) ∧
    (addToCart cartOfThree addOk "p1" "Caramelo" 1000 "c.png" 4).result = false ∧
    (∀ c ∈ (addToCart cartOfThree addOk "p1" "Caramelo" 1000 "c.png" 4).calls,
      c.isCartUpsert = false) ∧
    getCart (addToCart cartOfThree addOk "p1" "Caramelo" 1000 "c.png" 4).state
      = getCart cartOfThree ∧
    (addToCart cartOfThree addOk "p1" "Caramelo" 1000 "c.png" 4).notices =
      [⟨"Stock insuficiente. Disponible: 5 UND", "error"⟩] ∧
    cachedQuantity (addToCart cartOfThree addOk "p1" "Caramelo" 1000 "c.png" 4).state.cart "p1"
      = 3 :=
  have h := addToCart_rejected cartOfThree addOk "p1" "Caramelo" 1000 "c.png" 4 (by decide)
    (Or.inr (Or.inr ⟨caramelo, rfl, Or.inr (by decide)⟩))
  ⟨by decide, h.1, h.2.1, h.2.2.1, h.2.2.2 caramelo rfl rfl rfl (by decide), by decide⟩

/-- Claim C2. On a cache with pairwise distinct product ids, a signed-in `addToCart` that
passes validation and whose upsert succeeds sends the upsert with the cached quantity (0
when there is no line) plus the requested one, and afterwards the cache has exactly one
line for the product, holding that quantity, and its product ids are still pairwise
distinct. -/
theorem addToCart_accepted (s : ShoppingCart) (env : AddEnv) (productId : ProductId)
    (productName : String) (productPrice : Int) (productImage : String) (quantity : Int)
    (p : Product) (uid : UserId)
    (hnd : (s.cart.map (fun item => item.id)).Nodup)
    (hlog : env.loggedIn = true)
    (hprod : env.product = ⟨some p, none⟩)
    (hact : p.active = true)
    (hstock : cachedQuantity s.cart productId + quantity ≤ p.stock)
    (huser : env.user = some uid)
    (hups : env.upsertError = none) :
    (addToCart s env productId productName productPrice productImage quantity).result = true ∧
    (addToCart s env productId productName productPrice productImage quantity).calls =
      [.selectProduct productId, .getUser,
       .upsertCart uid productId (cachedQuantity s.cart productId + quantity)] ∧
    (∃ line,
      (addToCart s env productId productName productPrice productImage quantity).state.cart.filter
        (fun item => item.id = productId) = [line] ∧
      line.quantity = cachedQuantity s.cart productId + quantity) ∧
    ((addToCart s env productId productName productPrice productImage quantity).state.cart.map
      (fun item => item.id)).Nodup := by
  have hnot : ¬ (p.stock < cachedQuantity s.cart productId + quantity) := not_lt.mpr hstock
  unfold addToCart
  simp only [cachedQuantity] at hnot ⊢
  cases hf : s.cart.find? (fun item => item.id = productId) with
  | none =>
    have hnm := find_none_not_mem productId s.cart hf
    have hnot' : ¬ p.stock < quantity := by simpa [hf] using hnot
    simp [hlog, hprod, hact, huser, hups, hf, hnot', setLoading, calculateTotals,
      filter_id_eq_nil productId s.cart hnm, List.nodup_append, hnd]
    simpa using hnm
  | some item =>
    simp only [hf] at hnot
    simp [hlog, hprod, hact, huser, hups, hf, hnot, setLoading, calculateTotals,
      filter_setQuantity productId _ s.cart item hnd hf, setQuantity_ids, hnd]

/-- Claim C2 at a cache holding 3 units, adding 2 more with 5 in stock: the upsert carries
5 and the single line for the product holds 5. -/
theorem addToCart_accepted_witness :
    (addToCart cartOfThree addOk "p1" "Caramelo" 1000 "c.png" 2).result = true ∧
    (addToCart cartOfThree addOk "p1" "Caramelo" 1000 "c.png" 2).calls =
      [.selectProduct "p1", .getUser, .upsertCart "u1" "p1" 5] ∧
    (∃ line,
      (addToCart cartOfThree addOk "p1" "Caramelo" 1000 "c.png" 2).state.cart.filter
        (fun item => item.id = "p1") = [line] ∧
      line.quantity = 5) ∧
    ((addToCart cartOfThree addOk "p1" "Caramelo" 1000 "c.png" 2).state.cart.map
      (fun item => item.id)).Nodup :=
  addToCart_accepted cartOfThree addOk "p1" "Caramelo" 1000 "c.png" 2 caramelo "u1"
    (by decide) (by decide) rfl (by decide) (by decide) rfl rfl

/-! ## What a successful call does to the lines -/

theorem lookup_cons_self (k : ProductId) (v : Int) (l : List (ProductId × Int)) :
    ((k, v) :: l).lookup k = some v := by
  simp [List.lookup_cons]

theorem lookup_cons_ne (a k : ProductId) (v : Int) (l : List (ProductId × Int))
    (h : a ≠ k) : ((k, v) :: l).lookup a = l.lookup a := by
  have hb : (a == k) = false := by simpa using h
  simp [List.lookup_cons, hb]

theorem addToCart_true (s : ShoppingCart) (env : AddEnv) (productId : ProductId)
    (productName : String) (productPrice : Int) (productImage : String) (quantity : Int)
    (h : (addToCart s env productId productName productPrice productImage quantity).result
      = true) :
    ∃ p, env.product.data = some p ∧ cachedQuantity s.cart productId + quantity ≤ p.stock ∧
      ((∃ item, s.cart.find? (fun item => item.id = productId) = some item ∧
          (addToCart s env productId productName productPrice productImage quantity).state.cart
            = setQuantity productId (cachedQuantity s.cart productId + quantity) s.cart) ∨
        (s.cart.find? (fun item => item.id = productId) = none ∧
          (addToCart s env productId productName productPrice productImage quantity).state.cart
            = s.cart ++
              [{ id := productId, name := p.name, price := p.price, image := p.image_url,
                 quantity := quantity, stock := p.stock, unit := unitOrUND p.unit,
                 active := p.active }])) := by
  cases hl : env.loggedIn with
  | false => simp [addToCart, hl] at h
  | true =>
  cases he : env.product.error with
  | some e => simp [addToCart, hl, he, caught] at h
  | none =>
  cases hd : env.product.data with
  | none => simp [addToCart, hl, he, hd, caught] at h
  | some p =>
  cases ha : p.active with
  | false => simp [addToCart, hl, he, hd, ha, caught] at h
  | true =>
  by_cases hst : p.stock < cachedQuantity s.cart productId + quantity
  · have hst' := hst
    simp only [cachedQuantity] at hst'
    simp [addToCart, hl, he, hd, ha, caught, setLoading, hst'] at h
  · have hst' := hst
    simp only [cachedQuantity] at hst'
    cases hu : env.user with
    | none => simp [addToCart, hl, he, hd, ha, caught, setLoading, hst', hu] at h
    | some uid =>
    cases hups : env.upsertError with
    | some e => simp [addToCart, hl, he, hd, ha, caught, setLoading, hst', hu, hups] at h
    | none =>
      refine ⟨p, rfl, not_lt.mp hst, ?_⟩
      cases hf : s.cart.find? (fun item => item.id = productId) with
      | none =>
        right
        simp only [hf, zero_add] at hst'
        simp [addToCart, hl, he, hd, ha, setLoading, hst', hu, hups, calculateTotals, hf]
      | some item =>
        left
        simp only [hf] at hst'
        simp [addToCart, hl, he, hd, ha, setLoading, hst', hu, hups, calculateTotals, hf,
          cachedQuantity]

theorem removeFromCart_true (s : ShoppingCart) (env : RemoveEnv) (productId : ProductId)
    (h : (removeFromCart s env productId).result = true) :
    (removeFromCart s env productId).state.cart
      = s.cart.filter (fun item => item.id ≠ productId) := by
  cases hl : env.loggedIn with
  | false => simp [removeFromCart, hl] at h
  | true =>
  cases hu : env.user with
  | none => simp [removeFromCart, hl, hu, caught] at h
  | some uid =>
  cases hd : env.deleteError with
  | some e => simp [removeFromCart, hl, hu, hd, caught] at h
  | none => simp [removeFromCart, hl, hu, hd, setLoading, calculateTotals]

theorem updateQuantity_true (s : ShoppingCart) (env : UpdateEnv) (productId : ProductId)
    (newQuantity : Int) (h : (updateQuantity s env productId newQuantity).result = true) :
    (newQuantity ≤ 0 ∧
      (updateQuantity s env productId newQuantity).state.cart
        = s.cart.filter (fun item => item.id ≠ productId)) ∨
    (0 < newQuantity ∧ ∃ p, env.product.data = some p ∧ newQuantity ≤ p.stock ∧
      (updateQuantity s env productId newQuantity).state.cart
        = setQuantity productId newQuantity s.cart) := by
  by_cases hn : newQuantity ≤ 0
  · left
    refine ⟨hn, ?_⟩
    cases hl : env.loggedIn with
    | false => simp [updateQuantity, hl] at h
    | true =>
      simp only [updateQuantity, hl, hn, Bool.not_true, Bool.false_eq_true, if_false,
        if_true] at h ⊢
      exact removeFromCart_true (setLoading s true) env.remove productId h
  · right
    refine ⟨not_le.mp hn, ?_⟩
    cases hl : env.loggedIn with
    | false => simp [updateQuantity, hl] at h
    | true =>
    cases he : env.product.error with
    | some e => simp [updateQuantity, hl, hn, he, caught] at h
    | none =>
    cases hd : env.product.data with
    | none => simp [updateQuantity, hl, hn, he, hd, caught] at h
    | some p =>
    by_cases hst : p.stock < newQuantity
    · simp [updateQuantity, hl, hn, he, hd, hst, caught] at h
    · cases hu : env.user with
      | none => simp [updateQuantity, hl, hn, he, hd, hst, hu, caught] at h
      | some uid =>
      cases hup : env.updateError with
      | some e => simp [updateQuantity, hl, hn, he, hd, hst, hu, hup, caught] at h
      | none =>
        refine ⟨p, rfl, not_lt.mp hst, ?_⟩
        simp [updateQuantity, hl, hn, he, hd, hst, hu, hup, setLoading, calculateTotals]

theorem withinFetched_setQuantity (s : ShoppingCart) (fetched : List (ProductId × Int))
    (productId : ProductId) (q stock : Int) (cart1 : List CartItem)
    (hinv : WithinFetched s fetched) (hq : q ≤ stock)
    (hc : cart1 = setQuantity productId q s.cart) (t : ShoppingCart) (ht : t.cart = cart1) :
    WithinFetched t ((productId, stock) :: fetched) := by
  subst hc
  refine ⟨by rw [ht, setQuantity_ids]; exact hinv.1, ?_⟩
  intro line hline
  rw [ht] at hline
  rcases mem_setQuantity productId q s.cart hinv.1 line hline with ⟨hid, hqq⟩ | ⟨hmem, hid⟩
  · exact ⟨stock, by rw [hid, lookup_cons_self], by rw [hqq]; exact hq⟩
  · obtain ⟨st, h1, h2⟩ := hinv.2 line hmem
    exact ⟨st, by rw [lookup_cons_ne _ _ _ _ hid]; exact h1, h2⟩

theorem withinFetched_filter (s : ShoppingCart) (fetched : List (ProductId × Int))
    (productId : ProductId) (hinv : WithinFetched s fetched) (t : ShoppingCart)
    (ht : t.cart = s.cart.filter (fun item => item.id ≠ productId)) :
    WithinFetched t fetched := by
  refine ⟨?_, ?_⟩
  · rw [ht]
    exact List.Nodup.sublist (List.Sublist.map _ (List.filter_sublist _)) hinv.1
  · intro line hline
    rw [ht] at hline
    exact hinv.2 line (List.mem_of_mem_filter hline)

theorem withinFetched_run (s : ShoppingCart) (fetched : List (ProductId × Int))
    (c : CartCall) (hinv : WithinFetched s fetched) (h : (c.run s).result = true) :
    WithinFetched (c.run s).state (c.fetched.toList ++ fetched) := by
  cases c with
  | add env productId productName productPrice productImage quantity =>
    simp only [CartCall.run] at h ⊢
    obtain ⟨p, hp, hst, hcase⟩ :=
      addToCart_true s env productId productName productPrice productImage quantity h
    simp only [CartCall.fetched, hp, Option.map_some', Option.toList_some, List.singleton_append]
    rcases hcase with ⟨item, _, hcart⟩ | ⟨hf, hcart⟩
    · exact withinFetched_setQuantity s fetched productId _ p.stock _ hinv hst rfl _ hcart
    · have hnm := find_none_not_mem productId s.cart hf
      have hq : quantity ≤ p.stock := by simpa [cachedQuantity, hf] using hst
      refine ⟨?_, ?_⟩
      · rw [hcart]
        simp only [List.map_append, List.map_cons, List.map_nil]
        rw [List.nodup_append]
        refine ⟨hinv.1, by simp, ?_⟩
        intro a ha hb
        simp only [List.mem_singleton] at hb
        subst hb
        exact hnm ha
      · intro line hline
        rw [hcart, List.mem_append, List.mem_singleton] at hline
        rcases hline with hmem | heq
        · have hid : line.id ≠ productId := by
            intro hid
            exact hnm (List.mem_map.mpr ⟨line, hmem, hid⟩)
          obtain ⟨st, h1, h2⟩ := hinv.2 line hmem
          exact ⟨st, by rw [lookup_cons_ne _ _ _ _ hid]; exact h1, h2⟩
        · subst heq
          exact ⟨p.stock, lookup_cons_self _ _ _, hq⟩
  | update env productId newQuantity =>
    simp only [CartCall.run] at h ⊢
    rcases updateQuantity_true s env productId newQuantity h with ⟨hn, hcart⟩ | ⟨hn, p, hp, hst, hcart⟩
    · simp only [CartCall.fetched, hn, if_true, Option.toList_none, List.nil_append]
      exact withinFetched_filter s fetched productId hinv _ hcart
    · simp only [CartCall.fetched, not_le.mpr hn, if_false, hp, Option.map_some',
        Option.toList_some, List.singleton_append]
      exact withinFetched_setQuantity s fetched productId _ p.stock _ hinv hst rfl _ hcart

theorem withinFetched_runSuccessful (calls : List CartCall) (s : ShoppingCart)
    (fetched : List (ProductId × Int)) (hinv : WithinFetched s fetched)
    (t : ShoppingCart) (fetched1 : List (ProductId × Int))
    (h : runSuccessful s fetched calls = some (t, fetched1)) : WithinFetched t fetched1 := by
  induction calls generalizing s fetched with
  | nil =>
    simp only [runSuccessful, Option.some.injEq, Prod.mk.injEq] at h
    rw [← h.1, ← h.2]
    exact hinv
  | cons c cs ih =>
    unfold runSuccessful at h
    by_cases hr : (c.run s).result = true
    · simp only [hr, if_true] at h
      exact ih _ _ (withinFetched_run s fetched c hinv hr) h
    · simp [hr] at h

/-! ## Stock and quantity of the lines -/

/-- Claim C3, as stated, fails. From the empty cart, add 3 units while the store reports
a stock of 5, then set the quantity to 8 once the store reports 10: both calls return
true and the line then holds 8 units next to a stored stock snapshot of 5. And after the
same add, `updateQuantity` called with `NaN`, as the quantity field of the cart page
calls it once emptied, sends its update and returns true, and the line holds `NaN`, for
which `quantity <= stock` is false. -/
theorem stock_snapshot_counterexample :
    (addToCart ShoppingCart.new addOk "p1" "Caramelo" 1000 "c.png" 3).result = true ∧
    (updateQuantity (addToCart ShoppingCart.new addOk "p1" "Caramelo" 1000 "c.png" 3).state
      updateRestocked "p1" 8).result = true ∧
    (updateQuantity (addToCart ShoppingCart.new addOk "p1" "Caramelo" 1000 "c.png" 3).state
      updateRestocked "p1" 8).state.cart =
      [{ id := "p1", name := "Caramelo", price := 1000, image := "c.png", quantity := 8,
         stock := 5, unit := "UND", active := true }] ∧
    ¬ (∀ line ∈
        (updateQuantity (addToCart ShoppingCart.new addOk "p1" "Caramelo" 1000 "c.png" 3).state
          updateRestocked "p1" 8).state.cart,
        line.quantity ≤ line.stock) ∧
    updateQuantityNaN (addToCart ShoppingCart.new addOk "p1" "Caramelo" 1000 "c.png" 3).state
      updateRestocked "p1"
      = { result := true, updateSent := true, lines := [("p1", none, 5)] } ∧
    ¬ (∀ line ∈
        (updateQuantityNaN
          (addToCart ShoppingCart.new addOk "p1" "Caramelo" 1000 "c.png" 3).state
          updateRestocked "p1").lines,
        quantityLe line.2.1 line.2.2 = true) := by
  decide

/-- Claim C3, amended. Starting from the empty cart, after every sequence of successful
`addToCart` and `updateQuantity` calls with integer quantities, every line holds at most
the stock figure that the store returned in the latest call that fetched that line's
product. -/
theorem quantity_le_fetched_stock (calls : List CartCall) (s : ShoppingCart)
    (fetched : List (ProductId × Int))
    (h : runSuccessful ShoppingCart.new [] calls = some (s, fetched)) :
    ∀ line ∈ s.cart, ∃ stock, fetched.lookup line.id = some stock ∧ line.quantity ≤ stock :=
  (withinFetched_runSuccessful calls ShoppingCart.new []
    ⟨List.nodup_nil, fun _ hline => absurd hline (List.not_mem_nil _)⟩ s fetched h).2

/-- Claim C3, amended, on the run of the counterexample: the line holds 8 units, the stock
last fetched for it is 10. -/
theorem quantity_le_fetched_stock_witness :
    runSuccessful ShoppingCart.new []
        [.add addOk "p1" "Caramelo" 1000 "c.png" 3, .update updateRestocked "p1" 8]
      = some
          ({ cart := [{ id := "p1", name := "Caramelo", price := 1000, image := "c.png",
                        quantity := 8, stock := 5, unit := "UND", active := true }],
             isLoading := false, cartCount := 8, cartTotal := 8000 },
           [("p1", 10), ("p1", 5)]) ∧
    ∀ line ∈ [({ id := "p1", name := "Caramelo", price := 1000, image := "c.png",
                 quantity := 8, stock := 5, unit := "UND", active := true } : CartItem)],
      ∃ stock, [(("p1" : ProductId), (10 : Int)), ("p1", 5)].lookup line.id = some stock ∧
        line.quantity ≤ stock :=
  ⟨by decide,
   quantity_le_fetched_stock
     [.add addOk "p1" "Caramelo" 1000 "c.png" 3, .update updateRestocked "p1" 8]
     { cart := [{ id := "p1", name := "Caramelo", price := 1000, image := "c.png",
                  quantity := 8, stock := 5, unit := "UND", active := true }],
       isLoading := false, cartCount := 8, cartTotal := 8000 }
     [("p1", 10), ("p1", 5)] (by decide)⟩

/-- Claim C4, the code at the failing input: on the empty cart a signed-in `addToCart`
with quantity 0 (or -2) passes the stock check, upserts that quantity and leaves a cache
line holding it. -/
theorem addToCart_nonpositive_quantity :
    (addToCart ShoppingCart.new addOk "p1" "Caramelo" 1000 "c.png" 0).result = true ∧
    (addToCart ShoppingCart.new addOk "p1" "Caramelo" 1000 "c.png" 0).calls =
      [.selectProduct "p1", .getUser, .upsertCart "u1" "p1" 0] ∧
    (addToCart ShoppingCart.new addOk "p1" "Caramelo" 1000 "c.png" 0).state.cart =
      [{ id := "p1", name := "Caramelo", price := 1000, image := "c.png", quantity := 0,
         stock := 5, unit := "UND", active := true }] ∧
    (addToCart ShoppingCart.new addOk "p1" "Caramelo" 1000 "c.png" (-2)).result = true ∧
    (addToCart ShoppingCart.new addOk "p1" "Caramelo" 1000 "c.png" (-2)).calls =
      [.selectProduct "p1", .getUser, .upsertCart "u1" "p1" (-2)] ∧
    (addToCart ShoppingCart.new addOk "p1" "Caramelo" 1000 "c.png" (-2)).state.cart =
      [{ id := "p1", name := "Caramelo", price := 1000, image := "c.png", quantity := -2,
         stock := 5, unit := "UND", active := true }] := by
  decide

/-! ## The counters -/

/-- Claim C5, the code at the failing input: after a successful add of 2 units at 1000, a
`loadCartFromDB` whose select reports an error (or one that finds the user signed out)
empties the lines and keeps the old counters, 2 and 2000; that state is reachable. -/
theorem load_failure_keeps_counters :
    getCart
      (loadCartFromDB (addToCart ShoppingCart.new addOk "p1" "Caramelo" 1000 "c.png" 2).state
        loadFails).state = ([], 2, 2000) ∧
    getCart
      (loadCartFromDB (addToCart ShoppingCart.new addOk "p1" "Caramelo" 1000 "c.png" 2).state
        { loadFails with loggedIn := false }).state = ([], 2, 2000) ∧
    Reachable
      (loadCartFromDB (addToCart ShoppingCart.new addOk "p1" "Caramelo" 1000 "c.png" 2).state
        loadFails).state ∧
    ¬ Synced
      (loadCartFromDB (addToCart ShoppingCart.new addOk "p1" "Caramelo" 1000 "c.png" 2).state
        loadFails).state :=
  ⟨by decide, by decide,
   Reachable.load _ _ (Reachable.add _ _ _ _ _ _ _ Reachable.new),
   fun h => absurd h.1 (by decide)⟩

/-! ## checkout -/

/-- Claim C6. On a reachable state with at least one line, a signed-in `checkout` whose
insert into `orders` and insert into `order_items` succeed sends, after `getUser`, the
order with status pending and the sum of price times quantity over the lines as
`total_amount`, then one order item per line, in the order of the lines, with that line's
product id, quantity and price; the calls of the nested `clearCart` follow. -/
theorem checkout_order_mirrors_cart (s : ShoppingCart) (env : CheckoutEnv)
    (shipping : ShippingData) (uid : UserId) (order : OrderRow)
    (hreach : Reachable s) (hne : s.cart ≠ []) (hlog : env.loggedIn = true)
    (huser : env.user = some uid) (horder : env.order = ⟨some order, none⟩)
    (hitems : env.itemsError = none) :
    (checkout s env (some shipping)).calls =
      [StoreCall.getUser,
       StoreCall.insertOrder
         { user_id := uid,
           total_amount := (s.cart.map (fun item => item.price * item.quantity)).sum,
           shipping_address := shipping.address, phone := shipping.phone,
           notes := notesOrNull shipping.notes, status := "pending" },
       StoreCall.insertOrderItems
         (s.cart.map (fun item =>
           { order_id := order.id, product_id := item.id, quantity := item.quantity,
             unit_price := item.price, total_price := item.price * item.quantity }))]
      ++ (clearCart (setLoading s true) env.clear).calls := by
  have hsync : s.cartTotal = lineTotal s.cart := by
    rcases reachable_synced_or_empty s hreach with h | h
    · exact h.2
    · exact absurd h hne
  have hlen : ¬ s.cart.length = 0 := by
    intro h
    exact hne (List.length_eq_zero.mp h)
  unfold checkout
  simp only [hlog, Bool.not_true, Bool.false_eq_true, if_false, hlen, huser, horder, hitems]
  simp [setLoading, hsync, lineTotal, toOrderItem]

/-- Claim C6 at the cart with 2 units at 1000 and 3 units at 500: the order carries 3500
and the two order items are (1000, 2) and (500, 3). -/
theorem checkout_order_mirrors_cart_witness :
    (checkout cartOfTwoLines checkoutOk (some shipTo)).calls =
      [StoreCall.getUser,
       StoreCall.insertOrder
         { user_id := "u1", total_amount := 3500, shipping_address := "Calle 1",
           phone := "300", notes := none, status := "pending" },
       StoreCall.insertOrderItems
         [{ order_id := 7, product_id := "p1", quantity := 2, unit_price := 1000,
            total_price := 2000 },
          { order_id := 7, product_id := "p2", quantity := 3, unit_price := 500,
            total_price := 1500 }]]
      ++ (clearCart (setLoading cartOfTwoLines true) checkoutOk.clear).calls :=
  checkout_order_mirrors_cart cartOfTwoLines checkoutOk shipTo "u1" orderSeven
    (Reachable.load ShoppingCart.new loadTwoLines Reachable.new) (by decide) rfl rfl rfl rfl

/-- Claim C7. On a cart with at least one line, a signed-in `checkout` whose insert into
`orders` or whose insert into `order_items` reports an error returns a failure object,
sends no delete of cart rows, and leaves items, count and total as they were; when it is
the insert into `orders` that reports the error, no insert into `order_items` is sent
either. -/
theorem checkout_write_failure (s : ShoppingCart) (env : CheckoutEnv)
    (shippingData : Option ShippingData) (hlog : env.loggedIn = true) (hne : s.cart ≠ [])
    (hfail : env.order.error ≠ none ∨ env.itemsError ≠ none) :
    (∃ error, (checkout s env shippingData).result = CheckoutResult.failure error) ∧
    (∀ c ∈ (checkout s env shippingData).calls, c.isCartDelete = false) ∧
    getCart (checkout s env shippingData).state = getCart s ∧
    (env.order.error ≠ none →
      ∀ c ∈ (checkout s env shippingData).calls, c.isOrderItemsInsert = false) := by
  have hlen : ¬ s.cart.length = 0 := by
    intro h
    exact hne (List.length_eq_zero.mp h)
  unfold checkout
  simp only [hlog, Bool.not_true, Bool.false_eq_true, if_false, hlen]
  cases hu : env.user with
  | none =>
    simp [checkoutCaught, getCart, setLoading, StoreCall.isCartDelete,
      StoreCall.isOrderItemsInsert]
  | some uid =>
  cases hs : shippingData with
  | none =>
    simp [checkoutCaught, getCart, setLoading, StoreCall.isCartDelete,
      StoreCall.isOrderItemsInsert]
  | some shipping =>
  cases he : env.order.error with
  | some e =>
    simp [checkoutCaught, getCart, setLoading, StoreCall.isCartDelete,
      StoreCall.isOrderItemsInsert]
  | none =>
  cases hd : env.order.data with
  | none =>
    simp [checkoutCaught, getCart, setLoading, StoreCall.isCartDelete,
      StoreCall.isOrderItemsInsert]
  | some order =>
  cases hi : env.itemsError with
  | none =>
    rcases hfail with h | h
    · exact absurd he h
    · exact absurd hi h
  | some e =>
    simp [checkoutCaught, getCart, setLoading, StoreCall.isCartDelete,
      StoreCall.isOrderItemsInsert]

/-- Claim C7 on the cart of two lines, once with the insert into `orders` failing and once
with the insert into `order_items` failing. -/
theorem checkout_write_failure_witness :
    ((checkout cartOfTwoLines checkoutHeaderFails (some shipTo)).result
        = CheckoutResult.failure "orders down" ∧
      (checkout cartOfTwoLines checkoutHeaderFails (some shipTo)).calls.length = 2 ∧
      (∀ c ∈ (checkout cartOfTwoLines checkoutHeaderFails (some shipTo)).calls,
        c.isCartDelete = false) ∧
      getCart (checkout cartOfTwoLines checkoutHeaderFails (some shipTo)).state
        = getCart cartOfTwoLines ∧
      (∀ c ∈ (checkout cartOfTwoLines checkoutHeaderFails (some shipTo)).calls,
        c.isOrderItemsInsert = false)) ∧
    ((checkout cartOfTwoLines checkoutLinesFail (some shipTo)).result
        = CheckoutResult.failure "items down" ∧
      (checkout cartOfTwoLines checkoutLinesFail (some shipTo)).calls.length = 3 ∧
      (∀ c ∈ (checkout cartOfTwoLines checkoutLinesFail (some shipTo)).calls,
        c.isCartDelete = false) ∧
      getCart (checkout cartOfTwoLines checkoutLinesFail (some shipTo)).state
        = getCart cartOfTwoLines) :=
  have h1 := checkout_write_failure cartOfTwoLines checkoutHeaderFails (some shipTo) rfl
    (by decide) (Or.inl (by decide))
  have h2 := checkout_write_failure cartOfTwoLines checkoutLinesFail (some shipTo) rfl
    (by decide) (Or.inr (by decide))
  ⟨⟨by decide, by decide, h1.2.1, h1.2.2.1, h1.2.2.2 (by decide)⟩,
   ⟨by decide, by decide, h2.2.1, h2.2.2.1⟩⟩

/-- Claim C8, the code at the failing input: on the cart of two lines, a signed-in
`checkout` in which every call sent succeeds, while the user answers Cancel to the dialog
of the `clearCart` it calls, returns success with the id of the inserted order, sends no
delete, and leaves both lines and both counters in the cache. -/
theorem checkout_declined_clear_keeps_cart :
    (checkoutDeclined.order.error = none ∧ checkoutDeclined.itemsError = none ∧
      checkoutDeclined.clear.deleteError = none) ∧
    (checkout cartOfTwoLines checkoutDeclined (some shipTo)).result
      = CheckoutResult.success "ORD-7" 7 ∧
    (∀ c ∈ (checkout cartOfTwoLines checkoutDeclined (some shipTo)).calls,
      c.isCartDelete = false) ∧
    getCart (checkout cartOfTwoLines checkoutDeclined (some shipTo)).state
      = getCart cartOfTwoLines ∧
    getCart (checkout cartOfTwoLines checkoutDeclined (some shipTo)).state ≠ ([], 0, 0) := by
  decide

/-- The branch of `checkout` that does empty the cart: every call succeeds, and the
`clearCart` it calls finds the user signed in and has its dialog confirmed. -/
theorem checkout_confirmed_clear_empties (s : ShoppingCart) (env : CheckoutEnv)
    (shipping : ShippingData) (uid uidClear : UserId) (order : OrderRow)
    (hlog : env.loggedIn = true) (hne : s.cart ≠ [])
    (huser : env.user = some uid) (horder : env.order = ⟨some order, none⟩)
    (hitems : env.itemsError = none)
    (hclog : env.clear.loggedIn = true) (hconfirm : env.clear.confirm = true)
    (hcuser : env.clear.user = some uidClear) (hdelete : env.clear.deleteError = none) :
    (checkout s env (some shipping)).result
      = CheckoutResult.success order.order_number order.id ∧
    getCart (checkout s env (some shipping)).state = ([], 0, 0) := by
  have hlen : ¬ s.cart.length = 0 := by
    intro h
    exact hne (List.length_eq_zero.mp h)
  unfold checkout
  simp only [hlog, Bool.not_true, Bool.false_eq_true, if_false, hlen, huser, horder, hitems]
  simp [clearCart, hclog, hconfirm, hcuser, hdelete, getCart, setLoading, calculateTotals]

/-- Claim C9, as stated, fails: signed in on the cart without lines, `checkout` returns
the bare value false, the very value it returns to a user who is not signed in. What is
returned carries no reason; the text 'El carrito está vacío' goes to a notification. -/
theorem checkout_empty_bare_false_counterexample :
    (checkout ShoppingCart.new checkoutOk (some shipTo)).result.returned
      = ReturnValue.bare false ∧
    (checkout ShoppingCart.new checkoutOk (some shipTo)).result
      = (checkout cartOfThree checkoutSignedOut (some shipTo)).result ∧
    (checkout ShoppingCart.new checkoutOk (some shipTo)).result.returned.isResultObject
      = false ∧
    (checkout ShoppingCart.new checkoutOk (some shipTo)).notices
      = [⟨"El carrito está vacío", "error"⟩] := by
  decide

/-- Claim C9, amended. For a signed-in user whose cache has no lines, `checkout` returns
false, shows the error notification 'El carrito está vacío', sends no call at all, and
leaves the object as it was. -/
theorem checkout_empty_cart (s : ShoppingCart) (env : CheckoutEnv)
    (shippingData : Option ShippingData) (hlog : env.loggedIn = true)
    (hempty : s.cart = []) :
    (checkout s env shippingData).result = CheckoutResult.refused ∧
    (checkout s env shippingData).notices = [⟨"El carrito está vacío", "error"⟩] ∧
    (checkout s env shippingData).calls = [] ∧
    (checkout s env shippingData).state = s := by
  simp [checkout, hlog, hempty]

/-- Claim C9, amended, on the cart as the constructor leaves it. -/
theorem checkout_empty_cart_witness :
    (checkout ShoppingCart.new checkoutOk (some shipTo)).result = CheckoutResult.refused ∧
    (checkout ShoppingCart.new checkoutOk (some shipTo)).notices =
      [⟨"El carrito está vacío", "error"⟩] ∧
    (checkout ShoppingCart.new checkoutOk (some shipTo)).calls = [] ∧
    (checkout ShoppingCart.new checkoutOk (some shipTo)).state = ShoppingCart.new :=
  checkout_empty_cart ShoppingCart.new checkoutOk (some shipTo) rfl rfl

/-! ## A failed write leaves the cache alone -/

/-- Claim C10. Signed in, when the write of the method reports an error (the upsert of
`addToCart`, the update of `updateQuantity` with a positive quantity, the delete of
`removeFromCart`, the delete of all rows of `clearCart`), the method returns false and
items, count and total are what they were before the call. -/
theorem write_error_keeps_cache (s : ShoppingCart) (productId : ProductId) :
    (∀ (env : AddEnv) (productName : String) (productPrice : Int) (productImage : String)
        (quantity : Int), env.loggedIn = true → env.upsertError ≠ none →
      (addToCart s env productId productName productPrice productImage quantity).result
        = false ∧
      getCart (addToCart s env productId productName productPrice productImage quantity).state
        = getCart s) ∧
    (∀ (env : UpdateEnv) (newQuantity : Int), env.loggedIn = true → 0 < newQuantity →
        env.updateError ≠ none →
      (updateQuantity s env productId newQuantity).result = false ∧
      getCart (updateQuantity s env productId newQuantity).state = getCart s) ∧
    (∀ env : RemoveEnv, env.loggedIn = true → env.deleteError ≠ none →
      (removeFromCart s env productId).result = false ∧
      getCart (removeFromCart s env productId).state = getCart s) ∧
    (∀ env : ClearEnv, env.loggedIn = true → env.deleteError ≠ none →
      (clearCart s env).result = false ∧ getCart (clearCart s env).state = getCart s) := by
  refine ⟨?_, ?_, ?_, ?_⟩
  · intro env productName productPrice productImage quantity hlog herr
    cases he : env.product.error with
    | some e => simp [addToCart, hlog, he, caught, getCart, setLoading]
    | none =>
    cases hd : env.product.data with
    | none => simp [addToCart, hlog, he, hd, caught, getCart, setLoading]
    | some p =>
    cases ha : p.active with
    | false => simp [addToCart, hlog, he, hd, ha, caught, getCart, setLoading]
    | true =>
    by_cases hst : p.stock < cachedQuantity s.cart productId + quantity
    · simp only [cachedQuantity] at hst
      simp [addToCart, hlog, he, hd, ha, caught, getCart, setLoading, hst]
    · simp only [cachedQuantity] at hst
      cases hu : env.user with
      | none => simp [addToCart, hlog, he, hd, ha, caught, getCart, setLoading, hst, hu]
      | some uid =>
      cases hups : env.upsertError with
      | some e =>
        simp [addToCart, hlog, he, hd, ha, caught, getCart, setLoading, hst, hu, hups]
      | none => exact absurd hups herr
  · intro env newQuantity hlog hpos herr
    have hn : ¬ newQuantity ≤ 0 := not_le.mpr hpos
    cases he : env.product.error with
    | some e => simp [updateQuantity, hlog, hn, he, caught, getCart, setLoading]
    | none =>
    cases hd : env.product.data with
    | none => simp [updateQuantity, hlog, hn, he, hd, caught, getCart, setLoading]
    | some p =>
    by_cases hst : p.stock < newQuantity
    · simp [updateQuantity, hlog, hn, he, hd, hst, caught, getCart, setLoading]
    · cases hu : env.user with
      | none => simp [updateQuantity, hlog, hn, he, hd, hst, hu, caught, getCart, setLoading]
      | some uid =>
      cases hup : env.updateError with
      | some e =>
        simp [updateQuantity, hlog, hn, he, hd, hst, hu, hup, caught, getCart, setLoading]
      | none => exact absurd hup herr
  · intro env hlog herr
    cases hu : env.user with
    | none => simp [removeFromCart, hlog, hu, caught, getCart, setLoading]
    | some uid =>
    cases hd : env.deleteError with
    | some e => simp [removeFromCart, hlog, hu, hd, caught, getCart, setLoading]
    | none => exact absurd hd herr
  · intro env hlog herr
    cases hc : env.confirm with
    | false => simp [clearCart, hlog, hc, getCart]
    | true =>
    cases hu : env.user with
    | none => simp [clearCart, hlog, hc, hu, caught, getCart, setLoading]
    | some uid =>
    cases hd : env.deleteError with
    | some e => simp [clearCart, hlog, hc, hu, hd, caught, getCart, setLoading]
    | none => exact absurd hd herr

/-- Claim C10 on runs in which the write is sent and reports an error: each method
returns false and the cache is as before. -/
theorem write_error_keeps_cache_witness :
    ((addToCart cartOfThree addWriteFails "p1" "Caramelo" 1000 "c.png" 2).calls =
        [.selectProduct "p1", .getUser, .upsertCart "u1" "p1" 5] ∧
      (addToCart cartOfThree addWriteFails "p1" "Caramelo" 1000 "c.png" 2).result = false ∧
      getCart (addToCart cartOfThree addWriteFails "p1" "Caramelo" 1000 "c.png" 2).state
        = getCart cartOfThree) ∧
    ((updateQuantity cartOfThree updateWriteFails "p1" 4).calls =
        [.selectProduct "p1", .getUser, .updateCart "u1" "p1" 4] ∧
      (updateQuantity cartOfThree updateWriteFails "p1" 4).result = false ∧
      getCart (updateQuantity cartOfThree updateWriteFails "p1" 4).state
        = getCart cartOfThree) ∧
    ((removeFromCart cartOfThree removeWriteFails "p1").calls =
        [.getUser, .deleteCartRow "u1" "p1"] ∧
      (removeFromCart cartOfThree removeWriteFails "p1").result = false ∧
      getCart (removeFromCart cartOfThree removeWriteFails "p1").state
        = getCart cartOfThree) ∧
    ((clearCart cartOfThree clearWriteFails).calls = [.getUser, .deleteCart "u1"] ∧
      (clearCart cartOfThree clearWriteFails).result = false ∧
      getCart (clearCart cartOfThree clearWriteFails).state = getCart cartOfThree) :=
  have h := write_error_keeps_cache cartOfThree "p1"
  ⟨⟨by decide, h.1 addWriteFails "Caramelo" 1000 "c.png" 2 rfl (by decide)⟩,
   ⟨by decide, h.2.1 updateWriteFails 4 rfl (by decide) (by decide)⟩,
   ⟨by decide, h.2.2.1 removeWriteFails rfl (by decide)⟩,
   ⟨by decide, h.2.2.2 clearWriteFails rfl (by decide)⟩⟩

/-! ## No user signed in -/

/-- Claim C11. When no user is signed in, each of `addToCart`, `updateQuantity`,
`removeFromCart`, `clearCart` and `checkout` returns false, sends no call at all, and
leaves items, count and total as they were, whatever the cache and the arguments. -/
theorem signed_out_no_effect (s : ShoppingCart) :
    (∀ (env : AddEnv) (productId : ProductId) (productName : String) (productPrice : Int)
        (productImage : String) (quantity : Int), env.loggedIn = false →
      (addToCart s env productId productName productPrice productImage quantity).result
        = false ∧
      (addToCart s env productId productName productPrice productImage quantity).calls = [] ∧
      getCart (addToCart s env productId productName productPrice productImage quantity).state
        = getCart s) ∧
    (∀ (env : UpdateEnv) (productId : ProductId) (newQuantity : Int),
        env.loggedIn = false →
      (updateQuantity s env productId newQuantity).result = false ∧
      (updateQuantity s env productId newQuantity).calls = [] ∧
      getCart (updateQuantity s env productId newQuantity).state = getCart s) ∧
    (∀ (env : RemoveEnv) (productId : ProductId), env.loggedIn = false →
      (removeFromCart s env productId).result = false ∧
      (removeFromCart s env productId).calls = [] ∧
      getCart (removeFromCart s env productId).state = getCart s) ∧
    (∀ env : ClearEnv, env.loggedIn = false →
      (clearCart s env).result = false ∧ (clearCart s env).calls = [] ∧
      getCart (clearCart s env).state = getCart s) ∧
    (∀ (env : CheckoutEnv) (shippingData : Option ShippingData), env.loggedIn = false →
      (checkout s env shippingData).result = CheckoutResult.refused ∧
      (checkout s env shippingData).calls = [] ∧
      getCart (checkout s env shippingData).state = getCart s) := by
  refine ⟨?_, ?_, ?_, ?_, ?_⟩
  · intro env productId productName productPrice productImage quantity h
    simp [addToCart, h]
  · intro env productId newQuantity h
    simp [updateQuantity, h]
  · intro env productId h
    simp [removeFromCart, h]
  · intro env h
    simp [clearCart, h]
  · intro env shippingData h
    simp [checkout, h]

/-- Claim C11 on a cache holding 3 units, every method called while signed out. -/
theorem signed_out_no_effect_witness :
    ((addToCart cartOfThree addSignedOut "p1" "Caramelo" 1000 "c.png" 1).result = false ∧
      (addToCart cartOfThree addSignedOut "p1" "Caramelo" 1000 "c.png" 1).calls = [] ∧
      getCart (addToCart cartOfThree addSignedOut "p1" "Caramelo" 1000 "c.png" 1).state
        = getCart cartOfThree) ∧
    ((updateQuantity cartOfThree updateSignedOut "p1" 4).result = false ∧
      (updateQuantity cartOfThree updateSignedOut "p1" 4).calls = [] ∧
      getCart (updateQuantity cartOfThree updateSignedOut "p1" 4).state
        = getCart cartOfThree) ∧
    ((removeFromCart cartOfThree removeSignedOut "p1").result = false ∧
      (removeFromCart cartOfThree removeSignedOut "p1").calls = [] ∧
      getCart (removeFromCart cartOfThree removeSignedOut "p1").state
        = getCart cartOfThree) ∧
    ((clearCart cartOfThree clearSignedOut).result = false ∧
      (clearCart cartOfThree clearSignedOut).calls = [] ∧
      getCart (clearCart cartOfThree clearSignedOut).state = getCart cartOfThree) ∧
    ((checkout cartOfThree checkoutSignedOut (some shipTo)).result
        = CheckoutResult.refused ∧
      (checkout cartOfThree checkoutSignedOut (some shipTo)).calls = [] ∧
      getCart (checkout cartOfThree checkoutSignedOut (some shipTo)).state
        = getCart cartOfThree) :=
  have h := signed_out_no_effect cartOfThree
  ⟨h.1 addSignedOut "p1" "Caramelo" 1000 "c.png" 1 rfl,
   h.2.1 updateSignedOut "p1" 4 rfl,
   h.2.2.1 removeSignedOut "p1" rfl,
   h.2.2.2.1 clearSignedOut rfl,
   h.2.2.2.2 checkoutSignedOut (some shipTo) rfl⟩

/-! ## updateQuantity -/

theorem eraseStock_setQuantity (productId : ProductId) (q : Int) (l : List CartItem) :
    (setQuantity productId q l).map eraseStock
      = setQuantity productId q (l.map eraseStock) := by
  induction l with
  | nil => rfl
  | cons x xs ih =>
    by_cases hx : x.id = productId
    · simp [setQuantity, hx, eraseStock]
    · have hx' : (eraseStock x).id ≠ productId := hx
      simp only [setQuantity, hx, if_false, List.map_cons, hx', ih]

theorem updateQuantity_positive_eq (s : ShoppingCart) (env : UpdateEnv)
    (productId : ProductId) (newQuantity : Int) (p : Product) (uid : UserId)
    (hlog : env.loggedIn = true) (hn : 1 ≤ newQuantity)
    (hprod : env.product = ⟨some p, none⟩) (huser : env.user = some uid)
    (hwrite : env.updateError = none) :
    updateQuantity s env productId newQuantity =
      if newQuantity > p.stock then
        caught (setLoading s true) [.selectProduct productId] (.stockUpdate p.stock)
      else
        { result := true,
          state :=
            setLoading
              (calculateTotals
                { setLoading s true with
                  cart := setQuantity productId newQuantity (setLoading s true).cart })
              false,
          calls := [.selectProduct productId, .getUser,
                    .updateCart uid productId newQuantity],
          notices := [] } := by
  have hpos : ¬ newQuantity ≤ 0 := by omega
  simp [updateQuantity, hlog, hpos, hprod, huser, hwrite]

/-- Claim C12. A signed-in `updateQuantity` with a quantity of at least 1, whose product
select and cart update succeed, returns true exactly when the quantity is at most the
stock figure just fetched, and then writes that quantity. Run on two caches that differ
only in the stock snapshots of their lines, it returns the same value and sends the same
calls, and the two caches afterwards again differ only in the stock snapshots. -/
theorem updateQuantity_uses_fetched_stock (s1 s2 : ShoppingCart) (env : UpdateEnv)
    (productId : ProductId) (newQuantity : Int) (p : Product) (uid : UserId)
    (hlog : env.loggedIn = true) (hn : 1 ≤ newQuantity)
    (hprod : env.product = ⟨some p, none⟩) (huser : env.user = some uid)
    (hwrite : env.updateError = none)
    (hsame : s1.cart.map eraseStock = s2.cart.map eraseStock) :
    ((updateQuantity s1 env productId newQuantity).result = true ↔ newQuantity ≤ p.stock) ∧
    (newQuantity ≤ p.stock →
      (updateQuantity s1 env productId newQuantity).calls =
        [.selectProduct productId, .getUser, .updateCart uid productId newQuantity]) ∧
    (updateQuantity s1 env productId newQuantity).result
      = (updateQuantity s2 env productId newQuantity).result ∧
    (updateQuantity s1 env productId newQuantity).calls
      = (updateQuantity s2 env productId newQuantity).calls ∧
    (updateQuantity s1 env productId newQuantity).state.cart.map eraseStock
      = (updateQuantity s2 env productId newQuantity).state.cart.map eraseStock := by
  rw [updateQuantity_positive_eq s1 env productId newQuantity p uid hlog hn hprod huser hwrite,
    updateQuantity_positive_eq s2 env productId newQuantity p uid hlog hn hprod huser hwrite]
  by_cases hst : newQuantity > p.stock
  · have hle : ¬ newQuantity ≤ p.stock := not_le.mpr hst
    simp [hst, hle, caught, setLoading, hsame]
  · have hle : newQuantity ≤ p.stock := not_lt.mp hst
    simp only [hst, if_false, hle, true_iff, setLoading, calculateTotals,
      eraseStock_setQuantity, hsame]
    simp

/-- Claim C12 with 8 units asked while the store reports 10, on two caches whose line
stores a stock of 5 and of 99: both runs are accepted and write 8. -/
theorem updateQuantity_uses_fetched_stock_witness :
    ((updateQuantity cartOfThree updateRestocked "p1" 8).result = true ↔
      (8 : Int) ≤ carameloRestocked.stock) ∧
    ((8 : Int) ≤ carameloRestocked.stock →
      (updateQuantity cartOfThree updateRestocked "p1" 8).calls =
        [.selectProduct "p1", .getUser, .updateCart "u1" "p1" 8]) ∧
    (updateQuantity cartOfThree updateRestocked "p1" 8).result
      = (updateQuantity cartOfThreeStale updateRestocked "p1" 8).result ∧
    (updateQuantity cartOfThree updateRestocked "p1" 8).calls
      = (updateQuantity cartOfThreeStale updateRestocked "p1" 8).calls ∧
    (updateQuantity cartOfThree updateRestocked "p1" 8).state.cart.map eraseStock
      = (updateQuantity cartOfThreeStale updateRestocked "p1" 8).state.cart.map eraseStock :=
  updateQuantity_uses_fetched_stock cartOfThree cartOfThreeStale updateRestocked "p1" 8
    carameloRestocked "u1" rfl (by decide) rfl rfl rfl (by decide)

/-- Claim C13, the code at the failing input: the cache holds 3 units, the store answers
the select with the product marked inactive and a stock of 5. `updateQuantity` to 4
returns true, sends the update with quantity 4 and sets the line to 4, while `addToCart`
on the same answer is rejected with 'Producto no disponible'. -/
theorem updateQuantity_inactive_accepted :
    carameloInactive.active = false ∧
    (updateQuantity cartOfThree updateInactive "p1" 4).result = true ∧
    (updateQuantity cartOfThree updateInactive "p1" 4).calls =
      [.selectProduct "p1", .getUser, .updateCart "u1" "p1" 4] ∧
    getCart (updateQuantity cartOfThree updateInactive "p1" 4).state =
      ([{ id := "p1", name := "Caramelo", price := 1000, image := "c.png", quantity := 4,
          stock := 5, unit := "UND", active := true }], 4, 4000) ∧
    (addToCart cartOfThree addInactive "p1" "Caramelo" 1000 "c.png" 1).result = false ∧
    (addToCart cartOfThree addInactive "p1" "Caramelo" 1000 "c.png" 1).notices =
      [⟨"Producto no disponible", "error"⟩] := by
  decide

theorem removeFromCart_setLoading (s : ShoppingCart) (env : RemoveEnv)
    (productId : ProductId) (b : Bool) :
    (removeFromCart (setLoading s b) env productId).result
      = (removeFromCart s env productId).result ∧
    (removeFromCart (setLoading s b) env productId).calls
      = (removeFromCart s env productId).calls ∧
    (removeFromCart (setLoading s b) env productId).notices
      = (removeFromCart s env productId).notices ∧
    getCart (removeFromCart (setLoading s b) env productId).state
      = getCart (removeFromCart s env productId).state := by
  cases hl : env.loggedIn with
  | false => simp [removeFromCart, hl, getCart, setLoading]
  | true =>
  cases hu : env.user with
  | none => simp [removeFromCart, hl, hu, caught, getCart, setLoading]
  | some uid =>
  cases hd : env.deleteError with
  | some e => simp [removeFromCart, hl, hu, hd, caught, getCart, setLoading]
  | none => simp [removeFromCart, hl, hu, hd, getCart, setLoading, calculateTotals]

theorem removeFromCart_calls (s : ShoppingCart) (env : RemoveEnv) (productId : ProductId) :
    ∀ c ∈ (removeFromCart s env productId).calls,
      c.isProductSelect = false ∧ c.isCartQuantityWrite = false := by
  cases hl : env.loggedIn with
  | false => simp [removeFromCart, hl]
  | true =>
  cases hu : env.user with
  | none =>
    simp [removeFromCart, hl, hu, caught, StoreCall.isProductSelect,
      StoreCall.isCartQuantityWrite]
  | some uid =>
  cases hd : env.deleteError with
  | some e =>
    simp [removeFromCart, hl, hu, hd, caught, StoreCall.isProductSelect,
      StoreCall.isCartQuantityWrite]
  | none =>
    simp [removeFromCart, hl, hu, hd, StoreCall.isProductSelect,
      StoreCall.isCartQuantityWrite]

/-- Claim C14. For a quantity of 0 or less, a signed-in `updateQuantity` does what
`removeFromCart` does on the same cache with the same answers from outside: same value
returned, same calls, same notifications, same items, count and total afterwards; none
of its calls selects a product or writes a quantity. -/
theorem updateQuantity_nonpositive_is_remove (s : ShoppingCart) (env : UpdateEnv)
    (productId : ProductId) (newQuantity : Int)
    (hlog : env.loggedIn = true) (hn : newQuantity ≤ 0) :
    (updateQuantity s env productId newQuantity).result
      = (removeFromCart s env.remove productId).result ∧
    (updateQuantity s env productId newQuantity).calls
      = (removeFromCart s env.remove productId).calls ∧
    (updateQuantity s env productId newQuantity).notices
      = (removeFromCart s env.remove productId).notices ∧
    getCart (updateQuantity s env productId newQuantity).state
      = getCart (removeFromCart s env.remove productId).state ∧
    (∀ c ∈ (updateQuantity s env productId newQuantity).calls,
      c.isProductSelect = false ∧ c.isCartQuantityWrite = false) := by
  have h := removeFromCart_setLoading s env.remove productId true
  have hc := removeFromCart_calls (setLoading s true) env.remove productId
  simp only [updateQuantity, hlog, hn, Bool.not_true, Bool.false_eq_true, if_false, if_true]
  exact ⟨h.1, h.2.1, h.2.2.1, h.2.2.2, hc⟩

/-- Claim C14 on the cache holding 3 units with quantity 0: the only calls are `getUser`
and the delete of the row, and the cache ends empty, as after `removeFromCart`. -/
theorem updateQuantity_nonpositive_is_remove_witness :
    ((updateQuantity cartOfThree updateRestocked "p1" 0).calls
        = [.getUser, .deleteCartRow "u1" "p1"] ∧
      (removeFromCart cartOfThree removeOk "p1").result = true ∧
      getCart (removeFromCart cartOfThree removeOk "p1").state = ([], 0, 0)) ∧
    (updateQuantity cartOfThree updateRestocked "p1" 0).result
      = (removeFromCart cartOfThree removeOk "p1").result ∧
    (updateQuantity cartOfThree updateRestocked "p1" 0).calls
      = (removeFromCart cartOfThree removeOk "p1").calls ∧
    (updateQuantity cartOfThree updateRestocked "p1" 0).notices
      = (removeFromCart cartOfThree removeOk "p1").notices ∧
    getCart (updateQuantity cartOfThree updateRestocked "p1" 0).state
      = getCart (removeFromCart cartOfThree removeOk "p1").state ∧
    (∀ c ∈ (updateQuantity cartOfThree updateRestocked "p1" 0).calls,
      c.isProductSelect = false ∧ c.isCartQuantityWrite = false) :=
  ⟨by decide,
   updateQuantity_nonpositive_is_remove cartOfThree updateRestocked "p1" 0 rfl (by decide)⟩

/-! ## Removing and clearing twice -/

theorem removeFromCart_ok_eq (s : ShoppingCart) (env : RemoveEnv) (productId : ProductId)
    (uid : UserId) (hlog : env.loggedIn = true) (huser : env.user = some uid)
    (hdelete : env.deleteError = none) :
    removeFromCart s env productId =
      { result := true,
        state :=
          setLoading
            (calculateTotals
              { setLoading s true with
                cart := (setLoading s true).cart.filter (fun item => item.id ≠ productId) })
            false,
        calls := [.getUser, .deleteCartRow uid productId],
        notices := [⟨"Producto removido del carrito", "success"⟩] } := by
  simp [removeFromCart, hlog, huser, hdelete]

/-- Claim C15. With the user signed in and the delete acknowledged both times, a second
`removeFromCart` of the same product returns true although the line is gone, and leaves
items, count and total as the first call left them. -/
theorem removeFromCart_twice (s : ShoppingCart) (env1 env2 : RemoveEnv)
    (productId : ProductId) (uid1 uid2 : UserId)
    (hlog1 : env1.loggedIn = true) (huser1 : env1.user = some uid1)
    (hdelete1 : env1.deleteError = none)
    (hlog2 : env2.loggedIn = true) (huser2 : env2.user = some uid2)
    (hdelete2 : env2.deleteError = none) :
    (removeFromCart s env1 productId).result = true ∧
    (∀ item ∈ (removeFromCart s env1 productId).state.cart, item.id ≠ productId) ∧
    (removeFromCart (removeFromCart s env1 productId).state env2 productId).result = true ∧
    getCart (removeFromCart (removeFromCart s env1 productId).state env2 productId).state
      = getCart (removeFromCart s env1 productId).state := by
  rw [removeFromCart_ok_eq _ env2 productId uid2 hlog2 huser2 hdelete2,
    removeFromCart_ok_eq s env1 productId uid1 hlog1 huser1 hdelete1]
  simp [getCart, setLoading, calculateTotals]

/-- Claim C15 on the cache holding 3 units: after the first removal the cache is empty,
the second removal returns true and leaves it empty. -/
theorem removeFromCart_twice_witness :
    (removeFromCart cartOfThree removeOk "p1").result = true ∧
    (∀ item ∈ (removeFromCart cartOfThree removeOk "p1").state.cart, item.id ≠ "p1") ∧
    (removeFromCart (removeFromCart cartOfThree removeOk "p1").state removeOk "p1").result
      = true ∧
    getCart (removeFromCart (removeFromCart cartOfThree removeOk "p1").state removeOk "p1").state
      = getCart (removeFromCart cartOfThree removeOk "p1").state :=
  removeFromCart_twice cartOfThree removeOk removeOk "p1" "u1" "u1" rfl rfl rfl rfl rfl rfl

theorem clearCart_ok_eq (s : ShoppingCart) (env : ClearEnv) (uid : UserId)
    (hlog : env.loggedIn = true) (hconfirm : env.confirm = true)
    (huser : env.user = some uid) (hdelete : env.deleteError = none) :
    clearCart s env =
      { result := true,
        state := setLoading (calculateTotals { setLoading s true with cart := [] }) false,
        calls := [.getUser, .deleteCart uid],
        notices := [⟨"Carrito vaciado", "success"⟩] } := by
  simp [clearCart, hlog, hconfirm, huser, hdelete]

/-- Claim C16. With the user signed in, the dialog confirmed and the delete of all rows
acknowledged, `clearCart` returns true and leaves no lines, count 0 and total 0; a second
`clearCart` under the same conditions returns true and leaves that same empty cache. -/
theorem clearCart_twice (s : ShoppingCart) (env1 env2 : ClearEnv) (uid1 uid2 : UserId)
    (hlog1 : env1.loggedIn = true) (hconfirm1 : env1.confirm = true)
    (huser1 : env1.user = some uid1) (hdelete1 : env1.deleteError = none)
    (hlog2 : env2.loggedIn = true) (hconfirm2 : env2.confirm = true)
    (huser2 : env2.user = some uid2) (hdelete2 : env2.deleteError = none) :
    (clearCart s env1).result = true ∧
    getCart (clearCart s env1).state = ([], 0, 0) ∧
    (clearCart (clearCart s env1).state env2).result = true ∧
    getCart (clearCart (clearCart s env1).state env2).state = ([], 0, 0) := by
  rw [clearCart_ok_eq _ env2 uid2 hlog2 hconfirm2 huser2 hdelete2,
    clearCart_ok_eq s env1 uid1 hlog1 hconfirm1 huser1 hdelete1]
  simp [getCart, setLoading, calculateTotals]

/-- Claim C16 on the cache of two lines. -/
theorem clearCart_twice_witness :
    (clearCart cartOfTwoLines clearOk).result = true ∧
    getCart (clearCart cartOfTwoLines clearOk).state = ([], 0, 0) ∧
    (clearCart (clearCart cartOfTwoLines clearOk).state clearOk).result = true ∧
    getCart (clearCart (clearCart cartOfTwoLines clearOk).state clearOk).state = ([], 0, 0) :=
  clearCart_twice cartOfTwoLines clearOk clearOk "u1" "u1" rfl rfl rfl rfl rfl rfl rfl rfl

/-! ## The listener for authentication events -/

/-- Claim C17. Run on an event whose `detail.state` is 'UNAUTHENTICATED', the listener
the cart registers leaves no lines, count 0 and total 0, and sends no call, so no delete
of the user's cart rows. -/
theorem listener_signed_out_resets (s : ShoppingCart) (env : LoadEnv) (event : CustomEvent)
    (hstate : event.state = "UNAUTHENTICATED") :
    getCart (authStateListener s env event).state = ([], 0, 0) ∧
    (authStateListener s env event).calls = [] := by
  have hne : ¬ ("UNAUTHENTICATED" = "AUTHENTICATED") := by decide
  simp [authStateListener, hstate, hne, onUnauthenticated, getCart, calculateTotals]

/-- Claim C17 on the cache of two lines. -/
theorem listener_signed_out_resets_witness :
    getCart (authStateListener cartOfTwoLines loadTwoLines
      ⟨"AUTH_STATE_CHANGED", "UNAUTHENTICATED"⟩).state = ([], 0, 0) ∧
    (authStateListener cartOfTwoLines loadTwoLines
      ⟨"AUTH_STATE_CHANGED", "UNAUTHENTICATED"⟩).calls = [] :=
  listener_signed_out_resets cartOfTwoLines loadTwoLines
    ⟨"AUTH_STATE_CHANGED", "UNAUTHENTICATED"⟩ rfl

/-- Claim C18, the code on the events `AuthManager` dispatches: `_setAuthState` sends an
event of type 'authStateChanged', the cart listens for type 'AUTH_STATE_CHANGED', so for
every new state the cart's listener does not run: the object is as before and no call is
sent. Even run by hand on such an event, the listener does nothing for the states
'authenticated' and 'unauthenticated', which it compares with the upper-case names. -/
theorem auth_event_not_delivered (s : ShoppingCart) (env : LoadEnv) (state : String) :
    (dispatchToCart s env (AuthManager.setAuthState state)).state = s ∧
    (dispatchToCart s env (AuthManager.setAuthState state)).calls = [] ∧
    (authStateListener s env (AuthManager.setAuthState AUTH_STATES.AUTHENTICATED)).state = s ∧
    (authStateListener s env (AuthManager.setAuthState AUTH_STATES.AUTHENTICATED)).calls
      = [] ∧
    (authStateListener s env (AuthManager.setAuthState AUTH_STATES.UNAUTHENTICATED)).state
      = s := by
  have h1 : ¬ (EVENTS.AUTH_STATE_CHANGED = cartListenerType) := by decide
  have h2 : ¬ (AUTH_STATES.AUTHENTICATED = "AUTHENTICATED") := by decide
  have h3 : ¬ (AUTH_STATES.AUTHENTICATED = "UNAUTHENTICATED") := by decide
  have h4 : ¬ (AUTH_STATES.UNAUTHENTICATED = "AUTHENTICATED") := by decide
  have h5 : ¬ (AUTH_STATES.UNAUTHENTICATED = "UNAUTHENTICATED") := by decide
  simp [dispatchToCart, authStateListener, AuthManager.setAuthState, h1, h2, h3, h4, h5]

/-- Claim C18, the code at the failing input: the cache holds two lines and the manager
sets the state 'unauthenticated', or holds nothing and the manager sets 'authenticated'
while the store has two rows. The cache is untouched and nothing is loaded. -/
theorem cart_ignores_manager_events_sample :
    getCart (dispatchToCart cartOfTwoLines loadTwoLines
      (AuthManager.setAuthState AUTH_STATES.UNAUTHENTICATED)).state = getCart cartOfTwoLines ∧
    getCart (dispatchToCart ShoppingCart.new loadTwoLines
      (AuthManager.setAuthState AUTH_STATES.AUTHENTICATED)).state = ([], 0, 0) ∧
    (dispatchToCart ShoppingCart.new loadTwoLines
      (AuthManager.setAuthState AUTH_STATES.AUTHENTICATED)).calls = [] ∧
    getCart (loadCartFromDB ShoppingCart.new loadTwoLines).state = getCart cartOfTwoLines := by
  decide

/-! ## loadCartFromDB -/

theorem mapRows_rowOf (rows : List (ProductId × Int × Product)) :
    mapRows (rows.map rowOf) = some (rows.map lineOfRow) := by
  induction rows with
  | nil => rfl
  | cons r rs ih => simp [mapRows, rowToItem, rowOf, lineOfRow, ih]

/-- Claim C19, as stated, fails: the select succeeds with one row whose product is
missing. Loaded over the cache holding 3 units, the cache is then no lines with count 3
and total 3000; loaded over the cart as the constructor leaves it, no lines with count 0
and total 0. The rows are the same, the caches differ, and neither has a line for the
row. -/
theorem load_row_without_product_counterexample :
    loadRowWithoutProduct.cartItems.error = none ∧
    getCart (loadCartFromDB cartOfThree loadRowWithoutProduct).state = ([], 3, 3000) ∧
    getCart (loadCartFromDB ShoppingCart.new loadRowWithoutProduct).state = ([], 0, 0) ∧
    getCart (loadCartFromDB cartOfThree loadRowWithoutProduct).state
      ≠ getCart (loadCartFromDB ShoppingCart.new loadRowWithoutProduct).state := by
  decide

/-- Claim C19, amended. A signed-in `loadCartFromDB` whose select succeeds with rows that
each carry their product leaves a cache given by the rows alone: one line per row, in row
order, built by `lineOfRow` (id, name, price, image, quantity, stock and active copied,
unit 'UND' when the product has none), with the counters summed over the rows; the cache
before the call plays no part, and a second load over the same rows leaves that same
cache. -/
theorem load_depends_on_rows_only (s : ShoppingCart) (env : LoadEnv) (uid : UserId)
    (rows : List (ProductId × Int × Product))
    (hlog : env.loggedIn = true) (huser : env.user = some uid)
    (hrows : env.cartItems = ⟨some (rows.map rowOf), none⟩) :
    getCart (loadCartFromDB s env).state =
      (rows.map lineOfRow, (rows.map (fun row => row.2.1)).sum,
        (rows.map (fun row => row.2.2.price * row.2.1)).sum) ∧
    getCart (loadCartFromDB (loadCartFromDB s env).state env).state
      = getCart (loadCartFromDB s env).state := by
  have key : ∀ t : ShoppingCart, getCart (loadCartFromDB t env).state =
      (rows.map lineOfRow, (rows.map (fun row => row.2.1)).sum,
        (rows.map (fun row => row.2.2.price * row.2.1)).sum) := by
    intro t
    simp [loadCartFromDB, hlog, huser, hrows, mapRows_rowOf, getCart, calculateTotals,
      foldl_add_eq_sum, lineOfRow, Function.comp_def]
  exact ⟨key s, by rw [key, key]⟩

/-- Claim C19, amended, on two rows, loaded over a cache that held something else. -/
theorem load_depends_on_rows_only_witness :
    getCart (loadCartFromDB cartOfThree loadTwoLines).state =
      ([{ id := "p1", name := "Caramelo", price := 1000, image := "c.png", quantity := 2,
          stock := 5, unit := "UND", active := true },
        { id := "p2", name := "Chicle", price := 500, image := "g.png", quantity := 3,
          stock := 20, unit := "CAJA", active := true }], 5, 3500) ∧
    getCart (loadCartFromDB (loadCartFromDB cartOfThree loadTwoLines).state loadTwoLines).state
      = getCart (loadCartFromDB cartOfThree loadTwoLines).state :=
  load_depends_on_rows_only cartOfThree loadTwoLines "u1"
    [("p1", 2, caramelo), ("p2", 3, chicle)] rfl rfl rfl

/-- Claim C20, the code at the failing input: on the cache holding 3 units (count 3,
total 3000), a signed-in `loadCartFromDB` whose select reports an error returns, sends
the two calls, and leaves no lines with the counters still at 3 and 3000. -/
theorem load_error_stale_counters :
    (loadCartFromDB cartOfThree loadFails).calls = [.getUser, .selectCart "u1"] ∧
    (loadCartFromDB cartOfThree loadFails).state.cart = [] ∧
    (loadCartFromDB cartOfThree loadFails).state.cartCount = 3 ∧
    (loadCartFromDB cartOfThree loadFails).state.cartTotal = 3000 ∧
    getCart (loadCartFromDB cartOfThree loadFails).state ≠ ([], 0, 0) := by
  decide

/-! ## checkout when the clear fails -/

theorem clearCart_false (s : ShoppingCart) (env : ClearEnv)
    (h : (clearCart s env).result = false) : getCart (clearCart s env).state = getCart s := by
  cases hl : env.loggedIn with
  | false => simp [clearCart, hl]
  | true =>
  cases hc : env.confirm with
  | false => simp [clearCart, hl, hc]
  | true =>
  cases hu : env.user with
  | none => simp [clearCart, hl, hc, hu, caught, getCart, setLoading]
  | some uid =>
  cases hd : env.deleteError with
  | some e => simp [clearCart, hl, hc, hu, hd, caught, getCart, setLoading]
  | none => simp [clearCart, hl, hc, hu, hd] at h

theorem clearCart_calls_not_order (s : ShoppingCart) (env : ClearEnv) :
    (clearCart s env).calls.filter StoreCall.isOrderWrite = [] := by
  cases hl : env.loggedIn with
  | false => simp [clearCart, hl]
  | true =>
  cases hc : env.confirm with
  | false => simp [clearCart, hl, hc]
  | true =>
  cases hu : env.user with
  | none => simp [clearCart, hl, hc, hu, caught, StoreCall.isOrderWrite]
  | some uid =>
  cases hd : env.deleteError with
  | some e => simp [clearCart, hl, hc, hu, hd, caught, StoreCall.isOrderWrite]
  | none => simp [clearCart, hl, hc, hu, hd, StoreCall.isOrderWrite]

/-- Claim C21. On a cart with at least one line, when both inserts of a signed-in
`checkout` succeed and the `clearCart` it then calls returns false, `checkout` still
returns success with the number and id of the inserted order; the only calls it sends to
`orders` and `order_items` are the two inserts, so nothing is rolled back; items, count
and total are as before the call. -/
theorem checkout_clear_failure_keeps_order (s : ShoppingCart) (env : CheckoutEnv)
    (shipping : ShippingData) (uid : UserId) (order : OrderRow)
    (hlog : env.loggedIn = true) (hne : s.cart ≠ [])
    (huser : env.user = some uid) (horder : env.order = ⟨some order, none⟩)
    (hitems : env.itemsError = none)
    (hclear : (clearCart (setLoading s true) env.clear).result = false) :
    (checkout s env (some shipping)).result
      = CheckoutResult.success order.order_number order.id ∧
    (checkout s env (some shipping)).calls.filter StoreCall.isOrderWrite =
      [StoreCall.insertOrder
         { user_id := uid, total_amount := s.cartTotal,
           shipping_address := shipping.address, phone := shipping.phone,
           notes := notesOrNull shipping.notes, status := "pending" },
       StoreCall.insertOrderItems (s.cart.map (toOrderItem order.id))] ∧
    getCart (checkout s env (some shipping)).state = getCart s := by
  have hlen : ¬ s.cart.length = 0 := by
    intro h
    exact hne (List.length_eq_zero.mp h)
  have hcache := clearCart_false (setLoading s true) env.clear hclear
  have hcalls := clearCart_calls_not_order (setLoading s true) env.clear
  unfold checkout
  simp only [hlog, Bool.not_true, Bool.false_eq_true, if_false, hlen, huser, horder, hitems]
  refine ⟨trivial, ?_, ?_⟩
  · rw [List.filter_append, hcalls]
    simp [StoreCall.isOrderWrite, setLoading]
  · exact hcache

/-- Claim C21 on the cart of two lines with the delete of the cart rows failing. -/
theorem checkout_clear_failure_keeps_order_witness :
    (clearCart (setLoading cartOfTwoLines true) checkoutClearFails.clear).calls
      = [.getUser, .deleteCart "u1"] ∧
    (checkout cartOfTwoLines checkoutClearFails (some shipTo)).result
      = CheckoutResult.success "ORD-7" 7 ∧
    (checkout cartOfTwoLines checkoutClearFails (some shipTo)).calls.filter
        StoreCall.isOrderWrite =
      [StoreCall.insertOrder
         { user_id := "u1", total_amount := 3500, shipping_address := "Calle 1",
           phone := "300", notes := none, status := "pending" },
       StoreCall.insertOrderItems (cartOfTwoLines.cart.map (toOrderItem 7))] ∧
    getCart (checkout cartOfTwoLines checkoutClearFails (some shipTo)).state
      = getCart cartOfTwoLines :=
  ⟨by decide,
   checkout_clear_failure_keeps_order cartOfTwoLines checkoutClearFails shipTo "u1"
     orderSeven rfl (by decide) rfl rfl rfl (by decide)⟩

/-! ## calculateTotals -/

/-- Claim C27. `calculateTotals` sets `cartCount` to the sum of the quantities of the
lines and `cartTotal` to the sum of price times quantity over the lines, both 0 when
there are no lines, and leaves the lines as they are. -/
theorem calculateTotals_sums (s : ShoppingCart) :
    (calculateTotals s).cartCount = (s.cart.map (fun item => item.quantity)).sum ∧
    (calculateTotals s).cartTotal
      = (s.cart.map (fun item => item.price * item.quantity)).sum ∧
    (calculateTotals s).cart = s.cart ∧
    (s.cart = [] → (calculateTotals s).cartCount = 0 ∧ (calculateTotals s).cartTotal = 0) := by
  refine ⟨?_, ?_, rfl, ?_⟩
  · simp [calculateTotals, foldl_add_eq_sum]
  · simp [calculateTotals, foldl_add_eq_sum]
  · intro h
    simp [calculateTotals, h]

/-! ## Lines of other products -/

theorem filter_ne_setQuantity (productId : ProductId) (q : Int) (l : List CartItem) :
    (setQuantity productId q l).filter (fun item => item.id ≠ productId)
      = l.filter (fun item => item.id ≠ productId) := by
  induction l with
  | nil => rfl
  | cons x xs ih =>
    by_cases hx : x.id = productId
    · simp [setQuantity, hx]
    · simpa [setQuantity, hx] using ih

theorem setQuantity_of_find_none (productId : ProductId) (q : Int) (l : List CartItem)
    (h : l.find? (fun item => item.id = productId) = none) : setQuantity productId q l = l := by
  induction l with
  | nil => rfl
  | cons x xs ih =>
    by_cases hx : x.id = productId
    · simp [List.find?_cons, hx] at h
    · simp only [List.find?_cons, hx, decide_False] at h
      simp [setQuantity, hx, ih h]

/-- Claim C28. A successful `addToCart`, `updateQuantity` or `removeFromCart` on a product
leaves the lines of every other product as they were and in the same order; a successful
`addToCart` of a product that has no line yet puts its line after all the others. -/
theorem other_lines_untouched (s : ShoppingCart) (productId : ProductId) :
    (∀ (env : AddEnv) (productName : String) (productPrice : Int) (productImage : String)
        (quantity : Int),
      (addToCart s env productId productName productPrice productImage quantity).result
        = true →
      (addToCart s env productId productName productPrice productImage
          quantity).state.cart.filter (fun item => item.id ≠ productId)
        = s.cart.filter (fun item => item.id ≠ productId) ∧
      (s.cart.find? (fun item => item.id = productId) = none →
        ∃ line, line.id = productId ∧
          (addToCart s env productId productName productPrice productImage
            quantity).state.cart = s.cart ++ [line])) ∧
    (∀ (env : UpdateEnv) (newQuantity : Int),
      (updateQuantity s env productId newQuantity).result = true →
      (updateQuantity s env productId newQuantity).state.cart.filter
          (fun item => item.id ≠ productId)
        = s.cart.filter (fun item => item.id ≠ productId)) ∧
    (∀ env : RemoveEnv, (removeFromCart s env productId).result = true →
      (removeFromCart s env productId).state.cart.filter (fun item => item.id ≠ productId)
        = s.cart.filter (fun item => item.id ≠ productId)) := by
  refine ⟨?_, ?_, ?_⟩
  · intro env productName productPrice productImage quantity h
    obtain ⟨p, _, _, hcase⟩ :=
      addToCart_true s env productId productName productPrice productImage quantity h
    rcases hcase with ⟨item, hf, hcart⟩ | ⟨hf, hcart⟩
    · refine ⟨by rw [hcart, filter_ne_setQuantity], ?_⟩
      intro hnone
      rw [hnone] at hf
      exact absurd hf (by simp)
    · refine ⟨by rw [hcart]; simp [List.filter_append], ?_⟩
      intro _
      exact ⟨_, rfl, hcart⟩
  · intro env newQuantity h
    rcases updateQuantity_true s env productId newQuantity h with ⟨_, hcart⟩ | ⟨_, p, _, _, hcart⟩
    · rw [hcart, List.filter_filter]
      simp
    · rw [hcart, filter_ne_setQuantity]
  · intro env h
    rw [removeFromCart_true s env productId h, List.filter_filter]
    simp

/-- Claim C28 on the cart of two lines: setting, removing and adding to the first product
leaves the line of the second as it was; adding a third product puts it last. -/
theorem other_lines_untouched_witness :
    ((addToCart cartOfTwoLines addOk "p1" "Caramelo" 1000 "c.png" 1).state.cart.filter
        (fun item => item.id ≠ "p1")
      = cartOfTwoLines.cart.filter (fun item => item.id ≠ "p1")) ∧
    ((updateQuantity cartOfTwoLines updateRestocked "p1" 4).state.cart.filter
        (fun item => item.id ≠ "p1")
      = cartOfTwoLines.cart.filter (fun item => item.id ≠ "p1")) ∧
    ((removeFromCart cartOfTwoLines removeOk "p1").state.cart.filter
        (fun item => item.id ≠ "p1")
      = cartOfTwoLines.cart.filter (fun item => item.id ≠ "p1")) ∧
    (∃ line, line.id = "p3" ∧
      (addToCart cartOfTwoLines addOk "p3" "Caramelo" 1000 "c.png" 1).state.cart
        = cartOfTwoLines.cart ++ [line]) :=
  ⟨((other_lines_untouched cartOfTwoLines "p1").1 addOk "Caramelo" 1000 "c.png" 1
      (by decide)).1,
   (other_lines_untouched cartOfTwoLines "p1").2.1 updateRestocked 4 (by decide),
   (other_lines_untouched cartOfTwoLines "p1").2.2 removeOk (by decide),
   ((other_lines_untouched cartOfTwoLines "p3").1 addOk "Caramelo" 1000 "c.png" 1
      (by decide)).2 (by decide)⟩

/-! ## What the caller of addToCart supplies -/

theorem addToCart_caller_fields (s : ShoppingCart) (env : AddEnv) (productId : ProductId)
    (quantity : Int) (name1 name2 : String) (price1 price2 : Int) (image1 image2 : String) :
    (addToCart s env productId name1 price1 image1 quantity).result
      = (addToCart s env productId name2 price2 image2 quantity).result ∧
    (addToCart s env productId name1 price1 image1 quantity).calls
      = (addToCart s env productId name2 price2 image2 quantity).calls ∧
    (addToCart s env productId name1 price1 image1 quantity).state
      = (addToCart s env productId name2 price2 image2 quantity).state := by
  cases hl : env.loggedIn with
  | false => simp [addToCart, hl]
  | true =>
  cases he : env.product.error with
  | some e => simp [addToCart, hl, he, caught]
  | none =>
  cases hd : env.product.data with
  | none => simp [addToCart, hl, he, hd, caught]
  | some p =>
  cases ha : p.active with
  | false => simp [addToCart, hl, he, hd, ha, caught]
  | true =>
  by_cases hst : p.stock < cachedQuantity s.cart productId + quantity
  · simp only [cachedQuantity] at hst
    simp [addToCart, hl, he, hd, ha, caught, setLoading, hst]
  · simp only [cachedQuantity] at hst
    cases hu : env.user with
    | none => simp [addToCart, hl, he, hd, ha, caught, setLoading, hst, hu]
    | some uid =>
    cases hups : env.upsertError with
    | some e => simp [addToCart, hl, he, hd, ha, caught, setLoading, hst, hu, hups]
    | none => simp [addToCart, hl, he, hd, ha, setLoading, hst, hu, hups]

/-- Claim C29. Two `addToCart` calls on the same cache with the same product id, the same
quantity and the same answers from the store, whatever name, price and image each caller
passes, return the same value, send the same calls and leave the same object; when the
call succeeds for a product that had no line, the new line carries the name, price and
image of the product row fetched from the store. -/
theorem addToCart_ignores_caller_fields (s : ShoppingCart) (env : AddEnv)
    (productId : ProductId) (quantity : Int) (name1 name2 : String) (price1 price2 : Int)
    (image1 image2 : String) :
    (addToCart s env productId name1 price1 image1 quantity).result
      = (addToCart s env productId name2 price2 image2 quantity).result ∧
    (addToCart s env productId name1 price1 image1 quantity).calls
      = (addToCart s env productId name2 price2 image2 quantity).calls ∧
    (addToCart s env productId name1 price1 image1 quantity).state
      = (addToCart s env productId name2 price2 image2 quantity).state ∧
    ((addToCart s env productId name1 price1 image1 quantity).result = true →
      s.cart.find? (fun item => item.id = productId) = none →
      ∃ p, env.product.data = some p ∧
        (addToCart s env productId name1 price1 image1 quantity).state.cart =
          s.cart ++
            [{ id := productId, name := p.name, price := p.price, image := p.image_url,
               quantity := quantity, stock := p.stock, unit := unitOrUND p.unit,
               active := p.active }]) := by
  have h := addToCart_caller_fields s env productId quantity name1 name2 price1 price2
    image1 image2
  refine ⟨h.1, h.2.1, h.2.2, ?_⟩
  intro hres hnone
  obtain ⟨p, hp, _, hcase⟩ := addToCart_true s env productId name1 price1 image1 quantity hres
  rcases hcase with ⟨item, hf, _⟩ | ⟨_, hcart⟩
  · rw [hnone] at hf
    exact absurd hf (by simp)
  · exact ⟨p, hp, hcart⟩

/-- Claim C29 on the empty cart: a caller passing the shown name and price and a caller
passing another name, price 1 and another image get the same line, with the store's name
'Caramelo', price 1000 and image 'c.png'. -/
theorem addToCart_ignores_caller_fields_witness :
    (addToCart ShoppingCart.new addOk "p1" "Caramelo" 1000 "c.png" 2).state
      = (addToCart ShoppingCart.new addOk "p1" "Otro" 1 "x.png" 2).state ∧
    (addToCart ShoppingCart.new addOk "p1" "Caramelo" 1000 "c.png" 2).calls
      = (addToCart ShoppingCart.new addOk "p1" "Otro" 1 "x.png" 2).calls ∧
    (addToCart ShoppingCart.new addOk "p1" "Otro" 1 "x.png" 2).state.cart =
      [{ id := "p1", name := "Caramelo", price := 1000, image := "c.png", quantity := 2,
         stock := 5, unit := "UND", active := true }] :=
  ⟨(addToCart_ignores_caller_fields ShoppingCart.new addOk "p1" 2 "Caramelo" "Otro" 1000 1
      "c.png" "x.png").2.2.1,
   (addToCart_ignores_caller_fields ShoppingCart.new addOk "p1" 2 "Caramelo" "Otro" 1000 1
      "c.png" "x.png").2.1,
   by decide⟩

/-! ## updateQuantity on a product without line -/

/-- Claim C30, as stated, fails on a reachable state: after an add of 2 units and a load
whose select fails, the cache has no lines, count 2 and total 2000. A signed-in
`updateQuantity` to 1 for the product, with 10 in stock and every call succeeding,
returns true and leaves count 0 and total 0: the lines are unchanged, the counters are
not. -/
theorem updateQuantity_absent_counterexample :
    Reachable cartStale ∧
    getCart cartStale = ([], 2, 2000) ∧
    (updateQuantity cartStale updateRestocked "p1" 1).result = true ∧
    getCart (updateQuantity cartStale updateRestocked "p1" 1).state = ([], 0, 0) ∧
    getCart (updateQuantity cartStale updateRestocked "p1" 1).state ≠ getCart cartStale :=
  ⟨Reachable.load _ _ (Reachable.add _ _ _ _ _ _ _ Reachable.new),
   by decide, by decide, by decide, by decide⟩

/-- Claim C30, amended. On a cache that has no line for the product, a signed-in
`updateQuantity` with a quantity between 1 and the fetched stock, whose calls succeed,
returns true, sends the update, leaves the lines as they were (so no line for the product
exists afterwards) and sets count and total to the sums over the lines; items, count and
total are unchanged whenever count and total agreed with the lines before. -/
theorem updateQuantity_absent_line (s : ShoppingCart) (env : UpdateEnv)
    (productId : ProductId) (newQuantity : Int) (p : Product) (uid : UserId)
    (habsent : s.cart.find? (fun item => item.id = productId) = none)
    (hlog : env.loggedIn = true) (hn : 1 ≤ newQuantity) (hstock : newQuantity ≤ p.stock)
    (hprod : env.product = ⟨some p, none⟩) (huser : env.user = some uid)
    (hwrite : env.updateError = none) :
    (updateQuantity s env productId newQuantity).result = true ∧
    (updateQuantity s env productId newQuantity).calls =
      [.selectProduct productId, .getUser, .updateCart uid productId newQuantity] ∧
    (updateQuantity s env productId newQuantity).state.cart = s.cart ∧
    (∀ line ∈ (updateQuantity s env productId newQuantity).state.cart,
      line.id ≠ productId) ∧
    (updateQuantity s env productId newQuantity).state.cartCount = lineCount s.cart ∧
    (updateQuantity s env productId newQuantity).state.cartTotal = lineTotal s.cart ∧
    (Synced s → getCart (updateQuantity s env productId newQuantity).state = getCart s) := by
  have hst : ¬ newQuantity > p.stock := not_lt.mpr hstock
  have hmem : ∀ line ∈ s.cart, line.id ≠ productId := by
    intro line hline hid
    exact find_none_not_mem productId s.cart habsent (List.mem_map.mpr ⟨line, hline, hid⟩)
  rw [updateQuantity_positive_eq s env productId newQuantity p uid hlog hn hprod huser hwrite]
  simp only [hst, if_false, setLoading, calculateTotals,
    setQuantity_of_find_none productId newQuantity s.cart habsent, foldl_add_eq_sum, zero_add]
  refine ⟨trivial, trivial, trivial, hmem, rfl, rfl, ?_⟩
  intro hsync
  simp only [getCart, Prod.mk.injEq, true_and]
  exact ⟨hsync.1.symm, hsync.2.symm⟩

/-- Claim C30, amended, on the cache holding only the first product, for the second
product with 20 in stock: success, and the cache is as before. -/
theorem updateQuantity_absent_line_witness :
    (updateQuantity cartOfThree updateChicle "p2" 4).result = true ∧
    (updateQuantity cartOfThree updateChicle "p2" 4).calls =
      [.selectProduct "p2", .getUser, .updateCart "u1" "p2" 4] ∧
    (updateQuantity cartOfThree updateChicle "p2" 4).state.cart = cartOfThree.cart ∧
    (∀ line ∈ (updateQuantity cartOfThree updateChicle "p2" 4).state.cart,
      line.id ≠ "p2") ∧
    (updateQuantity cartOfThree updateChicle "p2" 4).state.cartCount
      = lineCount cartOfThree.cart ∧
    (updateQuantity cartOfThree updateChicle "p2" 4).state.cartTotal
      = lineTotal cartOfThree.cart ∧
    getCart (updateQuantity cartOfThree updateChicle "p2" 4).state = getCart cartOfThree :=
  have h := updateQuantity_absent_line cartOfThree updateChicle "p2" 4 chicle "u1"
    (by decide) rfl (by decide) (by decide) rfl rfl rfl
  ⟨h.1, h.2.1, h.2.2.1, h.2.2.2.1, h.2.2.2.2.1, h.2.2.2.2.2.1,
   h.2.2.2.2.2.2 ⟨by decide, by decide⟩⟩

/-! ## The session fetch with retries -/

/-- Whatever the attempts do, `_getSessionWithRetry` returns an object, after at least
one and at most three calls of `getSession`. -/
theorem getSessionWithRetry_bounded (fetch : Nat → SessionFetch) :
    (AuthManager.getSessionWithRetry fetch).result ≠ none ∧
    1 ≤ (AuthManager.getSessionWithRetry fetch).attempts ∧
    (AuthManager.getSessionWithRetry fetch).attempts ≤ 3 := by
  cases h0 : fetch 0 <;> cases h1 : fetch 1 <;> cases h2 : fetch 2 <;>
    simp [AuthManager.getSessionWithRetry, AuthManager.maxRetries, getSessionLoop, h0, h1, h2]

/-- Claim C26, the code at the failing input: when the first attempt throws and the
second resolves with a session, the method returns success after two attempts without
having waited at all; when the first attempt instead resolves with an error it waits
1000 ms before the second. Three error results wait 1000 and 2000 ms, three thrown
attempts wait nothing; both end in a failure object after three attempts. -/
theorem getSessionWithRetry_thrown_no_delay :
    AuthManager.getSessionWithRetry fetchThrownThenSession =
      { result := some { success := true, session := some "ana@example.com", error := none },
        attempts := 2, delays := [] } ∧
    AuthManager.getSessionWithRetry fetchErrorThenSession =
      { result := some { success := true, session := some "ana@example.com", error := none },
        attempts := 2, delays := [1000] } ∧
    AuthManager.getSessionWithRetry fetchAlwaysError =
      { result := some { success := false, session := none, error := some "timeout" },
        attempts := 3, delays := [1000, 2000] } ∧
    AuthManager.getSessionWithRetry fetchAlwaysThrown =
      { result := some { success := false, session := none,
                         error := some "Failed to fetch" },
        attempts := 3, delays := [] } := by
  decide

/-! ## What the methods return -/

/-- Claim C25, as stated, fails: a successful `addToCart` returns the bare value true,
and `checkout` on an empty cart, or while signed out, returns the bare value false;
neither is an object with a field `success`. -/
theorem return_shape_counterexample :
    (addToCart cartOfThree addOk "p1" "Caramelo" 1000 "c.png" 2).result = true ∧
    (ReturnValue.bare
      (addToCart cartOfThree addOk "p1" "Caramelo" 1000 "c.png" 2).result).isResultObject
      = false ∧
    (checkout ShoppingCart.new checkoutOk (some shipTo)).result.returned
      = ReturnValue.bare false ∧
    (checkout ShoppingCart.new checkoutOk (some shipTo)).result.returned.isResultObject
      = false ∧
    (checkout cartOfThree checkoutSignedOut (some shipTo)).result.returned.isResultObject
      = false := by
  decide

theorem addToCart_true_iff (s : ShoppingCart) (env : AddEnv) (productId : ProductId)
    (productName : String) (productPrice : Int) (productImage : String) (quantity : Int) :
    (addToCart s env productId productName productPrice productImage quantity).result = true ↔
      env.loggedIn = true ∧ env.product.error = none ∧
      (∃ p, env.product.data = some p ∧ p.active = true ∧
        cachedQuantity s.cart productId + quantity ≤ p.stock) ∧
      env.user ≠ none ∧ env.upsertError = none := by
  cases hl : env.loggedIn with
  | false => simp [addToCart, hl]
  | true =>
  cases he : env.product.error with
  | some e => simp [addToCart, hl, he, caught]
  | none =>
  cases hd : env.product.data with
  | none => simp [addToCart, hl, he, hd, caught]
  | some p =>
  cases ha : p.active with
  | false => simp [addToCart, hl, he, hd, ha, caught]
  | true =>
  by_cases hst : p.stock < cachedQuantity s.cart productId + quantity
  · have hst' := hst
    simp only [cachedQuantity] at hst'
    simp [addToCart, hl, he, hd, ha, caught, setLoading, hst', hst]
  · have hst' := hst
    simp only [cachedQuantity] at hst'
    have hle := not_lt.mp hst
    cases hu : env.user with
    | none => simp [addToCart, hl, he, hd, ha, caught, setLoading, hst', hu]
    | some uid =>
    cases hups : env.upsertError with
    | some e => simp [addToCart, hl, he, hd, ha, caught, setLoading, hst', hu, hups]
    | none => simp [addToCart, hl, he, hd, ha, setLoading, hst', hu, hups, hle]

theorem removeFromCart_true_iff (s : ShoppingCart) (env : RemoveEnv) (productId : ProductId) :
    (removeFromCart s env productId).result = true ↔
      env.loggedIn = true ∧ env.user ≠ none ∧ env.deleteError = none := by
  cases hl : env.loggedIn with
  | false => simp [removeFromCart, hl]
  | true =>
  cases hu : env.user with
  | none => simp [removeFromCart, hl, hu, caught]
  | some uid =>
  cases hd : env.deleteError with
  | some e => simp [removeFromCart, hl, hu, hd, caught]
  | none => simp [removeFromCart, hl, hu, hd]

theorem updateQuantity_true_iff (s : ShoppingCart) (env : UpdateEnv) (productId : ProductId)
    (newQuantity : Int) :
    (updateQuantity s env productId newQuantity).result = true ↔
      env.loggedIn = true ∧
      ((newQuantity ≤ 0 ∧ env.remove.loggedIn = true ∧ env.remove.user ≠ none ∧
          env.remove.deleteError = none) ∨
        (0 < newQuantity ∧ env.product.error = none ∧
          (∃ p, env.product.data = some p ∧ newQuantity ≤ p.stock) ∧
          env.user ≠ none ∧ env.updateError = none)) := by
  cases hl : env.loggedIn with
  | false => simp [updateQuantity, hl]
  | true =>
  by_cases hn : newQuantity ≤ 0
  · have hpos : ¬ 0 < newQuantity := not_lt.mpr hn
    have hr := removeFromCart_true_iff (setLoading s true) env.remove productId
    simp only [updateQuantity, hl, hn, Bool.not_true, Bool.false_eq_true, if_false, if_true,
      hr, hpos, true_and, false_and, or_false]
  · have hpos : 0 < newQuantity := not_le.mp hn
    cases he : env.product.error with
    | some e => simp [updateQuantity, hl, hn, he, caught]
    | none =>
    cases hd : env.product.data with
    | none => simp [updateQuantity, hl, hn, he, hd, caught]
    | some p =>
    by_cases hst : p.stock < newQuantity
    · simp [updateQuantity, hl, hn, he, hd, hst, caught]
    · have hle := not_lt.mp hst
      cases hu : env.user with
      | none => simp [updateQuantity, hl, hn, he, hd, hst, hu, caught]
      | some uid =>
      cases hup : env.updateError with
      | some e => simp [updateQuantity, hl, hn, he, hd, hst, hu, hup, caught]
      | none => simp [updateQuantity, hl, hn, he, hd, hst, hu, hup, hpos, hle]

theorem clearCart_true_iff (s : ShoppingCart) (env : ClearEnv) :
    (clearCart s env).result = true ↔
      env.loggedIn = true ∧ env.confirm = true ∧ env.user ≠ none ∧
      env.deleteError = none := by
  cases hl : env.loggedIn with
  | false => simp [clearCart, hl]
  | true =>
  cases hc : env.confirm with
  | false => simp [clearCart, hl, hc]
  | true =>
  cases hu : env.user with
  | none => simp [clearCart, hl, hc, hu, caught]
  | some uid =>
  cases hd : env.deleteError with
  | some e => simp [clearCart, hl, hc, hu, hd, caught]
  | none => simp [clearCart, hl, hc, hu, hd]

theorem checkout_object (s : ShoppingCart) (env : CheckoutEnv)
    (shippingData : Option ShippingData) (hlog : env.loggedIn = true) (hne : s.cart ≠ []) :
    (checkout s env shippingData).result.returned.isResultObject = true ∧
    ((∃ number id, (checkout s env shippingData).result = CheckoutResult.success number id) ↔
      env.user ≠ none ∧ shippingData ≠ none ∧ env.order.error = none ∧
      env.order.data ≠ none ∧ env.itemsError = none) := by
  have hlen : ¬ s.cart.length = 0 := by
    intro h
    exact hne (List.length_eq_zero.mp h)
  unfold checkout
  simp only [hlog, Bool.not_true, Bool.false_eq_true, if_false, hlen]
  cases hu : env.user with
  | none =>
    simp [checkoutCaught, CheckoutResult.returned, ReturnValue.isResultObject]
  | some uid =>
  cases hs : shippingData with
  | none =>
    simp [checkoutCaught, CheckoutResult.returned, ReturnValue.isResultObject]
  | some shipping =>
  cases he : env.order.error with
  | some e =>
    simp [checkoutCaught, CheckoutResult.returned, ReturnValue.isResultObject]
  | none =>
  cases hd : env.order.data with
  | none =>
    simp [checkoutCaught, CheckoutResult.returned, ReturnValue.isResultObject]
  | some order =>
  cases hi : env.itemsError with
  | some e =>
    simp [checkoutCaught, CheckoutResult.returned, ReturnValue.isResultObject]
  | none =>
    simp [CheckoutResult.returned, ReturnValue.isResultObject]

/-- Claim C25, amended. `addToCart`, `updateQuantity`, `removeFromCart` and `clearCart`
return a boolean: true exactly when the user is signed in, the checks pass and the write
is acknowledged (for `clearCart`, the dialog is confirmed too), false in every other
outcome. `checkout`, on a cart with at least one line and signed in, returns a result
object with a boolean `success` and an error string when it fails; it reports success
exactly when the user and the shipping data are there and both inserts succeed. -/
theorem return_shapes (s : ShoppingCart) (productId : ProductId) :
    (∀ (env : AddEnv) (productName : String) (productPrice : Int) (productImage : String)
        (quantity : Int),
      (addToCart s env productId productName productPrice productImage quantity).result
          = true ↔
        env.loggedIn = true ∧ env.product.error = none ∧
        (∃ p, env.product.data = some p ∧ p.active = true ∧
          cachedQuantity s.cart productId + quantity ≤ p.stock) ∧
        env.user ≠ none ∧ env.upsertError = none) ∧
    (∀ (env : UpdateEnv) (newQuantity : Int),
      (updateQuantity s env productId newQuantity).result = true ↔
        env.loggedIn = true ∧
        ((newQuantity ≤ 0 ∧ env.remove.loggedIn = true ∧ env.remove.user ≠ none ∧
            env.remove.deleteError = none) ∨
          (0 < newQuantity ∧ env.product.error = none ∧
            (∃ p, env.product.data = some p ∧ newQuantity ≤ p.stock) ∧
            env.user ≠ none ∧ env.updateError = none))) ∧
    (∀ env : RemoveEnv,
      (removeFromCart s env productId).result = true ↔
        env.loggedIn = true ∧ env.user ≠ none ∧ env.deleteError = none) ∧
    (∀ env : ClearEnv,
      (clearCart s env).result = true ↔
        env.loggedIn = true ∧ env.confirm = true ∧ env.user ≠ none ∧
        env.deleteError = none) ∧
    (∀ (env : CheckoutEnv) (shippingData : Option ShippingData),
      env.loggedIn = true → s.cart ≠ [] →
      (checkout s env shippingData).result.returned.isResultObject = true ∧
      ((∃ number id,
          (checkout s env shippingData).result = CheckoutResult.success number id) ↔
        env.user ≠ none ∧ shippingData ≠ none ∧ env.order.error = none ∧
        env.order.data ≠ none ∧ env.itemsError = none)) :=
  ⟨fun env productName productPrice productImage quantity =>
      addToCart_true_iff s env productId productName productPrice productImage quantity,
   fun env newQuantity => updateQuantity_true_iff s env productId newQuantity,
   fun env => removeFromCart_true_iff s env productId,
   fun env => clearCart_true_iff s env,
   fun env shippingData hlog hne => checkout_object s env shippingData hlog hne⟩

/-- Claim C25, amended, on sample runs: the add that passes returns true and the one
whose upsert fails returns false; a checkout whose insert of the lines fails returns the
object with `success` false and the error text. -/
theorem return_shapes_witness :
    (addToCart cartOfThree addOk "p1" "Caramelo" 1000 "c.png" 2).result = true ∧
    (addToCart cartOfThree addWriteFails "p1" "Caramelo" 1000 "c.png" 2).result ≠ true ∧
    (checkout cartOfTwoLines checkoutLinesFail (some shipTo)).result.returned
      = ReturnValue.object false (some "items down") ∧
    (checkout cartOfTwoLines checkoutLinesFail (some shipTo)).result.returned.isResultObject
      = true :=
  ⟨((return_shapes cartOfThree "p1").1 addOk "Caramelo" 1000 "c.png" 2).mpr
      ⟨rfl, rfl, ⟨caramelo, rfl, rfl, by decide⟩, by decide, rfl⟩,
   fun h => absurd
      (((return_shapes cartOfThree "p1").1 addWriteFails "Caramelo" 1000 "c.png" 2).mp
        h).2.2.2.2 (by decide),
   by decide,
   ((return_shapes cartOfTwoLines "p1").2.2.2.2 checkoutLinesFail (some shipTo) rfl
      (by decide)).1⟩

/-! ## What escapes the methods -/

theorem awaitUserId_ok (user : Option UserId) :
    awaitUserId (.ok user) =
      match user with
      | some uid => .ok uid
      | none => .error (Raised.object (Thrown.typeError "null" "id")) := by
  cases user <;> rfl

theorem removeFromCartExcept_awaits (s : ShoppingCart) (env : RemoveEnv)
    (productId : ProductId) :
    removeFromCartExcept s env.awaits productId =
      .ok ((removeFromCart s env productId).result, (removeFromCart s env productId).state) := by
  cases hl : env.loggedIn with
  | false => simp [removeFromCartExcept, removeFromCart, RemoveEnv.awaits, hl, pure, Except.pure]
  | true =>
  cases hu : env.user with
  | none =>
    simp [removeFromCartExcept, removeFromCartTry, removeFromCart, RemoveEnv.awaits, hl, hu,
      awaitUserId_ok, caught, Raised.message, awaitCall, bind, Except.bind, pure, Except.pure]
  | some uid =>
  cases hd : env.deleteError with
  | some e =>
    simp [removeFromCartExcept, removeFromCartTry, removeFromCart, RemoveEnv.awaits, hl, hu,
      hd, awaitUserId_ok, caught, Raised.message, awaitCall, bind, Except.bind, pure, Except.pure, throw, throwThe,
      MonadExceptOf.throw]
  | none =>
    simp [removeFromCartExcept, removeFromCartTry, removeFromCart, RemoveEnv.awaits, hl, hu,
      hd, awaitUserId_ok, Raised.message, awaitCall, bind, Except.bind, pure, Except.pure]

theorem clearCartExcept_awaits (s : ShoppingCart) (env : ClearEnv) :
    clearCartExcept s env.awaits =
      .ok ((clearCart s env).result, (clearCart s env).state) := by
  cases hl : env.loggedIn with
  | false => simp [clearCartExcept, clearCart, ClearEnv.awaits, hl, pure, Except.pure]
  | true =>
  cases hc : env.confirm with
  | false => simp [clearCartExcept, clearCart, ClearEnv.awaits, hl, hc, pure, Except.pure]
  | true =>
  cases hu : env.user with
  | none =>
    simp [clearCartExcept, clearCartTry, clearCart, ClearEnv.awaits, hl, hc, hu,
      awaitUserId_ok, caught, Raised.message, awaitCall, bind, Except.bind, pure, Except.pure]
  | some uid =>
  cases hd : env.deleteError with
  | some e =>
    simp [clearCartExcept, clearCartTry, clearCart, ClearEnv.awaits, hl, hc, hu,
      hd, awaitUserId_ok, caught, Raised.message, awaitCall, bind, Except.bind, pure, Except.pure, throw, throwThe,
      MonadExceptOf.throw]
  | none =>
    simp [clearCartExcept, clearCartTry, clearCart, ClearEnv.awaits, hl, hc, hu,
      hd, awaitUserId_ok, Raised.message, awaitCall, bind, Except.bind, pure, Except.pure]

theorem addToCartExcept_awaits (s : ShoppingCart) (env : AddEnv) (productId : ProductId)
    (productName : String) (productPrice : Int) (productImage : String) (quantity : Int) :
    addToCartExcept s env.awaits productId quantity =
      .ok ((addToCart s env productId productName productPrice productImage quantity).result,
        (addToCart s env productId productName productPrice productImage quantity).state) := by
  cases hl : env.loggedIn with
  | false => simp [addToCartExcept, addToCart, AddEnv.awaits, hl, pure, Except.pure]
  | true =>
  cases he : env.product.error with
  | some e =>
    simp [addToCartExcept, addToCartTry, addToCart, AddEnv.awaits, hl, he, caught, Raised.message, awaitCall, bind,
      Except.bind, pure, Except.pure, throw, throwThe, MonadExceptOf.throw]
  | none =>
  cases hd : env.product.data with
  | none =>
    simp [addToCartExcept, addToCartTry, addToCart, AddEnv.awaits, hl, he, hd, caught, Raised.message, awaitCall, bind,
      Except.bind, pure, Except.pure, throw, throwThe, MonadExceptOf.throw]
  | some p =>
  cases ha : p.active with
  | false =>
    simp [addToCartExcept, addToCartTry, addToCart, AddEnv.awaits, hl, he, hd, ha, caught,
      Raised.message, awaitCall, bind, Except.bind, pure, Except.pure, throw, throwThe, MonadExceptOf.throw]
  | true =>
  by_cases hst : p.stock < cachedQuantity s.cart productId + quantity
  · simp only [cachedQuantity] at hst
    simp [addToCartExcept, addToCartTry, addToCart, AddEnv.awaits, hl, he, hd, ha, caught,
      setLoading, hst, Raised.message, awaitCall, bind, Except.bind, pure, Except.pure, throw, throwThe,
      MonadExceptOf.throw]
  · simp only [cachedQuantity] at hst
    cases hu : env.user with
    | none =>
      simp [addToCartExcept, addToCartTry, addToCart, AddEnv.awaits, hl, he, hd, ha, caught,
        setLoading, hst, hu, awaitUserId_ok, Raised.message, awaitCall, bind, Except.bind, pure, Except.pure, throw,
        throwThe, MonadExceptOf.throw]
    | some uid =>
    cases hups : env.upsertError with
    | some e =>
      simp [addToCartExcept, addToCartTry, addToCart, AddEnv.awaits, hl, he, hd, ha, caught,
        setLoading, hst, hu, hups, awaitUserId_ok, Raised.message, awaitCall, bind, Except.bind, pure, Except.pure,
        throw, throwThe, MonadExceptOf.throw]
    | none =>
      simp [addToCartExcept, addToCartTry, addToCart, AddEnv.awaits, hl, he, hd, ha,
        setLoading, hst, hu, hups, awaitUserId_ok, Raised.message, awaitCall, bind, Except.bind, pure, Except.pure]

theorem updateQuantityExcept_awaits (s : ShoppingCart) (env : UpdateEnv)
    (productId : ProductId) (newQuantity : Int) :
    updateQuantityExcept s env.awaits productId newQuantity =
      .ok ((updateQuantity s env productId newQuantity).result,
        (updateQuantity s env productId newQuantity).state) := by
  cases hl : env.loggedIn with
  | false => simp [updateQuantityExcept, updateQuantity, UpdateEnv.awaits, hl, pure, Except.pure]
  | true =>
  by_cases hn : newQuantity ≤ 0
  · simp [updateQuantityExcept, updateQuantityTry, updateQuantity, UpdateEnv.awaits, hl, hn,
      removeFromCartExcept_awaits, awaitCall, pure, Except.pure]
  · cases he : env.product.error with
    | some e =>
      simp [updateQuantityExcept, updateQuantityTry, updateQuantity, UpdateEnv.awaits, hl, hn,
        he, caught, Raised.message, awaitCall, bind, Except.bind, pure, Except.pure, throw, throwThe,
        MonadExceptOf.throw]
    | none =>
    cases hd : env.product.data with
    | none =>
      simp [updateQuantityExcept, updateQuantityTry, updateQuantity, UpdateEnv.awaits, hl, hn,
        he, hd, caught, Raised.message, awaitCall, bind, Except.bind, pure, Except.pure, throw, throwThe,
        MonadExceptOf.throw]
    | some p =>
    by_cases hst : p.stock < newQuantity
    · simp [updateQuantityExcept, updateQuantityTry, updateQuantity, UpdateEnv.awaits, hl, hn,
        he, hd, hst, caught, Raised.message, awaitCall, bind, Except.bind, pure, Except.pure, throw, throwThe,
        MonadExceptOf.throw]
    · cases hu : env.user with
      | none =>
        simp [updateQuantityExcept, updateQuantityTry, updateQuantity, UpdateEnv.awaits, hl,
          hn, he, hd, hst, hu, awaitUserId_ok, caught, Raised.message, awaitCall, bind, Except.bind, pure, Except.pure,
          throw, throwThe, MonadExceptOf.throw]
      | some uid =>
      cases hup : env.updateError with
      | some e =>
        simp [updateQuantityExcept, updateQuantityTry, updateQuantity, UpdateEnv.awaits, hl,
          hn, he, hd, hst, hu, hup, awaitUserId_ok, caught, Raised.message, awaitCall, bind, Except.bind, pure,
          Except.pure, throw, throwThe, MonadExceptOf.throw]
      | none =>
        simp [updateQuantityExcept, updateQuantityTry, updateQuantity, UpdateEnv.awaits, hl,
          hn, he, hd, hst, hu, hup, awaitUserId_ok, Raised.message, awaitCall, bind, Except.bind, pure, Except.pure]

theorem loadCartFromDBExcept_awaits (s : ShoppingCart) (env : LoadEnv) :
    loadCartFromDBExcept s env.awaits = .ok ((), (loadCartFromDB s env).state) := by
  cases hl : env.loggedIn with
  | false => simp [loadCartFromDBExcept, loadCartFromDB, LoadEnv.awaits, hl, pure, Except.pure]
  | true =>
  cases hu : env.user with
  | none =>
    simp [loadCartFromDBExcept, loadCartFromDBTry, loadCartFromDB, LoadEnv.awaits, hl, hu,
      awaitUserId_ok, Raised.message, awaitCall, bind, Except.bind, pure, Except.pure]
  | some uid =>
  cases he : env.cartItems.error with
  | some e =>
    simp [loadCartFromDBExcept, loadCartFromDBTry, loadCartFromDB, LoadEnv.awaits, hl, hu, he,
      awaitUserId_ok, Raised.message, awaitCall, bind, Except.bind, pure, Except.pure, throw, throwThe,
      MonadExceptOf.throw]
  | none =>
  cases hd : env.cartItems.data with
  | none =>
    simp [loadCartFromDBExcept, loadCartFromDBTry, loadCartFromDB, LoadEnv.awaits, hl, hu, he,
      hd, awaitUserId_ok, Raised.message, awaitCall, bind, Except.bind, pure, Except.pure]
  | some rows =>
  cases hm : mapRows rows with
  | none =>
    simp [loadCartFromDBExcept, loadCartFromDBTry, loadCartFromDB, LoadEnv.awaits, hl, hu, he,
      hd, hm, awaitUserId_ok, Raised.message, awaitCall, bind, Except.bind, pure, Except.pure, throw, throwThe,
      MonadExceptOf.throw]
  | some items =>
    simp [loadCartFromDBExcept, loadCartFromDBTry, loadCartFromDB, LoadEnv.awaits, hl, hu, he,
      hd, hm, awaitUserId_ok, Raised.message, awaitCall, bind, Except.bind, pure, Except.pure]

theorem checkoutExcept_awaits (s : ShoppingCart) (env : CheckoutEnv)
    (shippingData : Option ShippingData) :
    checkoutExcept s env.awaits shippingData =
      .ok ((checkout s env shippingData).result, (checkout s env shippingData).state) := by
  cases hl : env.loggedIn with
  | false => simp [checkoutExcept, checkout, CheckoutEnv.awaits, hl, pure, Except.pure]
  | true =>
  by_cases hlen : s.cart.length = 0
  · simp [checkoutExcept, checkout, CheckoutEnv.awaits, hl, hlen, pure, Except.pure]
  · cases hu : env.user with
    | none =>
      simp [checkoutExcept, checkoutTry, checkout, CheckoutEnv.awaits, hl, hlen, hu,
        awaitUserId_ok, checkoutCaught, Raised.message, awaitCall, bind, Except.bind, pure, Except.pure]
    | some uid =>
    cases hs : shippingData with
    | none =>
      simp [checkoutExcept, checkoutTry, checkout, CheckoutEnv.awaits, hl, hlen, hu,
        awaitUserId_ok, checkoutCaught, Raised.message, awaitCall, bind, Except.bind, pure, Except.pure, throw, throwThe,
        MonadExceptOf.throw]
    | some shipping =>
    cases he : env.order.error with
    | some e =>
      simp [checkoutExcept, checkoutTry, checkout, CheckoutEnv.awaits, hl, hlen, hu, he,
        awaitUserId_ok, checkoutCaught, Raised.message, awaitCall, bind, Except.bind, pure, Except.pure, throw, throwThe,
        MonadExceptOf.throw, Thrown.message]
    | none =>
    cases hd : env.order.data with
    | none =>
      simp [checkoutExcept, checkoutTry, checkout, CheckoutEnv.awaits, hl, hlen, hu, he, hd,
        awaitUserId_ok, checkoutCaught, Raised.message, awaitCall, bind, Except.bind, pure, Except.pure, throw, throwThe,
        MonadExceptOf.throw]
    | some order =>
    cases hi : env.itemsError with
    | some e =>
      simp [checkoutExcept, checkoutTry, checkout, CheckoutEnv.awaits, hl, hlen, hu, he, hd,
        hi, awaitUserId_ok, checkoutCaught, Raised.message, awaitCall, bind, Except.bind, pure, Except.pure, throw,
        throwThe, MonadExceptOf.throw, Thrown.message]
    | none =>
      have hc := clearCartExcept_awaits (setLoading s true) env.clear
      simp [checkoutExcept, checkoutTry, checkout, CheckoutEnv.awaits, hl, hlen, hu, he, hd,
        hi, awaitUserId_ok, hc, Raised.message, awaitCall, bind, Except.bind, pure, Except.pure]

theorem removeFromCartExcept_escape (s : ShoppingCart) (aw : RemoveAwaits)
    (productId : ProductId) (e : Thrown)
    (h : removeFromCartExcept s aw productId = .error e) :
    rejectedNullish aw.user = true ∨ rejectedNullish aw.delete = true := by
  cases hl : aw.loggedIn with
  | false => simp [removeFromCartExcept, hl, pure, Except.pure] at h
  | true =>
  cases hu : aw.user with
  | error r => cases r <;>
      simp [removeFromCartExcept, removeFromCartTry, awaitUserId, hl, hu, rejectedNullish,
        Raised.message, bind, Except.bind, pure, Except.pure, throw, throwThe,
        MonadExceptOf.throw] at h ⊢
  | ok u =>
  cases hd : aw.delete with
  | error r => cases r <;> cases u <;>
      simp [removeFromCartExcept, removeFromCartTry, awaitUserId, hl, hu, hd, rejectedNullish,
        Raised.message, bind, Except.bind, pure, Except.pure, throw, throwThe,
        MonadExceptOf.throw] at h ⊢
  | ok d => cases u <;> cases d <;>
      simp [removeFromCartExcept, removeFromCartTry, awaitUserId, hl, hu, hd, rejectedNullish,
        Raised.message, bind, Except.bind, pure, Except.pure, throw, throwThe,
        MonadExceptOf.throw] at h ⊢

theorem clearCartExcept_escape (s : ShoppingCart) (aw : ClearAwaits) (e : Thrown)
    (h : clearCartExcept s aw = .error e) :
    rejectedNullish aw.user = true ∨ rejectedNullish aw.delete = true := by
  cases hl : aw.loggedIn with
  | false => simp [clearCartExcept, hl, pure, Except.pure] at h
  | true =>
  cases hc : aw.confirm with
  | false => simp [clearCartExcept, hl, hc, pure, Except.pure] at h
  | true =>
  cases hu : aw.user with
  | error r => cases r <;>
      simp [clearCartExcept, clearCartTry, awaitUserId, hl, hc, hu, rejectedNullish,
        Raised.message, bind, Except.bind, pure, Except.pure, throw, throwThe,
        MonadExceptOf.throw] at h ⊢
  | ok u =>
  cases hd : aw.delete with
  | error r => cases r <;> cases u <;>
      simp [clearCartExcept, clearCartTry, awaitUserId, hl, hc, hu, hd, rejectedNullish,
        Raised.message, bind, Except.bind, pure, Except.pure, throw, throwThe,
        MonadExceptOf.throw] at h ⊢
  | ok d => cases u <;> cases d <;>
      simp [clearCartExcept, clearCartTry, awaitUserId, hl, hc, hu, hd, rejectedNullish,
        Raised.message, bind, Except.bind, pure, Except.pure, throw, throwThe,
        MonadExceptOf.throw] at h ⊢

theorem addToCartExcept_escape (s : ShoppingCart) (aw : AddAwaits) (productId : ProductId)
    (quantity : Int) (e : Thrown)
    (h : addToCartExcept s aw productId quantity = .error e) :
    rejectedNullish aw.product = true ∨ rejectedNullish aw.user = true ∨
      rejectedNullish aw.upsert = true := by
  cases hl : aw.loggedIn with
  | false => simp [addToCartExcept, hl, pure, Except.pure] at h
  | true =>
  cases hp : aw.product with
  | error r => cases r <;>
      simp [addToCartExcept, addToCartTry, hl, hp, rejectedNullish, Raised.message, bind,
        Except.bind, pure, Except.pure, throw, throwThe, MonadExceptOf.throw] at h ⊢
  | ok response =>
  cases he : response.error with
  | some err =>
      simp [addToCartExcept, addToCartTry, hl, hp, he, Raised.message, bind,
        Except.bind, pure, Except.pure, throw, throwThe, MonadExceptOf.throw] at h
  | none =>
  cases hd : response.data with
  | none =>
      simp [addToCartExcept, addToCartTry, hl, hp, he, hd, Raised.message, bind,
        Except.bind, pure, Except.pure, throw, throwThe, MonadExceptOf.throw] at h
  | some p =>
  cases ha : p.active with
  | false =>
      simp [addToCartExcept, addToCartTry, hl, hp, he, hd, ha, Raised.message, bind,
        Except.bind, pure, Except.pure, throw, throwThe, MonadExceptOf.throw] at h
  | true =>
  by_cases hst : p.stock < cachedQuantity s.cart productId + quantity
  · simp only [cachedQuantity] at hst
    simp [addToCartExcept, addToCartTry, hl, hp, he, hd, ha, hst, setLoading, Raised.message,
      bind, Except.bind, pure, Except.pure, throw, throwThe, MonadExceptOf.throw] at h
  · simp only [cachedQuantity] at hst
    cases hu : aw.user with
    | error r => cases r <;>
        simp [addToCartExcept, addToCartTry, awaitUserId, hl, hp, he, hd, ha, hst, hu,
          setLoading, rejectedNullish, Raised.message, bind, Except.bind, pure, Except.pure,
          throw, throwThe, MonadExceptOf.throw] at h ⊢
    | ok u =>
    cases hw : aw.upsert with
    | error r => cases r <;> cases u <;>
        simp [addToCartExcept, addToCartTry, awaitUserId, hl, hp, he, hd, ha, hst, hu, hw,
          setLoading, rejectedNullish, Raised.message, bind, Except.bind, pure, Except.pure,
          throw, throwThe, MonadExceptOf.throw] at h ⊢
    | ok d => cases u <;> cases d <;>
        simp [addToCartExcept, addToCartTry, awaitUserId, hl, hp, he, hd, ha, hst, hu, hw,
          setLoading, rejectedNullish, Raised.message, bind, Except.bind, pure, Except.pure,
          throw, throwThe, MonadExceptOf.throw] at h ⊢

theorem updateQuantityExcept_escape (s : ShoppingCart) (aw : UpdateAwaits)
    (productId : ProductId) (newQuantity : Int) (e : Thrown)
    (h : updateQuantityExcept s aw productId newQuantity = .error e) :
    rejectedNullish aw.product = true ∨ rejectedNullish aw.user = true ∨
      rejectedNullish aw.update = true := by
  cases hl : aw.loggedIn with
  | false => simp [updateQuantityExcept, hl, pure, Except.pure] at h
  | true =>
  by_cases hn : newQuantity ≤ 0
  · cases hr : removeFromCartExcept (setLoading s true) aw.remove productId with
    | error t =>
        simp [updateQuantityExcept, updateQuantityTry, hl, hn, hr, awaitCall, Raised.message,
          pure, Except.pure] at h
    | ok v =>
        simp [updateQuantityExcept, updateQuantityTry, hl, hn, hr, awaitCall, Raised.message,
          pure, Except.pure] at h
  · cases hp : aw.product with
    | error r => cases r <;>
        simp [updateQuantityExcept, updateQuantityTry, hl, hn, hp, rejectedNullish,
          Raised.message, bind, Except.bind, pure, Except.pure, throw, throwThe,
          MonadExceptOf.throw] at h ⊢
    | ok response =>
    cases he : response.error with
    | some err =>
        simp [updateQuantityExcept, updateQuantityTry, hl, hn, hp, he, Raised.message, bind,
          Except.bind, pure, Except.pure, throw, throwThe, MonadExceptOf.throw] at h
    | none =>
    cases hd : response.data with
    | none =>
        simp [updateQuantityExcept, updateQuantityTry, hl, hn, hp, he, hd, Raised.message,
          bind, Except.bind, pure, Except.pure, throw, throwThe, MonadExceptOf.throw] at h
    | some p =>
    by_cases hst : p.stock < newQuantity
    · simp [updateQuantityExcept, updateQuantityTry, hl, hn, hp, he, hd, hst, Raised.message,
        bind, Except.bind, pure, Except.pure, throw, throwThe, MonadExceptOf.throw] at h
    · cases hu : aw.user with
      | error r => cases r <;>
          simp [updateQuantityExcept, updateQuantityTry, awaitUserId, hl, hn, hp, he, hd, hst,
            hu, rejectedNullish, Raised.message, bind, Except.bind, pure, Except.pure,
            throw, throwThe, MonadExceptOf.throw] at h ⊢
      | ok u =>
      cases hw : aw.update with
      | error r => cases r <;> cases u <;>
          simp [updateQuantityExcept, updateQuantityTry, awaitUserId, hl, hn, hp, he, hd, hst,
            hu, hw, rejectedNullish, Raised.message, bind, Except.bind, pure, Except.pure,
            throw, throwThe, MonadExceptOf.throw] at h ⊢
      | ok d => cases u <;> cases d <;>
          simp [updateQuantityExcept, updateQuantityTry, awaitUserId, hl, hn, hp, he, hd, hst,
            hu, hw, rejectedNullish, Raised.message, bind, Except.bind, pure, Except.pure,
            throw, throwThe, MonadExceptOf.throw] at h ⊢

theorem checkoutExcept_escape (s : ShoppingCart) (aw : CheckoutAwaits)
    (shippingData : Option ShippingData) (e : Thrown)
    (h : checkoutExcept s aw shippingData = .error e) :
    rejectedNullish aw.user = true ∨ rejectedNullish aw.order = true ∨
      rejectedNullish aw.items = true := by
  cases hl : aw.loggedIn with
  | false => simp [checkoutExcept, hl, pure, Except.pure] at h
  | true =>
  by_cases hlen : s.cart.length = 0
  · simp [checkoutExcept, hl, hlen, pure, Except.pure] at h
  · cases hu : aw.user with
    | error r => cases r <;>
        simp [checkoutExcept, checkoutTry, awaitUserId, hl, hlen, hu, rejectedNullish,
          Raised.message, bind, Except.bind, pure, Except.pure, throw, throwThe,
          MonadExceptOf.throw] at h ⊢
    | ok u =>
    cases u with
    | none =>
        simp [checkoutExcept, checkoutTry, awaitUserId, hl, hlen, hu, Raised.message, bind,
          Except.bind, pure, Except.pure, throw, throwThe, MonadExceptOf.throw] at h
    | some uid =>
    cases shippingData with
    | none =>
        simp [checkoutExcept, checkoutTry, awaitUserId, hl, hlen, hu, Raised.message, bind,
          Except.bind, pure, Except.pure, throw, throwThe, MonadExceptOf.throw] at h
    | some shipping =>
    cases ho : aw.order with
    | error r => cases r <;>
        simp [checkoutExcept, checkoutTry, awaitUserId, hl, hlen, hu, ho, rejectedNullish,
          Raised.message, bind, Except.bind, pure, Except.pure, throw, throwThe,
          MonadExceptOf.throw] at h ⊢
    | ok response =>
    cases he : response.error with
    | some err =>
        simp [checkoutExcept, checkoutTry, awaitUserId, hl, hlen, hu, ho, he, Raised.message,
          bind, Except.bind, pure, Except.pure, throw, throwThe, MonadExceptOf.throw] at h
    | none =>
    cases hd : response.data with
    | none =>
        simp [checkoutExcept, checkoutTry, awaitUserId, hl, hlen, hu, ho, he, hd,
          Raised.message, bind, Except.bind, pure, Except.pure, throw, throwThe,
          MonadExceptOf.throw] at h
    | some order =>
    cases hi : aw.items with
    | error r => cases r <;>
        simp [checkoutExcept, checkoutTry, awaitUserId, hl, hlen, hu, ho, he, hd, hi,
          rejectedNullish, Raised.message, bind, Except.bind, pure, Except.pure, throw,
          throwThe, MonadExceptOf.throw] at h ⊢
    | ok d =>
    cases d with
    | some err =>
        simp [checkoutExcept, checkoutTry, awaitUserId, hl, hlen, hu, ho, he, hd, hi,
          Raised.message, bind, Except.bind, pure, Except.pure, throw, throwThe,
          MonadExceptOf.throw] at h
    | none =>
    cases hc : clearCartExcept (setLoading s true) aw.clear with
    | error t =>
        simp [checkoutExcept, checkoutTry, awaitUserId, hl, hlen, hu, ho, he, hd, hi, hc,
          awaitCall, Raised.message, bind, Except.bind, pure, Except.pure] at h
    | ok v =>
        simp [checkoutExcept, checkoutTry, awaitUserId, hl, hlen, hu, ho, he, hd, hi, hc,
          awaitCall, Raised.message, bind, Except.bind, pure, Except.pure] at h

theorem loadCartFromDBExcept_returns (s : ShoppingCart) (aw : LoadAwaits) :
    ∃ v, loadCartFromDBExcept s aw = .ok v := by
  unfold loadCartFromDBExcept
  split
  · exact ⟨_, rfl⟩
  · split <;> exact ⟨_, rfl⟩

/-- Three runs in which what is thrown is an object: a product select that throws, a
checkout for which no user comes back, a load with a row that has no product. Each
returns, with the cache kept or emptied. A fourth: a checkout whose inserts succeed and
whose `clearCart` lets a `TypeError` escape; that object is caught by `checkout`, which
returns a failure although the order is written. -/
theorem thrown_objects_caught_sample :
    addToCartExcept cartOfThree addSelectThrows "p1" 1 = .ok (false, cartOfThree) ∧
    checkoutExcept cartOfThree checkoutNoUser (some shipTo)
      = .ok (CheckoutResult.failure "Cannot read properties of null (reading \x27id\x27)",
          cartOfThree) ∧
    loadCartFromDBExcept cartOfThree loadMalformed
      = .ok ((), { cartOfThree with cart := [] }) ∧
    checkoutExcept cartOfThree checkoutClearRejects (some shipTo)
      = .ok (CheckoutResult.failure
          "Cannot read properties of undefined (reading \x27message\x27)", cartOfThree) :=
  ⟨rfl, rfl, rfl, rfl⟩

/-- Claim C24, the code at the failing input. A promise of the store rejected with
`undefined` or `null` is caught by the method, whose `catch` block then reads
`error.message`: that read throws, and the `TypeError` escapes `removeFromCart`,
`addToCart`, `updateQuantity`, `clearCart` and `checkout` to their callers.
`loadCartFromDB`, whose `catch` reads no property of the value caught, returns on the
same rejection. -/
theorem rejection_without_reason_escapes :
    removeFromCartExcept cartOfThree removeRejectsUndefined "p1"
      = .error (Thrown.typeError "undefined" "message") ∧
    addToCartExcept cartOfThree addRejectsUndefined "p1" 1
      = .error (Thrown.typeError "undefined" "message") ∧
    updateQuantityExcept cartOfThree updateRejectsNull "p1" 2
      = .error (Thrown.typeError "null" "message") ∧
    clearCartExcept cartOfThree clearRejectsUndefined
      = .error (Thrown.typeError "undefined" "message") ∧
    checkoutExcept cartOfThree checkoutRejectsUndefined (some shipTo)
      = .error (Thrown.typeError "undefined" "message") ∧
    (Thrown.typeError "undefined" "message").message
      = "Cannot read properties of undefined (reading \x27message\x27)" ∧
    loadCartFromDBExcept cartOfThree loadRejectsUndefined
      = .ok ((), { cartOfThree with cart := [] }) :=
  ⟨rfl, rfl, rfl, rfl, rfl, rfl, rfl⟩

/-! ## checkout while other code runs -/

theorem checkoutInterleaved_id (s : ShoppingCart) (env : CheckoutEnv)
    (shippingData : Option ShippingData) :
    checkoutInterleaved s env shippingData id id id = checkout s env shippingData := by
  cases hl : env.loggedIn with
  | false => simp [checkoutInterleaved, checkout, hl]
  | true =>
  by_cases hlen : s.cart.length = 0
  · simp [checkoutInterleaved, checkout, hl, hlen]
  · have hlen' : ¬ (setLoading s true).cart.length = 0 := hlen
    cases hu : env.user with
    | none => simp [checkoutInterleaved, checkout, hl, hlen, hu]
    | some uid =>
    cases hs : shippingData with
    | none => simp [checkoutInterleaved, checkout, hl, hlen, hu]
    | some shipping =>
    cases he : env.order.error with
    | some e => simp [checkoutInterleaved, checkout, hl, hlen, hu, he]
    | none =>
    cases hd : env.order.data with
    | none => simp [checkoutInterleaved, checkout, hl, hlen, hlen', hu, he, hd]
    | some order =>
    cases hi : env.itemsError with
    | some e => simp [checkoutInterleaved, checkout, hl, hlen, hu, he, hd, hi]
    | none => simp [checkoutInterleaved, checkout, hl, hlen, hu, he, hd, hi]

/-- Claim C22, as stated, fails: on the cart of two lines (2 at 1000, 3 at 500, total
3500), a signed-in `checkout` during whose wait for the insert into `orders` an
`updateQuantity` sets the first line to 5 writes the order with total 3500 and the order
items (1000, 5) and (500, 3), whose sum is 6500. -/
theorem checkout_no_snapshot_counterexample :
    (checkoutInterleaved cartOfTwoLines checkoutOk (some shipTo) id setFirstToFive id).result
      = CheckoutResult.success "ORD-7" 7 ∧
    (checkoutInterleaved cartOfTwoLines checkoutOk (some shipTo) id setFirstToFive id).calls =
      [StoreCall.getUser,
       StoreCall.insertOrder
         { user_id := "u1", total_amount := 3500, shipping_address := "Calle 1",
           phone := "300", notes := none, status := "pending" },
       StoreCall.insertOrderItems
         [{ order_id := 7, product_id := "p1", quantity := 5, unit_price := 1000,
            total_price := 5000 },
          { order_id := 7, product_id := "p2", quantity := 3, unit_price := 500,
            total_price := 1500 }],
       StoreCall.getUser, StoreCall.deleteCart "u1"] ∧
    lineTotal cartOfTwoLines.cart = 3500 ∧
    (3500 : Int) ≠ 5000 + 1500 := by
  decide

/-- Claim C22, amended. On a reachable state with at least one line, when the code that
runs while a signed-in `checkout` waits for `getUser` and for the insert into `orders`
leaves items, count and total as they were when `checkout` began, and both inserts
succeed, the order carries the sum of price times quantity over the lines of that cart
and the order items are those lines, in order; so the total written equals the sum over
the lines written. -/
theorem checkout_undisturbed (s : ShoppingCart) (env : CheckoutEnv)
    (shipping : ShippingData) (uid : UserId) (order : OrderRow)
    (during1 during2 during3 : ShoppingCart → ShoppingCart)
    (hreach : Reachable s) (hne : s.cart ≠ []) (hlog : env.loggedIn = true)
    (huser : env.user = some uid) (horder : env.order = ⟨some order, none⟩)
    (hitems : env.itemsError = none)
    (h1 : getCart (during1 (setLoading s true)) = getCart s)
    (h2 : getCart (during2 (during1 (setLoading s true))) = getCart s) :
    (checkoutInterleaved s env (some shipping) during1 during2 during3).calls =
      [StoreCall.getUser,
       StoreCall.insertOrder
         { user_id := uid,
           total_amount := (s.cart.map (fun item => item.price * item.quantity)).sum,
           shipping_address := shipping.address, phone := shipping.phone,
           notes := notesOrNull shipping.notes, status := "pending" },
       StoreCall.insertOrderItems
         (s.cart.map (fun item =>
           { order_id := order.id, product_id := item.id, quantity := item.quantity,
             unit_price := item.price, total_price := item.price * item.quantity }))]
      ++ (clearCart (during3 (during2 (during1 (setLoading s true)))) env.clear).calls ∧
    ((s.cart.map (fun item =>
        ({ order_id := order.id, product_id := item.id, quantity := item.quantity,
           unit_price := item.price,
           total_price := item.price * item.quantity } : OrderItem))).map
        (fun line => line.unit_price * line.quantity)).sum
      = (s.cart.map (fun item => item.price * item.quantity)).sum := by
  have hsync : s.cartTotal = lineTotal s.cart := by
    rcases reachable_synced_or_empty s hreach with h | h
    · exact h.2
    · exact absurd h hne
  have hlen : ¬ s.cart.length = 0 := by
    intro h
    exact hne (List.length_eq_zero.mp h)
  simp only [getCart, Prod.mk.injEq] at h1 h2
  refine ⟨?_, ?_⟩
  · unfold checkoutInterleaved
    simp only [hlog, Bool.not_true, Bool.false_eq_true, if_false, hlen, huser, horder, hitems]
    simp [h1.2.2, h2.1, hsync, lineTotal, toOrderItem]
  · simp [List.map_map, Function.comp_def]

/-- Claim C22, amended, on the cart of two lines with nothing running in between. -/
theorem checkout_undisturbed_witness :
    (checkoutInterleaved cartOfTwoLines checkoutOk (some shipTo) id id id).calls =
      [StoreCall.getUser,
       StoreCall.insertOrder
         { user_id := "u1", total_amount := 3500, shipping_address := "Calle 1",
           phone := "300", notes := none, status := "pending" },
       StoreCall.insertOrderItems
         [{ order_id := 7, product_id := "p1", quantity := 2, unit_price := 1000,
            total_price := 2000 },
          { order_id := 7, product_id := "p2", quantity := 3, unit_price := 500,
            total_price := 1500 }]]
      ++ (clearCart (setLoading cartOfTwoLines true) checkoutOk.clear).calls :=
  (checkout_undisturbed cartOfTwoLines checkoutOk shipTo "u1" orderSeven id id id
    (Reachable.load ShoppingCart.new loadTwoLines Reachable.new) (by decide) rfl rfl rfl rfl
    rfl rfl).1

/-! ## Calls for one product, overlapping and one after the other -/

theorem addToCart_validate_commit (s : ShoppingCart) (env : AddEnv) (productId : ProductId)
    (productName : String) (productPrice : Int) (productImage : String) (quantity : Int)
    (pending : AddPending) (hlog : env.loggedIn = true) (hups : env.upsertError = none)
    (hv : addToCartValidate (setLoading s true) env productId quantity = .ok pending) :
    (addToCart s env productId productName productPrice productImage quantity).result = true ∧
    (addToCart s env productId productName productPrice productImage quantity).calls =
      [.selectProduct productId, .getUser,
       .upsertCart pending.uid productId pending.newTotalQuantity] ∧
    (addToCart s env productId productName productPrice productImage quantity).state =
      setLoading (addToCartCommit (setLoading s true) pending productId quantity) false := by
  cases he : env.product.error with
  | some e => simp [addToCartValidate, he] at hv
  | none =>
  cases hd : env.product.data with
  | none => simp [addToCartValidate, he, hd] at hv
  | some p =>
  cases ha : p.active with
  | false => simp [addToCartValidate, he, hd, ha] at hv
  | true =>
  by_cases hst : p.stock < cachedQuantity s.cart productId + quantity
  · simp only [cachedQuantity] at hst
    simp [addToCartValidate, he, hd, ha, setLoading, hst] at hv
  · simp only [cachedQuantity] at hst
    cases hu : env.user with
    | none => simp [addToCartValidate, he, hd, ha, setLoading, hst, hu] at hv
    | some uid =>
      simp only [addToCartValidate, he, hd, ha, setLoading, hst, hu, Bool.not_true,
        Bool.false_eq_true, if_false, gt_iff_lt, Except.ok.injEq] at hv
      subst hv
      cases hf : s.cart.find? (fun item => item.id = productId) with
      | none =>
        simp only [hf, zero_add] at hst
        simp [addToCart, addToCartCommit, hlog, he, hd, ha, setLoading, hst, hu, hups, hf]
      | some item =>
        simp only [hf] at hst
        simp [addToCart, addToCartCommit, hlog, he, hd, ha, setLoading, hst, hu, hups, hf]

/-- Claim C23, as stated, fails: on the empty cart, with 5 in stock, a first `addToCart`
of 3 and a second of 4 for the same product overlap. Each passes its check against the
cart as it is when its product select answers (no line yet) and sends its upsert, 3 and
4. The second is acknowledged first, then the first: the cache ends with two lines for
the product, 4 and 3, count 7. -/
theorem overlapping_adds_counterexample :
    addToCartValidate (setLoading ShoppingCart.new true) addOk "p1" 3
      = .ok { existingItem := none, newTotalQuantity := 3, product := caramelo,
              uid := "u1" } ∧
    addToCartValidate (setLoading ShoppingCart.new true) addOk "p1" 4
      = .ok { existingItem := none, newTotalQuantity := 4, product := caramelo,
              uid := "u1" } ∧
    (addToCartCommit
      (addToCartCommit (setLoading ShoppingCart.new true)
        { existingItem := none, newTotalQuantity := 4, product := caramelo, uid := "u1" }
        "p1" 4)
      { existingItem := none, newTotalQuantity := 3, product := caramelo, uid := "u1" }
      "p1" 3).cart =
      [{ id := "p1", name := "Caramelo", price := 1000, image := "c.png", quantity := 4,
         stock := 5, unit := "UND", active := true },
       { id := "p1", name := "Caramelo", price := 1000, image := "c.png", quantity := 3,
         stock := 5, unit := "UND", active := true }] ∧
    (addToCartCommit
      (addToCartCommit (setLoading ShoppingCart.new true)
        { existingItem := none, newTotalQuantity := 4, product := caramelo, uid := "u1" }
        "p1" 4)
      { existingItem := none, newTotalQuantity := 3, product := caramelo, uid := "u1" }
      "p1" 3).cartCount = 7 ∧
    caramelo.stock = 5 ∧ ¬ ((7 : Int) ≤ caramelo.stock) :=
  ⟨rfl, rfl, by decide, by decide, by decide, by decide⟩

theorem writtenQuantity_isCartQuantityWrite (c : StoreCall) (q : Int)
    (h : c.writtenQuantity = some q) : c.isCartQuantityWrite = true := by
  cases c <;> simp [StoreCall.writtenQuantity] at h <;> rfl

theorem addToCart_written (s : ShoppingCart) (env : AddEnv) (productId : ProductId)
    (productName : String) (productPrice : Int) (productImage : String) (quantity : Int) :
    ∀ c ∈ (addToCart s env productId productName productPrice productImage quantity).calls,
      ∀ q, c.writtenQuantity = some q → ∃ p, env.product.data = some p ∧ q ≤ p.stock := by
  cases hl : env.loggedIn with
  | false => simp [addToCart, hl]
  | true =>
  cases he : env.product.error with
  | some e => simp [addToCart, hl, he, caught, StoreCall.writtenQuantity]
  | none =>
  cases hd : env.product.data with
  | none => simp [addToCart, hl, he, hd, caught, StoreCall.writtenQuantity]
  | some p =>
  cases ha : p.active with
  | false => simp [addToCart, hl, he, hd, ha, caught, StoreCall.writtenQuantity]
  | true =>
  by_cases hst : p.stock < cachedQuantity s.cart productId + quantity
  · simp only [cachedQuantity] at hst
    simp [addToCart, hl, he, hd, ha, caught, setLoading, hst, StoreCall.writtenQuantity]
  · simp only [cachedQuantity] at hst
    have hle := not_lt.mp hst
    cases hu : env.user with
    | none =>
      simp [addToCart, hl, he, hd, ha, caught, setLoading, hst, hu,
        StoreCall.writtenQuantity]
    | some uid =>
    cases hups : env.upsertError with
    | some e =>
      simp [addToCart, hl, he, hd, ha, caught, setLoading, hst, hu, hups,
        StoreCall.writtenQuantity]
      exact hle
    | none =>
      simp [addToCart, hl, he, hd, ha, setLoading, hst, hu, hups, StoreCall.writtenQuantity]
      exact hle

theorem updateQuantity_written (s : ShoppingCart) (env : UpdateEnv) (productId : ProductId)
    (newQuantity : Int) :
    ∀ c ∈ (updateQuantity s env productId newQuantity).calls,
      ∀ q, c.writtenQuantity = some q → ∃ p, env.product.data = some p ∧ q ≤ p.stock := by
  cases hl : env.loggedIn with
  | false => simp [updateQuantity, hl]
  | true =>
  by_cases hn : newQuantity ≤ 0
  · intro c hc q hq
    simp only [updateQuantity, hl, hn, Bool.not_true, Bool.false_eq_true, if_false,
      if_true] at hc
    have h1 := (removeFromCart_calls (setLoading s true) env.remove productId c hc).2
    rw [writtenQuantity_isCartQuantityWrite c q hq] at h1
    exact absurd h1 (by decide)
  · cases he : env.product.error with
    | some e => simp [updateQuantity, hl, hn, he, caught, StoreCall.writtenQuantity]
    | none =>
    cases hd : env.product.data with
    | none => simp [updateQuantity, hl, hn, he, hd, caught, StoreCall.writtenQuantity]
    | some p =>
    by_cases hst : p.stock < newQuantity
    · simp [updateQuantity, hl, hn, he, hd, hst, caught, StoreCall.writtenQuantity]
    · have hle := not_lt.mp hst
      cases hu : env.user with
      | none =>
        simp [updateQuantity, hl, hn, he, hd, hst, hu, caught, StoreCall.writtenQuantity]
      | some uid =>
      cases hup : env.updateError with
      | some e =>
        simp [updateQuantity, hl, hn, he, hd, hst, hu, hup, caught,
          StoreCall.writtenQuantity]
        exact hle
      | none =>
        simp [updateQuantity, hl, hn, he, hd, hst, hu, hup, StoreCall.writtenQuantity]
        exact hle

theorem addToCart_false_cart (s : ShoppingCart) (env : AddEnv) (productId : ProductId)
    (productName : String) (productPrice : Int) (productImage : String) (quantity : Int)
    (h : (addToCart s env productId productName productPrice productImage quantity).result
      ≠ true) :
    (addToCart s env productId productName productPrice productImage quantity).state.cart
      = s.cart := by
  rcases step_addToCart s env productId productName productPrice productImage quantity
    with h1 | _ | _
  · simp only [getCart, Prod.mk.injEq] at h1
    exact h1.1
  all_goals
    cases hl : env.loggedIn with
    | false => simp [addToCart, hl]
    | true =>
    cases he : env.product.error with
    | some e => simp [addToCart, hl, he, caught, setLoading]
    | none =>
    cases hd : env.product.data with
    | none => simp [addToCart, hl, he, hd, caught, setLoading]
    | some p =>
    cases ha : p.active with
    | false => simp [addToCart, hl, he, hd, ha, caught, setLoading]
    | true =>
    by_cases hst : p.stock < cachedQuantity s.cart productId + quantity
    · simp only [cachedQuantity] at hst
      simp [addToCart, hl, he, hd, ha, caught, setLoading, hst]
    · simp only [cachedQuantity] at hst
      cases hu : env.user with
      | none => simp [addToCart, hl, he, hd, ha, caught, setLoading, hst, hu]
      | some uid =>
      cases hups : env.upsertError with
      | some e => simp [addToCart, hl, he, hd, ha, caught, setLoading, hst, hu, hups]
      | none =>
        exfalso
        apply h
        simp [addToCart, hl, he, hd, ha, setLoading, hst, hu, hups]

theorem removeFromCart_false_cart (s : ShoppingCart) (env : RemoveEnv)
    (productId : ProductId) (h : (removeFromCart s env productId).result ≠ true) :
    (removeFromCart s env productId).state.cart = s.cart := by
  cases hl : env.loggedIn with
  | false => simp [removeFromCart, hl]
  | true =>
  cases hu : env.user with
  | none => simp [removeFromCart, hl, hu, caught, setLoading]
  | some uid =>
  cases hd : env.deleteError with
  | some e => simp [removeFromCart, hl, hu, hd, caught, setLoading]
  | none =>
    exfalso
    apply h
    simp [removeFromCart, hl, hu, hd]

theorem updateQuantity_false_cart (s : ShoppingCart) (env : UpdateEnv)
    (productId : ProductId) (newQuantity : Int)
    (h : (updateQuantity s env productId newQuantity).result ≠ true) :
    (updateQuantity s env productId newQuantity).state.cart = s.cart := by
  cases hl : env.loggedIn with
  | false => simp [updateQuantity, hl]
  | true =>
  by_cases hn : newQuantity ≤ 0
  · simp only [updateQuantity, hl, hn, Bool.not_true, Bool.false_eq_true, if_false,
      if_true] at h ⊢
    exact removeFromCart_false_cart (setLoading s true) env.remove productId h
  · cases he : env.product.error with
    | some e => simp [updateQuantity, hl, hn, he, caught, setLoading]
    | none =>
    cases hd : env.product.data with
    | none => simp [updateQuantity, hl, hn, he, hd, caught, setLoading]
    | some p =>
    by_cases hst : p.stock < newQuantity
    · simp [updateQuantity, hl, hn, he, hd, hst, caught, setLoading]
    · cases hu : env.user with
      | none => simp [updateQuantity, hl, hn, he, hd, hst, hu, caught, setLoading]
      | some uid =>
      cases hup : env.updateError with
      | some e => simp [updateQuantity, hl, hn, he, hd, hst, hu, hup, caught, setLoading]
      | none =>
        exfalso
        apply h
        simp [updateQuantity, hl, hn, he, hd, hst, hu, hup]

theorem call_within_stock (s : ShoppingCart) (c : CartCall) (S : Int)
    (hnd : (s.cart.map (fun item => item.id)).Nodup)
    (h0 : ∀ line ∈ s.cart, line.id = c.productId → line.quantity ≤ S)
    (hS : ∀ p, c.product.data = some p → p.stock = S) :
    ((c.run s).state.cart.map (fun item => item.id)).Nodup ∧
    (∀ line ∈ (c.run s).state.cart, line.id = c.productId → line.quantity ≤ S) ∧
    (∀ call ∈ (c.run s).calls, ∀ q, call.writtenQuantity = some q → q ≤ S) := by
  cases c with
  | add env productId productName productPrice productImage quantity =>
    simp only [CartCall.run, CartCall.productId, CartCall.product] at h0 hS ⊢
    refine ⟨?_, ?_, ?_⟩
    · by_cases hr : (addToCart s env productId productName productPrice productImage
          quantity).result = true
      · obtain ⟨p, _, _, hcase⟩ :=
          addToCart_true s env productId productName productPrice productImage quantity hr
        rcases hcase with ⟨item, _, hcart⟩ | ⟨hf, hcart⟩
        · rw [hcart, setQuantity_ids]
          exact hnd
        · have hnm := find_none_not_mem productId s.cart hf
          rw [hcart]
          simp only [List.map_append, List.map_cons, List.map_nil]
          rw [List.nodup_append]
          refine ⟨hnd, by simp, ?_⟩
          intro a ha hb
          simp only [List.mem_singleton] at hb
          subst hb
          exact hnm ha
      · rw [addToCart_false_cart s env productId productName productPrice productImage
          quantity hr]
        exact hnd
    · intro line hline hid
      by_cases hr : (addToCart s env productId productName productPrice productImage
          quantity).result = true
      · obtain ⟨p, hp, hst, hcase⟩ :=
          addToCart_true s env productId productName productPrice productImage quantity hr
        have hpS := hS p hp
        rcases hcase with ⟨item, _, hcart⟩ | ⟨hf, hcart⟩
        · rw [hcart] at hline
          rcases mem_setQuantity productId _ s.cart hnd line hline with ⟨_, hq⟩ | ⟨_, hne⟩
          · rw [hq, ← hpS]
            exact hst
          · exact absurd hid hne
        · rw [hcart, List.mem_append, List.mem_singleton] at hline
          rcases hline with hmem | heq
          · exact h0 line hmem hid
          · subst heq
            have hq : quantity ≤ p.stock := by simpa [cachedQuantity, hf] using hst
            rw [← hpS]
            exact hq
      · rw [addToCart_false_cart s env productId productName productPrice productImage
          quantity hr] at hline
        exact h0 line hline hid
    · intro call hcall q hq
      obtain ⟨p, hp, hle⟩ :=
        addToCart_written s env productId productName productPrice productImage quantity
          call hcall q hq
      rw [← hS p hp]
      exact hle
  | update env productId newQuantity =>
    simp only [CartCall.run, CartCall.productId, CartCall.product] at h0 hS ⊢
    refine ⟨?_, ?_, ?_⟩
    · by_cases hr : (updateQuantity s env productId newQuantity).result = true
      · rcases updateQuantity_true s env productId newQuantity hr with
          ⟨_, hcart⟩ | ⟨_, p, _, _, hcart⟩
        · rw [hcart]
          exact List.Nodup.sublist (List.Sublist.map _ (List.filter_sublist _)) hnd
        · rw [hcart, setQuantity_ids]
          exact hnd
      · rw [updateQuantity_false_cart s env productId newQuantity hr]
        exact hnd
    · intro line hline hid
      by_cases hr : (updateQuantity s env productId newQuantity).result = true
      · rcases updateQuantity_true s env productId newQuantity hr with
          ⟨_, hcart⟩ | ⟨_, p, hp, hst, hcart⟩
        · rw [hcart] at hline
          exact h0 line (List.mem_of_mem_filter hline) hid
        · rw [hcart] at hline
          rcases mem_setQuantity productId _ s.cart hnd line hline with ⟨_, hq⟩ | ⟨_, hne⟩
          · rw [hq, ← hS p hp]
            exact hst
          · exact absurd hid hne
      · rw [updateQuantity_false_cart s env productId newQuantity hr] at hline
        exact h0 line hline hid
    · intro call hcall q hq
      obtain ⟨p, hp, hle⟩ := updateQuantity_written s env productId newQuantity call hcall q hq
      rw [← hS p hp]
      exact hle

theorem mem_setQuantity_or (productId : ProductId) (q : Int) (l : List CartItem)
    (x : CartItem) (hx : x ∈ setQuantity productId q l) : x ∈ l ∨ x.quantity = q := by
  induction l with
  | nil => simp [setQuantity] at hx
  | cons y ys ih =>
    unfold setQuantity at hx
    by_cases hy : y.id = productId
    · simp only [hy, if_true, List.mem_cons] at hx
      rcases hx with hx | hx
      · right
        subst hx
        rfl
      · left
        exact List.mem_cons_of_mem _ hx
    · simp only [hy, if_false, List.mem_cons] at hx
      rcases hx with hx | hx
      · left
        subst hx
        exact List.mem_cons_self _ _
      · rcases ih hx with h | h
        · left
          exact List.mem_cons_of_mem _ h
        · right
          exact h

theorem addToCartValidate_within_stock (s : ShoppingCart) (env : AddEnv)
    (productId : ProductId) (quantity : Int) (pending : AddPending) (S : Int)
    (hS : ∀ p, env.product.data = some p → p.stock = S)
    (hv : addToCartValidate s env productId quantity = .ok pending) :
    pending.newTotalQuantity ≤ S ∧ (pending.existingItem = none → quantity ≤ S) := by
  cases he : env.product.error with
  | some e => simp [addToCartValidate, he] at hv
  | none =>
  cases hd : env.product.data with
  | none => simp [addToCartValidate, he, hd] at hv
  | some p =>
  have hpS := hS p hd
  cases ha : p.active with
  | false => simp [addToCartValidate, he, hd, ha] at hv
  | true =>
  by_cases hst : p.stock < cachedQuantity s.cart productId + quantity
  · simp only [cachedQuantity] at hst
    simp [addToCartValidate, he, hd, ha, hst] at hv
  · simp only [cachedQuantity] at hst
    cases hu : env.user with
    | none => simp [addToCartValidate, he, hd, ha, hst, hu] at hv
    | some uid =>
      simp only [addToCartValidate, he, hd, ha, hst, hu, Bool.not_true,
        Bool.false_eq_true, if_false, gt_iff_lt, Except.ok.injEq] at hv
      subst hv
      simp only
      refine ⟨?_, ?_⟩
      · rw [← hpS]
        exact not_lt.mp hst
      · intro hnone
        rw [hnone] at hst
        rw [← hpS]
        simpa using not_lt.mp hst

theorem addToCartCommit_within_stock (t : ShoppingCart) (pending : AddPending)
    (productId : ProductId) (quantity : Int) (S : Int)
    (hq : pending.newTotalQuantity ≤ S) (hn : pending.existingItem = none → quantity ≤ S)
    (h0 : ∀ line ∈ t.cart, line.id = productId → line.quantity ≤ S) :
    ∀ line ∈ (addToCartCommit t pending productId quantity).cart,
      line.id = productId → line.quantity ≤ S := by
  intro line hline hid
  cases hex : pending.existingItem with
  | some item =>
    simp only [addToCartCommit, hex, calculateTotals] at hline
    rcases mem_setQuantity_or productId _ t.cart line hline with h | h
    · exact h0 line h hid
    · rw [h]
      exact hq
  | none =>
    simp only [addToCartCommit, hex, calculateTotals, List.mem_append,
      List.mem_singleton] at hline
    rcases hline with h | h
    · exact h0 line h hid
    · subst h
      exact hn hex

/-- Claim C23, amended. For a product whose stock the store reports as S to two
`addToCart` or `updateQuantity` calls for it, quantities being integers. First, every
quantity either call writes to the store is at most S whatever cache each call finds,
hence also when the calls overlap: a call fixes the quantity it writes from the cache as
it is when its product select has answered. Second, an `addToCart` whose check and whose
cache update are separated by other code writes at most S, and leaves every line of the
product at most S when every line of the product was so before its cache update. Third,
when the two calls run one after the other on a cache with pairwise distinct product ids
whose line for the product holds at most S, the cache afterwards has pairwise distinct
ids and its line for the product holds at most S. -/
theorem calls_within_stock (c1 c2 : CartCall) (productId : ProductId) (S : Int)
    (hp1 : c1.productId = productId) (hp2 : c2.productId = productId)
    (hS1 : ∀ p, c1.product.data = some p → p.stock = S)
    (hS2 : ∀ p, c2.product.data = some p → p.stock = S) :
    (∀ s1 s2 : ShoppingCart, ∀ call ∈ (c1.run s1).calls ++ (c2.run s2).calls,
      ∀ q, call.writtenQuantity = some q → q ≤ S) ∧
    (∀ (s t : ShoppingCart) (env : AddEnv) (quantity : Int) (pending : AddPending),
      (∀ p, env.product.data = some p → p.stock = S) →
      addToCartValidate s env productId quantity = .ok pending →
      pending.newTotalQuantity ≤ S ∧
      ((∀ line ∈ t.cart, line.id = productId → line.quantity ≤ S) →
        ∀ line ∈ (addToCartCommit t pending productId quantity).cart,
          line.id = productId → line.quantity ≤ S)) ∧
    (∀ s : ShoppingCart, (s.cart.map (fun item => item.id)).Nodup →
      (∀ line ∈ s.cart, line.id = productId → line.quantity ≤ S) →
      ((c2.run (c1.run s).state).state.cart.map (fun item => item.id)).Nodup ∧
      ∀ line ∈ (c2.run (c1.run s).state).state.cart,
        line.id = productId → line.quantity ≤ S) := by
  refine ⟨?_, ?_, ?_⟩
  · intro s1 s2 call hcall q hq
    rcases List.mem_append.mp hcall with h | h
    · cases c1 with
      | add env pid productName productPrice productImage quantity =>
        simp only [CartCall.run, CartCall.product] at h hS1
        obtain ⟨p, hp, hle⟩ :=
          addToCart_written s1 env pid productName productPrice productImage quantity
            call h q hq
        rw [← hS1 p hp]
        exact hle
      | update env pid newQuantity =>
        simp only [CartCall.run, CartCall.product] at h hS1
        obtain ⟨p, hp, hle⟩ := updateQuantity_written s1 env pid newQuantity call h q hq
        rw [← hS1 p hp]
        exact hle
    · cases c2 with
      | add env pid productName productPrice productImage quantity =>
        simp only [CartCall.run, CartCall.product] at h hS2
        obtain ⟨p, hp, hle⟩ :=
          addToCart_written s2 env pid productName productPrice productImage quantity
            call h q hq
        rw [← hS2 p hp]
        exact hle
      | update env pid newQuantity =>
        simp only [CartCall.run, CartCall.product] at h hS2
        obtain ⟨p, hp, hle⟩ := updateQuantity_written s2 env pid newQuantity call h q hq
        rw [← hS2 p hp]
        exact hle
  · intro s t env quantity pending hS hv
    have hval := addToCartValidate_within_stock s env productId quantity pending S hS hv
    exact ⟨hval.1, addToCartCommit_within_stock t pending productId quantity S hval.1 hval.2⟩
  · intro s hnd h0
    subst hp1
    have h1 := call_within_stock s c1 S hnd h0 hS1
    have h2 := call_within_stock (c1.run s).state c2 S h1.1 (by rw [hp2]; exact h1.2.1) hS2
    refine ⟨h2.1, ?_⟩
    intro line hline hid
    exact h2.2.1 line hline (by rw [hp2]; exact hid)

/-- Claim C23, amended, on the empty cart with 5 in stock: an add of 3 and an add of 4.
Whatever cache each finds, neither writes more than 5; run one after the other, the first
writes 3, the second is refused, since 3 + 4 exceeds 5, and the line holds 3. -/
theorem calls_within_stock_witness :
    ((CartCall.add addOk "p1" "Caramelo" 1000 "c.png" 3).run ShoppingCart.new).calls
      = [.selectProduct "p1", .getUser, .upsertCart "u1" "p1" 3] ∧
    ((CartCall.add addOk "p1" "Caramelo" 1000 "c.png" 4).run
      ((CartCall.add addOk "p1" "Caramelo" 1000 "c.png" 3).run ShoppingCart.new).state).result
      = false ∧
    (∀ s1 s2 : ShoppingCart,
      ∀ call ∈ ((CartCall.add addOk "p1" "Caramelo" 1000 "c.png" 3).run s1).calls
        ++ ((CartCall.add addOk "p1" "Caramelo" 1000 "c.png" 4).run s2).calls,
      ∀ q, call.writtenQuantity = some q → q ≤ 5) ∧
    (∀ line ∈ ((CartCall.add addOk "p1" "Caramelo" 1000 "c.png" 4).run
        ((CartCall.add addOk "p1" "Caramelo" 1000 "c.png" 3).run
          ShoppingCart.new).state).state.cart,
      line.id = "p1" → line.quantity ≤ 5) :=
  ⟨by decide, by decide,
   (calls_within_stock
     (CartCall.add addOk "p1" "Caramelo" 1000 "c.png" 3)
     (CartCall.add addOk "p1" "Caramelo" 1000 "c.png" 4) "p1" 5 rfl rfl
     (by intro p hp; cases hp; rfl) (by intro p hp; cases hp; rfl)).1,
   ((calls_within_stock
     (CartCall.add addOk "p1" "Caramelo" 1000 "c.png" 3)
     (CartCall.add addOk "p1" "Caramelo" 1000 "c.png" 4) "p1" 5 rfl rfl
     (by intro p hp; cases hp; rfl) (by intro p hp; cases hp; rfl)).2.2
     ShoppingCart.new (by decide)
     (by intro line hline; exact absurd hline (List.not_mem_nil _))).2⟩

end DulceriaCart
